import Mathlib

/-! # Clickatell SMS client library: a shallow embedding

A verification development for the C++ library under `src/clickatell_sms`:

* `clickatell_string.cpp`: the percent-encoding helper `click_string_url_encode`
  and the formatted append `click_string_append_formatted_cstr`;
* `clickatell_sms.cpp`: the client object `ClickatellSms`, its request builder
  `LocalApiCommandExecute`, the libcurl driver `LocalCurlExecute`, the write
  callback `LocalCurlResponseCallback` and the six public operations.

A `std::string` is a list of bytes.  libcurl is outside the repository: the
easy handle is a record of the options the library sets on it, and one
`curl_easy_perform` is answered by a `CurlOutcome` chosen by the environment.
-/

set_option autoImplicit false
set_option maxRecDepth 100000

namespace Clickatell

/-! ## Bytes and strings -/

/-- One `char` of storage. -/
abbrev Byte := Fin 256

/-- The contents of a `std::string`: any bytes, `0x00` included. -/
abbrev Str := List Byte

/-- Code of an ASCII character constant such as `'a'`. -/
def ch (c : Char) : Byte := Fin.ofNat c.toNat

/-- A C string literal of the source (ASCII only). -/
def lit (s : String) : Str := s.toList.map ch

/-- The value of a byte read through a plain (signed) `char`, promoted to `int`. -/
def asChar (b : Byte) : Int :=
  if b.val < 128 then (b.val : Int) else (b.val : Int) - 256

/-- What a `const char *` reader (`%s`, `assign(char*)`, `append(char*)`) sees of
a buffer holding `s` followed by a terminating NUL: the bytes before the first
`0x00`. -/
def c_str (s : Str) : Str := s.takeWhile (fun b => b != 0)

/-- Macro `CLICK_STR_INVALID(sData)`: `(sData).empty()`. -/
def CLICK_STR_INVALID (sData : Str) : Bool := sData.isEmpty

/-! ## clickatell_string.cpp -/

/-- Macro `URL_ENCODE_SAFE_CHAR(c)`, on the promoted value of `c`. -/
def URL_ENCODE_SAFE_CHAR (c : Int) : Bool :=
  ((c ≥ asChar (ch '0') && c ≤ asChar (ch '9')) ||
   (c ≥ asChar (ch 'A') && c ≤ asChar (ch 'Z')) ||
   (c ≥ asChar (ch 'a') && c ≤ asChar (ch 'z')) ||
   c == asChar (ch '-') || c == asChar (ch '_') || c == asChar (ch '.') ||
   c == asChar (ch '~'))

/-- The byte `chBuf[0]` after `sprintf(chBuf, "%x", iDecimalVal)` with
`iDecimalVal <= 15`: the single lowercase hexadecimal digit. -/
def sprintf_x (iDecimalVal : Nat) : Byte :=
  if iDecimalVal < 10 then Fin.ofNat (48 + iDecimalVal) else Fin.ofNat (87 + iDecimalVal)

/-- Expression `((*iterData >> 4) & 0xf)`: the arithmetic shift of the promoted
`char` is the floor division by 16 and the mask is the remainder modulo 16. -/
def upperNibble (c : Byte) : Nat := ((asChar c / 16) % 16).toNat

/-- Expression `((*iterData) & 0xf)`. -/
def lowerNibble (c : Byte) : Nat := (asChar c % 16).toNat

/-- The `while (*iterData != '\0')` loop of `click_string_url_encode`: the first
argument is what lies from `iterData` to the end of `sData` (reading at the end
yields the NUL terminator), the second is `sEncData`. -/
def urlEncodeLoop : Str → Str → Str
  | [], sEncData => sEncData
  | c :: rest, sEncData =>
    if asChar c = 0 then sEncData
    else if URL_ENCODE_SAFE_CHAR (asChar c) then
      urlEncodeLoop rest (sEncData ++ [c])
    else if asChar c = asChar (ch ' ') then
      urlEncodeLoop rest (sEncData ++ [ch '+'])
    else
      urlEncodeLoop rest
        (((sEncData ++ [ch '%']) ++ [sprintf_x (upperNibble c)]) ++ [sprintf_x (lowerNibble c)])

/-- Function `clickstr::click_string_url_encode`: the new value of `sData`. -/
def click_string_url_encode (sData : Str) : Str :=
  if CLICK_STR_INVALID sData then sData
  else urlEncodeLoop sData []

/-- Function `clickstr::click_string_append_formatted_cstr`: the new value of
`sData`, given the expansion `formatted` that `vsnprintf` writes to `chTemp`
(a C string, appended up to its terminator). -/
def click_string_append_formatted_cstr (sData : Str) (formatted : Str) : Str :=
  if sData.isEmpty then sData
  else sData ++ c_str formatted

/-- Function `clickstr::click_string_trim_prefix`: the new value of `sData`. -/
def click_string_trim_prefix (sData : Str) (iLen : Nat) : Str :=
  if sData.isEmpty then sData
  else sData.drop iLen

/-! ## The percent-encoding contract in the words of the specification -/

/-- The unreserved characters `[A-Za-z0-9-_.~]`. -/
def unreserved : Str :=
  lit "ABCDEFGHIJKLMNOPQRSTUVWXYZabcdefghijklmnopqrstuvwxyz0123456789-_.~"

/-- Hexadecimal digit (lowercase) of a value below 16. -/
def hexDigit (v : Nat) : Byte :=
  match v with
  | 0 => ch '0' | 1 => ch '1' | 2 => ch '2' | 3 => ch '3' | 4 => ch '4'
  | 5 => ch '5' | 6 => ch '6' | 7 => ch '7' | 8 => ch '8' | 9 => ch '9'
  | 10 => ch 'a' | 11 => ch 'b' | 12 => ch 'c' | 13 => ch 'd' | 14 => ch 'e'
  | _ => ch 'f'

/-- The encoding of one byte as the specification words it: the byte itself when
unreserved, `+` for a space, otherwise `%` and the two hex digits of the byte
value, high nibble first. -/
def specEncodeByte (b : Byte) : Str :=
  if b ∈ unreserved then [b]
  else if b = ch ' ' then [ch '+']
  else [ch '%', hexDigit (b.val / 16), hexDigit (b.val % 16)]

/-- The byte-by-byte concatenation of the specification. -/
def specEncode (s : Str) : Str := s.flatMap specEncodeByte

/-- Value of a hexadecimal digit, either case. -/
def hexVal (c : Byte) : Option Nat :=
  if ch '0' ≤ c ∧ c ≤ ch '9' then some (c.val - 48)
  else if ch 'a' ≤ c ∧ c ≤ ch 'f' then some (c.val - 87)
  else if ch 'A' ≤ c ∧ c ≤ ch 'F' then some (c.val - 55)
  else none

/-- The standard percent-decoder a consumer would apply: `+` becomes a space,
`%` followed by two hex digits becomes that byte, any other character is
itself. -/
def percentDecode : Str → Str
  | [] => []
  | c :: rest =>
    let tail := percentDecode rest
    if c = ch '+' then ch ' ' :: tail
    else if c = ch '%' then
      match rest with
      | h :: l :: rest2 =>
        match hexVal h, hexVal l with
        | some a, some b => Fin.ofNat (16 * a + b) :: percentDecode rest2
        | _, _ => c :: tail
      | _ => c :: tail
    else c :: tail

/-- Printable ASCII: `0x20 .. 0x7E`. -/
def printable (b : Byte) : Prop := 0x20 ≤ b.val ∧ b.val ≤ 0x7E

instance (b : Byte) : Decidable (printable b) :=
  inferInstanceAs (Decidable (0x20 ≤ b.val ∧ b.val ≤ 0x7E))

/-! ## clickatell_debug.cpp -/

/-- Enumerators of `eClickDebugOption`. -/
def CLICK_DEBUG_ON : Int := 0
def CLICK_DEBUG_OFF : Int := 1
def CLICK_DEBUG_COUNT : Int := 2

/-- Class `ClickDebug`. -/
structure ClickDebug where
  eLocalDebugOption : Int
  deriving DecidableEq, Repr

/-- Constructor `ClickDebug::ClickDebug(eDebugOption)`: its initialization list
is `eLocalDebugOption(CLICK_DEBUG_ON)`. -/
def ClickDebug.ctor (_eDebugOption : Int) : ClickDebug :=
  { eLocalDebugOption := CLICK_DEBUG_ON }

/-- Function `ClickDebug::SetOption`. -/
def ClickDebug.SetOption (self : ClickDebug) (eDebugOption : Int) : ClickDebug :=
  if eDebugOption ≥ 0 ∧ eDebugOption < CLICK_DEBUG_COUNT then
    { self with eLocalDebugOption := eDebugOption }
  else self

/-- Function `ClickDebug::Print` with a non-NULL format: `text` is the expansion
`vprintf` writes, `out` the lines written so far. -/
def ClickDebug.Print (self : ClickDebug) (text : Str) (out : List Str) : List Str :=
  if self.eLocalDebugOption ≠ CLICK_DEBUG_ON then out
  else out ++ [text]

/-! ## clickatell_sms.hpp: types -/

/-- Enumerators of `eClickApi`. -/
def CLICK_API_HTTP : Int := 0
def CLICK_API_REST : Int := 1
def CLICK_API_COUNT : Int := 2

/-- Enumerators of `eClickCurlRequestType`. -/
def CLICK_CURL_GET : Int := 0
def CLICK_CURL_POST : Int := 1
def CLICK_CURL_DELETE : Int := 2

/-- Enumeration `eClickLoginCred`. -/
inductive eClickLoginCred
  | CLICK_CRED_USER
  | CLICK_CRED_PASS
  | CLICK_CRED_APIKEY
  | CLICK_CRED_APIID
  deriving DecidableEq, Repr

/-- Struct `ClickKeyVal`. -/
structure ClickKeyVal where
  sKey : Str
  sVal : Str
  deriving DecidableEq, Repr

/-- Struct `ClickUserPass`. -/
structure ClickUserPass where
  sUsername : Str
  sPassword : Str
  deriving DecidableEq, Repr

/-- Constant `CURLE_OK` of libcurl. -/
def CURLE_OK : Int := 0

/-- One `curl_easy_setopt` call of the library on its easy handle. -/
inductive CurlOpt
  | VERBOSE (v : Int)
  | HTTP_VERSION_1_1
  | TIMEOUT (v : Int)
  | CONNECTTIMEOUT (v : Int)
  | WRITEFUNCTION
  | HTTPHEADER (headers : Option (List Str))
  | URL (url : Str)
  | WRITEDATA
  | POST (v : Int)
  | POSTFIELDS (data : Str)
  | POSTFIELDSIZE (n : Nat)
  | CUSTOMREQUEST (method : Str)
  | HTTPGET (v : Int)
  deriving DecidableEq, Repr

/-- What the environment answers to one `curl_easy_perform`: the buffers libcurl
hands to the write callback, in order (each with `size = 1` and
`nmemb =` its length), the `CURLcode` returned, and what the following
`curl_easy_getinfo(CURLINFO_RESPONSE_CODE)` returns and stores. -/
structure CurlOutcome where
  writes : List Str
  code : Int
  infoCode : Int
  responseCode : Int
  deriving DecidableEq, Repr

/-- Class `ClickatellSms`.  The easy handle `curlHandle` is the list of options
set on it so far, oldest first.  Two fields observe the object from outside:
`performed` holds the handle as it stood at each `curl_easy_perform`, and
`printed` the lines written through the member `oLocalDebug`. -/
structure ClickatellSms where
  eUserApiType : Int
  sUserApiId : Str
  oUserCred : ClickUserPass
  sUserApiKey : Str
  sFullUrl : Str
  oLocalDebug : ClickDebug
  eRequest : Int
  sClickatellResponse : Str
  curlHeaders : Option (List Str)
  curlHttpStatus : Int
  curlHandle : List CurlOpt
  curlCode : Int
  performed : List (List CurlOpt)
  printed : List Str
  deriving DecidableEq, Repr

/-- The environment of a client: the answer to `curl_easy_perform` on a handle. -/
abbrev Transport := List CurlOpt → CurlOutcome

/-- Static member `ClickatellSms::sLocalBaseUrl`. -/
def sLocalBaseUrl : Str := lit "https://api.clickatell.com/"

/-- Default timeouts `CLICK_SMS_DEFAULT_APICALL_TIMEOUT` and
`CLICK_SMS_DEFAULT_APICALL_CONNECT_TIMEOUT`. -/
def CLICK_SMS_DEFAULT_APICALL_TIMEOUT : Int := 5
def CLICK_SMS_DEFAULT_APICALL_CONNECT_TIMEOUT : Int := 5

/-- Macro `VALIDATE_API_TYPE(api)`. -/
def VALIDATE_API_TYPE (api : Int) : Bool :=
  api ≥ CLICK_API_HTTP && api < CLICK_API_COUNT

/-! ## clickatell_sms.cpp -/

/-- Function `ClickatellSms::ValidateParamAPI`; the thrown string is the error. -/
def ValidateParamAPI (eApiType : Int) : Except Str Int :=
  if !VALIDATE_API_TYPE eApiType then
    .error ( click_string_append_formatted_cstr (lit "Invalid API type for ")
      (lit "eClickApi:" ++ lit (toString eApiType)))
  else .ok eApiType

/-- Function `ClickatellSms::ValidateApiString`; the thrown string is the error. -/
def ValidateApiString (eCred : eClickLoginCred) (sParam : Str) : Except Str Str :=
  if CLICK_STR_INVALID sParam then
    .error (lit "Invalid " ++
      (match eCred with
       | .CLICK_CRED_USER => lit "user"
       | .CLICK_CRED_PASS => lit "password"
       | .CLICK_CRED_APIKEY => lit "API Key"
       | .CLICK_CRED_APIID => lit "API ID"))
  else .ok sParam

/-- Function `ClickatellSms::SetResponse`: `clear()` then `assign(chStr)`, where
`buf` is the memory `chStr` points to. -/
def SetResponse (self : ClickatellSms) (buf : Str) : ClickatellSms :=
  { self with sClickatellResponse := c_str buf }

/-- Conversion of a `size_t` value to `int` (32 bits, two's complement). -/
def toInt32 (n : Nat) : Int :=
  if n % 2 ^ 32 < 2 ^ 31 then ((n % 2 ^ 32 : Nat) : Int)
  else ((n % 2 ^ 32 : Nat) : Int) - 2 ^ 32

/-- Function `LocalCurlResponseCallback(buffer, iSize, iMemLen, response)`:
the instance after the call and the value returned.  `calloc` is taken to
succeed. -/
def LocalCurlResponseCallback (buffer : Str) (iSize iMemLen : Nat)
    (response : ClickatellSms) : ClickatellSms × Nat :=
  let iTotalSize : Int := toInt32 (iMemLen * iSize % 2 ^ 64)
  if iTotalSize > 0 then
    let cstrTempData : Str := buffer.take iTotalSize.toNat ++ [0]
    (SetResponse response cstrTempData, (iTotalSize % 2 ^ 64).toNat)
  else
    (response, (iTotalSize % 2 ^ 64).toNat)

/-- The calls libcurl makes to the write callback during one transfer.  libcurl
aborts a transfer whose callback returns another count than it was passed;
the callback returns the count it was passed for every buffer below `2^31`
bytes, and the abort is not modelled. -/
def deliverWrites : List Str → ClickatellSms → ClickatellSms
  | [], self => self
  | buffer :: rest, self =>
    deliverWrites rest (LocalCurlResponseCallback buffer 1 buffer.length self).1

/-- Function `ClickatellSms::LocalCurlConfig`: the options it sets. -/
def LocalCurlConfig (iTimeout iConnectTimeout : Int) : List CurlOpt :=
  [ .VERBOSE 0,
    .HTTP_VERSION_1_1,
    .TIMEOUT (if iTimeout ≤ 0 then CLICK_SMS_DEFAULT_APICALL_TIMEOUT else iTimeout),
    .CONNECTTIMEOUT
      (if iConnectTimeout ≤ 0 then CLICK_SMS_DEFAULT_APICALL_CONNECT_TIMEOUT
       else iConnectTimeout),
    .WRITEFUNCTION ]

/-- The options `LocalCurlExecute` sets before `curl_easy_perform`. -/
def executeOpts (self : ClickatellSms) (sPostData : Str) : List CurlOpt :=
  [ .HTTPHEADER self.curlHeaders, .URL (c_str self.sFullUrl), .WRITEDATA ] ++
  (if self.eRequest = CLICK_CURL_POST then
     (if !CLICK_STR_INVALID sPostData && sPostData.length > 0 then
        [ .POST 1, .POSTFIELDS sPostData, .POSTFIELDSIZE sPostData.length ]
      else [])
   else if self.eRequest = CLICK_CURL_DELETE then
     [ .CUSTOMREQUEST (lit "DELETE") ]
   else
     [ .HTTPGET 1 ])

/-- Function `ClickatellSms::LocalCurlExecute`. -/
def LocalCurlExecute (net : Transport) (self : ClickatellSms) (sPostData : Str) :
    ClickatellSms :=
  let self := { self with curlHandle := self.curlHandle ++ executeOpts self sPostData }
  let self :=
    if self.eRequest = CLICK_CURL_POST ∧
        (!CLICK_STR_INVALID sPostData && sPostData.length > 0) = true then
      { self with printed := (self.oLocalDebug.Print
          (lit "Curl post data:\n" ++ c_str sPostData ++ lit "\n") self.printed) }
    else self
  -- curlCode = curl_easy_perform(curlHandle)
  let outcome := net self.curlHandle
  let self := { self with performed := self.performed ++ [self.curlHandle] }
  let self := deliverWrites outcome.writes self
  let self := { self with curlCode := outcome.code }
  if self.curlCode = CURLE_OK then
    { self with
        curlCode := outcome.infoCode
        curlHttpStatus :=
          if outcome.infoCode = CURLE_OK then outcome.responseCode else self.curlHttpStatus }
  else self

/-- The expansion of `"%s%s=%s"` in the loop over `vKeyVals` (HTTP). -/
def appendKeyValsHttp : Nat → List ClickKeyVal → Str → Str
  | _, [], sApiParams => sApiParams
  | i, kv :: rest, sApiParams =>
    appendKeyValsHttp (i + 1) rest
      ( click_string_append_formatted_cstr sApiParams
        ((if i = 0 then lit "" else lit "&") ++ c_str kv.sKey ++ lit "=" ++ c_str kv.sVal))

/-- The expansion of `"%s%s"` in the loop over `vMsisdns` (HTTP). -/
def appendMsisdnsHttp : Nat → List Str → Str → Str
  | _, [], sApiParams => sApiParams
  | i, m :: rest, sApiParams =>
    appendMsisdnsHttp (i + 1) rest
      ( click_string_append_formatted_cstr sApiParams
        ((if i = 0 then lit "" else lit ",") ++ c_str m))

/-- The expansion of `"%s\"%s\":\"%s\""` in the loop over `vKeyVals` (REST). -/
def appendKeyValsRest : Nat → List ClickKeyVal → Str → Str
  | _, [], sApiParams => sApiParams
  | i, kv :: rest, sApiParams =>
    appendKeyValsRest (i + 1) rest
      ( click_string_append_formatted_cstr sApiParams
        ((if i = 0 then lit "" else lit ",") ++ lit "\"" ++ c_str kv.sKey ++ lit "\":\"" ++
          c_str kv.sVal ++ lit "\""))

/-- The expansion of `"%s\"%s\""` in the loop over `vMsisdns` (REST). -/
def appendMsisdnsRest : Nat → List Str → Str → Str
  | _, [], sApiParams => sApiParams
  | i, m :: rest, sApiParams =>
    appendMsisdnsRest (i + 1) rest
      ( click_string_append_formatted_cstr sApiParams
        ((if i = 0 then lit "" else lit ",") ++ lit "\"" ++ c_str m ++ lit "\""))

/-- The value of `sApiParams` that `LocalApiCommandExecute` builds. -/
def buildApiParams (eUserApiType : Int) (vKeyVals : List ClickKeyVal)
    (vMsisdns : List Str) : Str :=
  if !vKeyVals.isEmpty then
    if eUserApiType = CLICK_API_HTTP then
      let sApiParams := appendKeyValsHttp 0 vKeyVals (lit "?")
      if !vMsisdns.isEmpty then
        appendMsisdnsHttp 0 vMsisdns (sApiParams ++ lit "&to=")
      else sApiParams
    else
      let sApiParams := appendKeyValsRest 0 vKeyVals (lit "\x7b")
      let sApiParams :=
        if !vMsisdns.isEmpty then
          appendMsisdnsRest 0 vMsisdns (sApiParams ++ lit ",\"to\":[") ++ lit "]"
        else sApiParams
      sApiParams ++ lit "\x7d"
  else []

/-- Function `ClickatellSms::LocalApiCommandExecute`. -/
def LocalApiCommandExecute (net : Transport) (self : ClickatellSms) (sPath : Str)
    (vKeyVals : List ClickKeyVal) (vMsisdns : List Str) : ClickatellSms :=
  if CLICK_STR_INVALID sPath then
    { self with printed := (self.oLocalDebug.Print
        (lit "LocalApiCommandExecute ERROR: invalid parameter!\n") self.printed) }
  else
    let sApiParams := buildApiParams self.eUserApiType vKeyVals vMsisdns
    let self := { self with sFullUrl := sLocalBaseUrl ++ sPath }
    if !vKeyVals.isEmpty then
      if self.eRequest = CLICK_CURL_POST then
        LocalCurlExecute net self sApiParams
      else
        LocalCurlExecute net { self with sFullUrl := self.sFullUrl ++ sApiParams } []
    else
      LocalCurlExecute net self []

/-- The loop `for (i ...) click_string_url_encode(vKeyVals[i].sVal)`. -/
def urlEncodeVals (vKeyVals : List ClickKeyVal) : List ClickKeyVal :=
  vKeyVals.map (fun kv => { kv with sVal := click_string_url_encode kv.sVal })

/-- The three credential pairs every HTTP operation puts first. -/
def httpCredKeyVals (self : ClickatellSms) : List ClickKeyVal :=
  [ { sKey := lit "user", sVal := self.oUserCred.sUsername },
    { sKey := lit "password", sVal := self.oUserCred.sPassword },
    { sKey := lit "api_id", sVal := self.sUserApiId } ]

/-- The rejection branch shared by the operations: print the diagnostic of
`func` and return `sClickatellResponse`. -/
def rejectInvalid (self : ClickatellSms) (func : Str) : ClickatellSms × Str :=
  ({ self with printed := (self.oLocalDebug.Print
      (func ++ lit " ERROR: invalid parameter!\n") self.printed) },
   self.sClickatellResponse)

/-- Function `ClickatellSms::SmsMessageSend`: the client afterwards and the
string returned. -/
def SmsMessageSend (net : Transport) (self : ClickatellSms) (sText : Str)
    (vMsisdns : List Str) : ClickatellSms × Str :=
  let self := { self with eRequest :=
    if self.eUserApiType = CLICK_API_HTTP then CLICK_CURL_GET else CLICK_CURL_POST }
  if CLICK_STR_INVALID sText || vMsisdns.isEmpty then
    rejectInvalid self (lit "SmsMessageSend")
  else
    let self :=
      if self.eUserApiType = CLICK_API_HTTP then
        LocalApiCommandExecute net self (lit "http/sendmsg.php")
          (urlEncodeVals (httpCredKeyVals self ++ [{ sKey := lit "text", sVal := sText }]))
          vMsisdns
      else
        LocalApiCommandExecute net self (lit "rest/message")
          [{ sKey := lit "text", sVal := sText }] vMsisdns
    (self, self.sClickatellResponse)

/-- Function `ClickatellSms::SmsStatusGet`. -/
def SmsStatusGet (net : Transport) (self : ClickatellSms) (sMsgId : Str) :
    ClickatellSms × Str :=
  let self := { self with eRequest := CLICK_CURL_GET }
  if CLICK_STR_INVALID sMsgId then
    rejectInvalid self (lit "SmsStatusGet")
  else
    let self :=
      if self.eUserApiType = CLICK_API_HTTP then
        LocalApiCommandExecute net self (lit "http/querymsg.php")
          (urlEncodeVals (httpCredKeyVals self ++ [{ sKey := lit "apimsgid", sVal := sMsgId }]))
          []
      else
        LocalApiCommandExecute net self (lit "rest/message/" ++ sMsgId) [] []
    (self, self.sClickatellResponse)

/-- Function `ClickatellSms::SmsBalanceGet`. -/
def SmsBalanceGet (net : Transport) (self : ClickatellSms) : ClickatellSms × Str :=
  let self := { self with eRequest := CLICK_CURL_GET }
  let self :=
    if self.eUserApiType = CLICK_API_HTTP then
      LocalApiCommandExecute net self (lit "http/getbalance.php")
        (urlEncodeVals (httpCredKeyVals self)) []
    else
      LocalApiCommandExecute net self (lit "rest/account/balance") [] []
  (self, self.sClickatellResponse)

/-- Function `ClickatellSms::SmsChargeGet`. -/
def SmsChargeGet (net : Transport) (self : ClickatellSms) (sMsgId : Str) :
    ClickatellSms × Str :=
  let self := { self with eRequest := CLICK_CURL_GET }
  if CLICK_STR_INVALID sMsgId then
    rejectInvalid self (lit "SmsChargeGet")
  else
    let self :=
      if self.eUserApiType = CLICK_API_HTTP then
        LocalApiCommandExecute net self (lit "http/getmsgcharge.php")
          (urlEncodeVals (httpCredKeyVals self ++ [{ sKey := lit "apimsgid", sVal := sMsgId }]))
          []
      else
        LocalApiCommandExecute net self (lit "rest/message/" ++ sMsgId) [] []
    (self, self.sClickatellResponse)

/-- Function `ClickatellSms::SmsCoverageGet`. -/
def SmsCoverageGet (net : Transport) (self : ClickatellSms) (sMsisdn : Str) :
    ClickatellSms × Str :=
  let self := { self with eRequest := CLICK_CURL_GET }
  if CLICK_STR_INVALID sMsisdn then
    rejectInvalid self (lit "SmsCoverageGet")
  else
    let self :=
      if self.eUserApiType = CLICK_API_HTTP then
        LocalApiCommandExecute net self (lit "utils/routecoverage.php")
          (urlEncodeVals (httpCredKeyVals self ++ [{ sKey := lit "msisdn", sVal := sMsisdn }]))
          []
      else
        LocalApiCommandExecute net self (lit "rest/coverage/" ++ sMsisdn) [] []
    (self, self.sClickatellResponse)

/-- Function `ClickatellSms::SmsMessageStop`. -/
def SmsMessageStop (net : Transport) (self : ClickatellSms) (sMsgId : Str) :
    ClickatellSms × Str :=
  let self := { self with eRequest :=
    if self.eUserApiType = CLICK_API_HTTP then CLICK_CURL_GET else CLICK_CURL_DELETE }
  if CLICK_STR_INVALID sMsgId then
    rejectInvalid self (lit "SmsMessageStop")
  else
    let self :=
      if self.eUserApiType = CLICK_API_HTTP then
        LocalApiCommandExecute net self (lit "http/delmsg.php")
          (urlEncodeVals (httpCredKeyVals self ++ [{ sKey := lit "apimsgid", sVal := sMsgId }]))
          []
      else
        LocalApiCommandExecute net self (lit "rest/message/" ++ sMsgId) [] []
    (self, self.sClickatellResponse)

/-- Values of the members no constructor initializes. -/
structure Indeterminate where
  eRequest : Int
  curlHttpStatus : Int
  curlCode : Int
  deriving DecidableEq, Repr

/-- Function `ClickatellSms::Initialize`; `curlInitOk` tells whether
`curl_easy_init` returned a handle.  `curl_slist_append` is taken to succeed. -/
def Initialize (self : ClickatellSms) (curlInitOk : Bool)
    (iTimeout iConnectTimeout : Int) : Except Str ClickatellSms :=
  if !curlInitOk then .error (lit "curl_easy_init failed!")
  else
    let handle := LocalCurlConfig iTimeout iConnectTimeout
    let headers : List Str :=
      if self.eUserApiType = CLICK_API_REST then
        [ lit "X-Version: 1", lit "Content-Type: application/json",
          lit "Accept: application/json",
          c_str (lit "Authorization: Bearer " ++ self.sUserApiKey) ]
      else
        [ lit "Connection:keep-alive", lit "Cache-Control:max-age=0", lit "Origin:null" ]
    .ok { self with
            curlHeaders := some headers
            curlHandle := handle ++ [ .HTTPHEADER (some headers) ] }

/-- The username/password constructor of `ClickatellSms`.  The members are
initialized in declaration order; the two arguments of `oUserCred(...)` are
evaluated in an unspecified order, `passwordFirst` tells which. -/
def ctorUserPass (eDebugOpt eApiType : Int) (sUsername sPassword sApiId : Str)
    (iTimeout iConnectTimeout : Int) (curlInitOk passwordFirst : Bool)
    (u : Indeterminate) : Except Str ClickatellSms := do
  let eUserApiType ← ValidateParamAPI eApiType
  let sUserApiId ← ValidateApiString .CLICK_CRED_APIID sApiId
  let oUserCred ←
    if passwordFirst then do
      let p ← ValidateApiString .CLICK_CRED_PASS sPassword
      let n ← ValidateApiString .CLICK_CRED_USER sUsername
      pure ({ sUsername := n, sPassword := p } : ClickUserPass)
    else do
      let n ← ValidateApiString .CLICK_CRED_USER sUsername
      let p ← ValidateApiString .CLICK_CRED_PASS sPassword
      pure ({ sUsername := n, sPassword := p } : ClickUserPass)
  Initialize
    { eUserApiType := eUserApiType
      sUserApiId := sUserApiId
      oUserCred := oUserCred
      sUserApiKey := []
      sFullUrl := []
      oLocalDebug := ClickDebug.ctor eDebugOpt
      eRequest := u.eRequest
      sClickatellResponse := []
      curlHeaders := none
      curlHttpStatus := u.curlHttpStatus
      curlHandle := []
      curlCode := u.curlCode
      performed := []
      printed := [] }
    curlInitOk iTimeout iConnectTimeout

/-- The API-key constructor of `ClickatellSms`. -/
def ctorApiKey (eDebugOpt eApiType : Int) (sApiKey sApiId : Str)
    (iTimeout iConnectTimeout : Int) (curlInitOk : Bool)
    (u : Indeterminate) : Except Str ClickatellSms := do
  let eUserApiType ← ValidateParamAPI eApiType
  let sUserApiId ← ValidateApiString .CLICK_CRED_APIID sApiId
  let sUserApiKey ← ValidateApiString .CLICK_CRED_APIKEY sApiKey
  Initialize
    { eUserApiType := eUserApiType
      sUserApiId := sUserApiId
      oUserCred := { sUsername := [], sPassword := [] }
      sUserApiKey := sUserApiKey
      sFullUrl := []
      oLocalDebug := ClickDebug.ctor eDebugOpt
      eRequest := u.eRequest
      sClickatellResponse := []
      curlHeaders := none
      curlHttpStatus := u.curlHttpStatus
      curlHandle := []
      curlCode := u.curlCode
      performed := []
      printed := [] }
    curlInitOk iTimeout iConnectTimeout

/-! ## Auxiliary definitions for the proofs -/

/-- What one pass of the loop body of `click_string_url_encode` appends to
`sEncData` for a non-NUL byte. -/
def loopStep (c : Byte) : Str :=
  if URL_ENCODE_SAFE_CHAR (asChar c) then [c]
  else if asChar c = asChar (ch ' ') then [ch '+']
  else [ch '%', sprintf_x (upperNibble c), sprintf_x (lowerNibble c)]

/-- No byte of the string is `0x00`. -/
def nulFree (s : Str) : Prop := ∀ b ∈ s, b ≠ 0

instance (s : Str) : Decidable (nulFree s) :=
  inferInstanceAs (Decidable (∀ b ∈ s, b ≠ 0))

/-- Comma-joined list, as the `"%s%s"` loops build it. -/
def joinWith (sep : Str) : List Str → Str
  | [] => []
  | [a] => a
  | a :: b :: rest => a ++ sep ++ joinWith sep (b :: rest)

/-- A transport on which every call fails with `code` and delivers nothing. -/
def failingNet (code : Int) : Transport :=
  fun _ => { writes := [], code := code, infoCode := 0, responseCode := 0 }

/-- A transport on which every call succeeds with status 200 and delivers `body`
in one piece. -/
def answeringNet (body : Str) : Transport :=
  fun _ => { writes := [body], code := CURLE_OK, infoCode := CURLE_OK, responseCode := 200 }

/-- The JSON body of a REST send, in the words of the specification. -/
def jsonSendBody (t : Str) (addrs : List Str) : Str :=
  lit "\x7b\"text\":\"" ++ t ++ lit "\",\"to\":[" ++
    joinWith (lit ",") (addrs.map (fun a => lit "\"" ++ a ++ lit "\"")) ++ lit "]\x7d"

/-- The request target of an HTTP send, in the words of the specification, with
`E` the percent-encoding helper. -/
def httpSendTarget (u p i t : Str) (addrs : List Str) : Str :=
  sLocalBaseUrl ++ lit "http/sendmsg.php?user=" ++ click_string_url_encode u ++
    lit "&password=" ++ click_string_url_encode p ++
    lit "&api_id=" ++ click_string_url_encode i ++
    lit "&text=" ++ click_string_url_encode t ++
    lit "&to=" ++ joinWith (lit ",") addrs

/-- A transfer that fails without delivering any response data: the code
returned is not `CURLE_OK` and no byte reaches the write callback. -/
def failsSilently (o : CurlOutcome) : Prop :=
  o.code ≠ CURLE_OK ∧ ∀ w ∈ o.writes, w = []

/-- The REST client the API-key constructor yields for key `"KEY"` and
application id `"42"`. -/
def sampleRestClient : ClickatellSms :=
  { eUserApiType := CLICK_API_REST
    sUserApiId := lit "42"
    oUserCred := { sUsername := [], sPassword := [] }
    sUserApiKey := lit "KEY"
    sFullUrl := []
    oLocalDebug := { eLocalDebugOption := CLICK_DEBUG_ON }
    eRequest := 0
    sClickatellResponse := []
    curlHeaders := some [ lit "X-Version: 1", lit "Content-Type: application/json",
      lit "Accept: application/json", lit "Authorization: Bearer KEY" ]
    curlHttpStatus := 0
    curlHandle := [ .VERBOSE 0, .HTTP_VERSION_1_1, .TIMEOUT 5, .CONNECTTIMEOUT 5,
      .WRITEFUNCTION,
      .HTTPHEADER (some [ lit "X-Version: 1", lit "Content-Type: application/json",
        lit "Accept: application/json", lit "Authorization: Bearer KEY" ]) ]
    curlCode := 0
    performed := []
    printed := [] }

/-- The HTTP client the username/password constructor yields for user `"bob"`,
password `"p w"` and application id `"42"`. -/
def sampleHttpClient : ClickatellSms :=
  { eUserApiType := CLICK_API_HTTP
    sUserApiId := lit "42"
    oUserCred := { sUsername := lit "bob", sPassword := lit "p w" }
    sUserApiKey := []
    sFullUrl := []
    oLocalDebug := { eLocalDebugOption := CLICK_DEBUG_ON }
    eRequest := 0
    sClickatellResponse := []
    curlHeaders := some [ lit "Connection:keep-alive", lit "Cache-Control:max-age=0",
      lit "Origin:null" ]
    curlHttpStatus := 0
    curlHandle := [ .VERBOSE 0, .HTTP_VERSION_1_1, .TIMEOUT 5, .CONNECTTIMEOUT 5,
      .WRITEFUNCTION,
      .HTTPHEADER (some [ lit "Connection:keep-alive", lit "Cache-Control:max-age=0",
        lit "Origin:null" ]) ]
    curlCode := 0
    performed := []
    printed := [] }

/-- The stored response after one call of the write callback on `buffer`,
starting from `old`. -/
def responseAfterWrite (buffer : Str) (iSize iMemLen : Nat) (old : Str) : Str :=
  if toInt32 (iMemLen * iSize % 2 ^ 64) > 0 then
    c_str (buffer.take (toInt32 (iMemLen * iSize % 2 ^ 64)).toNat ++ [0])
  else old

/-- The stored response after the write callback has run on each buffer in
turn, starting from `old`. -/
def responseAfter : List Str → Str → Str
  | [], old => old
  | buffer :: rest, old =>
    responseAfter rest (responseAfterWrite buffer 1 buffer.length old)

/-! ## Auxiliary definitions: the public interface as one type -/

/-- One call of the public interface of `ClickatellSms`. -/
inductive Operation
  | send (sText : Str) (vMsisdns : List Str)
  | status (sMsgId : Str)
  | balance
  | charge (sMsgId : Str)
  | coverage (sMsisdn : Str)
  | stop (sMsgId : Str)
  deriving DecidableEq, Repr

/-- Run one call on a client: the client afterwards and the string returned. -/
def Operation.run (net : Transport) (self : ClickatellSms) : Operation → ClickatellSms × Str
  | .send sText vMsisdns => SmsMessageSend net self sText vMsisdns
  | .status sMsgId => SmsStatusGet net self sMsgId
  | .balance => SmsBalanceGet net self
  | .charge sMsgId => SmsChargeGet net self sMsgId
  | .coverage sMsisdn => SmsCoverageGet net self sMsisdn
  | .stop sMsgId => SmsMessageStop net self sMsgId

/-- The call has valid arguments: every required string and the address list
are non-empty. -/
def Operation.valid : Operation → Bool
  | .send sText vMsisdns => !sText.isEmpty && !vMsisdns.isEmpty
  | .status sMsgId => !sMsgId.isEmpty
  | .balance => true
  | .charge sMsgId => !sMsgId.isEmpty
  | .coverage sMsisdn => !sMsisdn.isEmpty
  | .stop sMsgId => !sMsgId.isEmpty

/-- A transfer that succeeds and hands `pieces` to the write callback, in
order. -/
def succeedsWith (o : CurlOutcome) (pieces : List Str) : Prop :=
  o.code = CURLE_OK ∧ o.writes = pieces

/-- A transport on which every call succeeds with status 200 and delivers the
response in the given pieces. -/
def deliveringNet (pieces : List Str) : Transport :=
  fun _ => { writes := pieces, code := CURLE_OK, infoCode := CURLE_OK, responseCode := 200 }

/-- The client of the sample REST constructor call that holds the response
`"OLD"` of an earlier call. -/
def sampleRestClientWithResponse : ClickatellSms :=
  { sampleRestClient with sClickatellResponse := lit "OLD" }

/-- The text of the invalid-API-type error for the value `eApiType`. -/
def apiTypeError (eApiType : Int) : Str :=
  lit "Invalid API type for eClickApi:" ++ lit (toString eApiType)

/-- The request timeout in force on a handle: the value of the last
`CURLOPT_TIMEOUT` set on it. -/
def appliedTimeout (handle : List CurlOpt) : Option Int :=
  handle.reverse.findSome? (fun o => match o with | .TIMEOUT v => some v | _ => none)

/-- The connect timeout in force on a handle: the value of the last
`CURLOPT_CONNECTTIMEOUT` set on it. -/
def appliedConnectTimeout (handle : List CurlOpt) : Option Int :=
  handle.reverse.findSome? (fun o => match o with | .CONNECTTIMEOUT v => some v | _ => none)

/-- Some values for the members no constructor initializes. -/
def sampleIndeterminate : Indeterminate :=
  { eRequest := 0, curlHttpStatus := 0, curlCode := 0 }

/-- The default header list of a client of variant `eApiType` that stores the
API key `sApiKey`, as the strings handed to `curl_slist_append`. -/
def defaultHeaders (eApiType : Int) (sApiKey : Str) : List Str :=
  if eApiType = CLICK_API_REST then
    [ lit "X-Version: 1", lit "Content-Type: application/json", lit "Accept: application/json",
      lit "Authorization: Bearer " ++ c_str sApiKey ]
  else
    [ lit "Connection:keep-alive", lit "Cache-Control:max-age=0", lit "Origin:null" ]

/-- The client `c2` comes from `c` by one transport call made with request
type `eRequest`: the stored URL is `sFullUrl`, the handle at the call is the
handle of `c` followed by the header list, the URL `url`, the write target and
the verb options `verbOpts`, in this order. -/
def issued (c c2 : ClickatellSms) (eRequest : Int) (sFullUrl url : Str)
    (verbOpts : List CurlOpt) : Prop :=
  c2.eRequest = eRequest ∧ c2.sFullUrl = sFullUrl ∧
  c2.performed = c.performed ++
    [c.curlHandle ++ ([ .HTTPHEADER c.curlHeaders, .URL url, .WRITEDATA ] ++ verbOpts)]

/-- The request target of an HTTP operation other than a send, in the words of
the specification, with `E` the percent-encoding helper. -/
def httpTarget (path u p i tail : Str) : Str :=
  sLocalBaseUrl ++ path ++ lit "?user=" ++ click_string_url_encode u ++
    lit "&password=" ++ click_string_url_encode p ++
    lit "&api_id=" ++ click_string_url_encode i ++ tail

/-- The request type the operation table gives for an operation under
JsonRest. -/
def restRequestType : Operation → Int
  | .send _ _ => CLICK_CURL_POST
  | .stop _ => CLICK_CURL_DELETE
  | _ => CLICK_CURL_GET

/-- The resource path the operation table gives for an operation under
JsonRest. -/
def restPath : Operation → Str
  | .send _ _ => lit "rest/message"
  | .status sMsgId => lit "rest/message/" ++ sMsgId
  | .balance => lit "rest/account/balance"
  | .charge sMsgId => lit "rest/message/" ++ sMsgId
  | .coverage sMsisdn => lit "rest/coverage/" ++ sMsisdn
  | .stop sMsgId => lit "rest/message/" ++ sMsgId

/-- The verb options of an operation under JsonRest: the POST body of a send
(the parameter blob of its text and addresses), the custom request of a stop,
a plain GET otherwise. -/
def restVerbOpts : Operation → List CurlOpt
  | .send sText vMsisdns =>
    if !CLICK_STR_INVALID
          (buildApiParams CLICK_API_REST [{ sKey := lit "text", sVal := sText }] vMsisdns) &&
        (buildApiParams CLICK_API_REST [{ sKey := lit "text", sVal := sText }] vMsisdns).length
          > 0 then
      [ .POST 1,
        .POSTFIELDS
          (buildApiParams CLICK_API_REST [{ sKey := lit "text", sVal := sText }] vMsisdns),
        .POSTFIELDSIZE
          (buildApiParams CLICK_API_REST [{ sKey := lit "text", sVal := sText }]
            vMsisdns).length ]
    else []
  | .stop _ => [ .CUSTOMREQUEST (lit "DELETE") ]
  | _ => [ .HTTPGET 1 ]

/-- The custom request string in force on a handle: the last
`CURLOPT_CUSTOMREQUEST` set on it.  The library never sets the option back to
NULL. -/
def customRequest (handle : List CurlOpt) : Option Str :=
  handle.reverse.findSome? (fun o => match o with | .CUSTOMREQUEST m => some m | _ => none)

/-- The request method libcurl puts on the wire for a handle, after the libcurl
documentation of `CURLOPT_CUSTOMREQUEST`, `CURLOPT_POST` and
`CURLOPT_HTTPGET`: a custom request string stays in force until the option is
set to NULL and replaces the method name; without one the method is POST or
GET as the later of `CURLOPT_POST` and `CURLOPT_HTTPGET` selects, and GET on a
handle where neither was set. -/
def wireMethod (handle : List CurlOpt) : Str :=
  match customRequest handle with
  | some m => m
  | none =>
    match handle.reverse.findSome?
        (fun o => match o with
          | .POST _ => some (lit "POST")
          | .HTTPGET _ => some (lit "GET")
          | _ => none) with
    | some v => v
    | none => lit "GET"

/-- The sample REST client after a stop of message `"abc"` that the transport
answered with `"OK"`. -/
def sampleRestClientAfterStop : ClickatellSms :=
  (SmsMessageStop (answeringNet (lit "OK")) sampleRestClient (lit "abc")).1

/-! ## Auxiliary definitions: the escape alphabet -/

/-- The lowercase hexadecimal digits `0-9a-f`. -/
def lowerHex : Str := lit "0123456789abcdef"


/-! ## Auxiliary definitions: the introspection snapshot -/

/-- The name `operator<<` prints for the stored request type (its local
`sReq`): POST, GET, and DELETE for every other value. -/
def requestName (eRequest : Int) : Str :=
  if eRequest = CLICK_CURL_POST then lit "POST"
  else if eRequest = CLICK_CURL_GET then lit "GET"
  else lit "DELETE"

/-- Friend function `operator<<`: the stream `os` after the client was written
to it.  `std::endl` is the newline; the flush is not modelled. -/
def operator_lshift (os : Str) (oClickSms : ClickatellSms) : Str :=
  os ++ lit "Curl " ++ c_str (requestName oClickSms.eRequest) ++ lit "-Request URL:\n" ++
    c_str oClickSms.sFullUrl ++ lit "\n" ++
    lit "Curl HTTP response code:\n" ++ lit (toString oClickSms.curlHttpStatus) ++ lit "\n" ++
    lit "Curl response:\n" ++ c_str oClickSms.sClickatellResponse ++ lit "\n"

/-- The four values `operator<<` prints. -/
structure Snapshot where
  method : Str
  url : Str
  status : Int
  response : Str
  deriving DecidableEq, Repr

/-- The values `operator<<` prints for a client. -/
def snapshot (oClickSms : ClickatellSms) : Snapshot :=
  { method := c_str (requestName oClickSms.eRequest)
    url := c_str oClickSms.sFullUrl
    status := oClickSms.curlHttpStatus
    response := c_str oClickSms.sClickatellResponse }

/-- The request type an operation stores in `eRequest`: GET under the legacy
variant, the REST verb of the operation otherwise. -/
def requestType (eUserApiType : Int) (op : Operation) : Int :=
  if eUserApiType = CLICK_API_HTTP then CLICK_CURL_GET else restRequestType op

/-- The URL in force on a handle: the last `CURLOPT_URL` set on it. -/
def requestedUrl (handle : List CurlOpt) : Option Str :=
  handle.reverse.findSome? (fun o => match o with | .URL u => some u | _ => none)

/-- The handle as it stood at the last `curl_easy_perform` of a client (the
empty handle when none was made). -/
def lastPerformed (self : ClickatellSms) : List CurlOpt :=
  self.performed.getLast?.getD []

/-- The snapshot made of one transport call only: the method libcurl sends for
the handle of the call, the URL set on that handle, the status the call
answered, and the body `body` up to its first `0x00` byte. -/
def snapshotOfCall (handle : List CurlOpt) (o : CurlOutcome) (body : Str) : Snapshot :=
  { method := wireMethod handle
    url := (requestedUrl handle).getD []
    status := o.responseCode
    response := c_str body }

/-! ## Auxiliary definitions: the request on the wire -/

/-- The header list in force on a handle: the last `CURLOPT_HTTPHEADER` set on
it, no custom header when the option is NULL or was never set. -/
def headersInForce (handle : List CurlOpt) : List Str :=
  ((handle.reverse.findSome?
    (fun o => match o with | .HTTPHEADER h => some h | _ => none)).getD none).getD []

/-- The body libcurl sends for a handle, after the libcurl documentation of
`CURLOPT_POST`, `CURLOPT_POSTFIELDS`, `CURLOPT_POSTFIELDSIZE` and
`CURLOPT_HTTPGET`: when the later of `CURLOPT_POST` and `CURLOPT_HTTPGET` on
the handle is `CURLOPT_POST`, the body is the data of the last
`CURLOPT_POSTFIELDS`, its first `n` bytes for the last `CURLOPT_POSTFIELDSIZE`
`n` and the bytes before its first `0x00` when no size was set; otherwise there
is no body.  A custom request string changes the name of the method only. -/
def wireBody (handle : List CurlOpt) : Option Str :=
  match handle.reverse.findSome?
      (fun o => match o with
        | .POST _ => some true
        | .HTTPGET _ => some false
        | _ => none) with
  | some true =>
    let data := (handle.reverse.findSome?
      (fun o => match o with | .POSTFIELDS d => some d | _ => none)).getD []
    match handle.reverse.findSome?
        (fun o => match o with | .POSTFIELDSIZE n => some n | _ => none) with
    | some n => some (data.take n)
    | none => some (c_str data)
  | _ => none

/-- One request as libcurl sends it. -/
structure WireRequest where
  method : Str
  url : Str
  headers : List Str
  body : Option Str
  deriving DecidableEq, Repr

/-- The request libcurl sends for a handle: method, URL, header list and body
in force on it. -/
def wireRequest (handle : List CurlOpt) : WireRequest :=
  { method := wireMethod handle
    url := (requestedUrl handle).getD []
    headers := headersInForce handle
    body := wireBody handle }

/-! ## Auxiliary definitions: the resources a construction acquires -/

/-- The calls of the transport library that hand out a resource:
`curl_easy_init` with whether it returned a handle, and `curl_slist_append`
with the line appended. -/
inductive CurlCall
  | curl_easy_init (ok : Bool)
  | curl_slist_append (line : Str)
  deriving DecidableEq, Repr

/-- Function `ClickatellSms::Initialize` together with the resource calls it
makes, in order. -/
def InitializeTraced (self : ClickatellSms) (curlInitOk : Bool)
    (iTimeout iConnectTimeout : Int) : Except Str ClickatellSms × List CurlCall :=
  if !curlInitOk then (.error (lit "curl_easy_init failed!"), [ .curl_easy_init false ])
  else
    let handle := LocalCurlConfig iTimeout iConnectTimeout
    let headers : List Str :=
      if self.eUserApiType = CLICK_API_REST then
        [ lit "X-Version: 1", lit "Content-Type: application/json",
          lit "Accept: application/json",
          c_str (lit "Authorization: Bearer " ++ self.sUserApiKey) ]
      else
        [ lit "Connection:keep-alive", lit "Cache-Control:max-age=0", lit "Origin:null" ]
    (.ok { self with
             curlHeaders := some headers
             curlHandle := handle ++ [ .HTTPHEADER (some headers) ] },
     .curl_easy_init true :: headers.map .curl_slist_append)

/-- The member initializers of the username/password constructor, which run
before its body: the client handed to `Initialize`, or the error thrown. -/
def initListUserPass (eDebugOpt eApiType : Int) (sUsername sPassword sApiId : Str)
    (passwordFirst : Bool) (u : Indeterminate) : Except Str ClickatellSms := do
  let eUserApiType ← ValidateParamAPI eApiType
  let sUserApiId ← ValidateApiString .CLICK_CRED_APIID sApiId
  let oUserCred ←
    if passwordFirst then do
      let p ← ValidateApiString .CLICK_CRED_PASS sPassword
      let n ← ValidateApiString .CLICK_CRED_USER sUsername
      pure ({ sUsername := n, sPassword := p } : ClickUserPass)
    else do
      let n ← ValidateApiString .CLICK_CRED_USER sUsername
      let p ← ValidateApiString .CLICK_CRED_PASS sPassword
      pure ({ sUsername := n, sPassword := p } : ClickUserPass)
  pure
    { eUserApiType := eUserApiType
      sUserApiId := sUserApiId
      oUserCred := oUserCred
      sUserApiKey := []
      sFullUrl := []
      oLocalDebug := ClickDebug.ctor eDebugOpt
      eRequest := u.eRequest
      sClickatellResponse := []
      curlHeaders := none
      curlHttpStatus := u.curlHttpStatus
      curlHandle := []
      curlCode := u.curlCode
      performed := []
      printed := [] }

/-- The member initializers of the API-key constructor, which run before its
body. -/
def initListApiKey (eDebugOpt eApiType : Int) (sApiKey sApiId : Str)
    (u : Indeterminate) : Except Str ClickatellSms := do
  let eUserApiType ← ValidateParamAPI eApiType
  let sUserApiId ← ValidateApiString .CLICK_CRED_APIID sApiId
  let sUserApiKey ← ValidateApiString .CLICK_CRED_APIKEY sApiKey
  pure
    { eUserApiType := eUserApiType
      sUserApiId := sUserApiId
      oUserCred := { sUsername := [], sPassword := [] }
      sUserApiKey := sUserApiKey
      sFullUrl := []
      oLocalDebug := ClickDebug.ctor eDebugOpt
      eRequest := u.eRequest
      sClickatellResponse := []
      curlHeaders := none
      curlHttpStatus := u.curlHttpStatus
      curlHandle := []
      curlCode := u.curlCode
      performed := []
      printed := [] }

/-- The username/password constructor together with the resource calls it
makes: none when a member initializer throws, those of `Initialize` otherwise. -/
def ctorUserPassTraced (eDebugOpt eApiType : Int) (sUsername sPassword sApiId : Str)
    (iTimeout iConnectTimeout : Int) (curlInitOk passwordFirst : Bool)
    (u : Indeterminate) : Except Str ClickatellSms × List CurlCall :=
  match initListUserPass eDebugOpt eApiType sUsername sPassword sApiId passwordFirst u with
  | .error e => (.error e, [])
  | .ok self => InitializeTraced self curlInitOk iTimeout iConnectTimeout

/-- The API-key constructor together with the resource calls it makes. -/
def ctorApiKeyTraced (eDebugOpt eApiType : Int) (sApiKey sApiId : Str)
    (iTimeout iConnectTimeout : Int) (curlInitOk : Bool)
    (u : Indeterminate) : Except Str ClickatellSms × List CurlCall :=
  match initListApiKey eDebugOpt eApiType sApiKey sApiId u with
  | .error e => (.error e, [])
  | .ok self => InitializeTraced self curlInitOk iTimeout iConnectTimeout

/-- A handle was acquired: a `curl_easy_init` returned one. -/
def handleAcquired (calls : List CurlCall) : Bool :=
  calls.any (fun call => match call with | .curl_easy_init ok => ok | _ => false)

/-- A handle was requested: `curl_easy_init` was called. -/
def handleRequested (calls : List CurlCall) : Bool :=
  calls.any (fun call => match call with | .curl_easy_init _ => true | _ => false)

/-- A header list was acquired: `curl_slist_append` was called. -/
def headersAcquired (calls : List CurlCall) : Bool :=
  calls.any (fun call => match call with | .curl_slist_append _ => true | _ => false)

/-- The client `c2` comes from `s` by one transport call on the transport `net`:
request type and variant are those of `s`, one handle was added to the calls
performed, the URL set on that handle is the stored URL as a C string, the
stored status is the status answered when both the transfer and the status
query succeed (the one of `s` otherwise), and the stored response is what the
write callback leaves of the one of `s`. -/
def reflectsCall (net : Transport) (s c2 : ClickatellSms) : Prop :=
  c2.eRequest = s.eRequest ∧ c2.eUserApiType = s.eUserApiType ∧
  c2.performed = s.performed ++ [lastPerformed c2] ∧
  requestedUrl (lastPerformed c2) = some (c_str c2.sFullUrl) ∧
  c2.curlHttpStatus =
    (if (net (lastPerformed c2)).code = CURLE_OK ∧ (net (lastPerformed c2)).infoCode = CURLE_OK
     then (net (lastPerformed c2)).responseCode else s.curlHttpStatus) ∧
  c2.sClickatellResponse =
    responseAfter (net (lastPerformed c2)).writes s.sClickatellResponse

/-! ## Percent-encoding: the loop against the specification -/

theorem loopStep_eq_spec : ∀ c : Byte, loopStep c = specEncodeByte c := by decide

theorem asChar_eq_zero : ∀ c : Byte, (asChar c = 0) = (c = 0) := by decide

theorem c_str_cons_zero (s : Str) : c_str ((0 : Byte) :: s) = [] := by
  simp [c_str]

theorem c_str_cons_ne (c : Byte) (s : Str) (h : c ≠ 0) : c_str (c :: s) = c :: c_str s := by
  simp [c_str, List.takeWhile_cons, h]

theorem c_str_of_nulFree (s : Str) (h : nulFree s) : c_str s = s := by
  induction s with
  | nil => rfl
  | cons c rest ih =>
    have hc : c ≠ 0 := h c (List.mem_cons_self c rest)
    rw [c_str_cons_ne c rest hc, ih (fun b hb => h b (List.mem_cons_of_mem c hb))]

theorem c_str_append_zero (pre post : Str) (h : nulFree pre) :
    c_str (pre ++ (0 : Byte) :: post) = pre := by
  induction pre with
  | nil => exact c_str_cons_zero post
  | cons c rest ih =>
    have hc : c ≠ 0 := h c (List.mem_cons_self c rest)
    rw [List.cons_append, c_str_cons_ne c _ hc,
      ih (fun b hb => h b (List.mem_cons_of_mem c hb))]

theorem c_str_append_of_nulFree (pre post : Str) (h : nulFree pre) :
    c_str (pre ++ post) = pre ++ c_str post := by
  induction pre with
  | nil => rfl
  | cons c rest ih =>
    have hc : c ≠ 0 := h c (List.mem_cons_self c rest)
    rw [List.cons_append, c_str_cons_ne c _ hc,
      ih (fun b hb => h b (List.mem_cons_of_mem c hb)), List.cons_append]

theorem c_str_nulFree (s : Str) : nulFree (c_str s) := by
  intro b hb
  have := List.mem_takeWhile_imp hb
  simpa using this

theorem c_str_idem (s : Str) : c_str (c_str s) = c_str s :=
  c_str_of_nulFree _ (c_str_nulFree s)

theorem specEncode_append (a b : Str) : specEncode (a ++ b) = specEncode a ++ specEncode b := by
  simp [specEncode, List.flatMap_append]

theorem specEncode_cons (c : Byte) (s : Str) :
    specEncode (c :: s) = specEncodeByte c ++ specEncode s := by
  simp [specEncode, List.flatMap_cons]

theorem urlEncodeLoop_eq (s acc : Str) :
    urlEncodeLoop s acc = acc ++ specEncode (c_str s) := by
  induction s generalizing acc with
  | nil => simp [urlEncodeLoop, c_str, specEncode]
  | cons c rest ih =>
    by_cases hc : c = 0
    · subst hc
      simp [urlEncodeLoop, c_str_cons_zero, specEncode, asChar]
    · have h0 : ¬ asChar c = 0 := by rw [asChar_eq_zero]; exact hc
      have hstep := loopStep_eq_spec c
      rw [c_str_cons_ne c rest hc, specEncode_cons, ← hstep]
      unfold urlEncodeLoop loopStep
      rw [if_neg h0]
      split
      · rw [ih]; simp
      · split
        · rw [ih]; simp
        · rw [ih]; simp

theorem click_string_url_encode_eq (s : Str) :
    click_string_url_encode s = specEncode (c_str s) := by
  unfold click_string_url_encode CLICK_STR_INVALID
  cases s with
  | nil => simp [c_str, specEncode]
  | cons c rest => simp [urlEncodeLoop_eq]

theorem unreserved_ne_zero : ∀ b : Byte, b ∈ unreserved → b ≠ 0 := by decide

theorem specEncodeByte_control : ∀ b : Byte, 0 < b.val → b.val < 0x20 →
    specEncodeByte b = [ch '%', hexDigit (b.val / 16), hexDigit (b.val % 16)] := by decide

theorem hexDigit_ne_zero (v : Nat) : hexDigit v ≠ 0 := by
  unfold hexDigit
  split <;> decide

theorem specEncodeByte_nulFree (b : Byte) : nulFree (specEncodeByte b) := by
  intro x hx
  unfold specEncodeByte at hx
  split at hx
  · next hu =>
    rw [List.mem_singleton] at hx
    subst hx
    exact unreserved_ne_zero x hu
  · split at hx
    · rw [List.mem_singleton] at hx
      subst hx
      decide
    · simp only [List.mem_cons, List.mem_singleton, List.not_mem_nil, or_false] at hx
      rcases hx with h | h | h
      · subst h; decide
      · subst h; exact hexDigit_ne_zero _
      · subst h; exact hexDigit_ne_zero _

theorem specEncode_nulFree (s : Str) : nulFree (specEncode s) := by
  intro b hb
  simp only [specEncode, List.mem_flatMap] at hb
  obtain ⟨a, _, hba⟩ := hb
  exact specEncodeByte_nulFree a b hba

theorem click_string_url_encode_nulFree (s : Str) : nulFree (click_string_url_encode s) := by
  rw [click_string_url_encode_eq]; exact specEncode_nulFree _

theorem percentDecode_step_facts : ∀ b : Byte,
    (b ∈ unreserved → b ≠ ch '+' ∧ b ≠ ch '%') ∧
    hexVal (hexDigit (b.val / 16)) = some (b.val / 16) ∧
    hexVal (hexDigit (b.val % 16)) = some (b.val % 16) ∧
    (Fin.ofNat (16 * (b.val / 16) + b.val % 16) : Byte) = b := by decide

theorem percentDecode_cons (c : Byte) (rest : Str) :
    percentDecode (c :: rest) =
      if c = ch '+' then ch ' ' :: percentDecode rest
      else if c = ch '%' then
        match rest with
        | h :: l :: rest2 =>
          match hexVal h, hexVal l with
          | some a, some b => Fin.ofNat (16 * a + b) :: percentDecode rest2
          | _, _ => c :: percentDecode rest
        | _ => c :: percentDecode rest
      else c :: percentDecode rest := by
  conv_lhs => unfold percentDecode
  rfl

theorem percentDecode_plus (rest : Str) :
    percentDecode (ch '+' :: rest) = ch ' ' :: percentDecode rest := by
  rw [percentDecode_cons, if_pos rfl]

theorem percentDecode_plain (c : Byte) (rest : Str) (h1 : c ≠ ch '+') (h2 : c ≠ ch '%') :
    percentDecode (c :: rest) = c :: percentDecode rest := by
  rw [percentDecode_cons, if_neg h1, if_neg h2]

theorem percentDecode_escape (h l : Byte) (rest : Str) (a b : Nat)
    (ha : hexVal h = some a) (hb : hexVal l = some b) :
    percentDecode (ch '%' :: h :: l :: rest) = Fin.ofNat (16 * a + b) :: percentDecode rest := by
  rw [percentDecode_cons, if_neg (by decide), if_pos rfl]
  simp only [ha, hb]
theorem percentDecode_specEncodeByte (b : Byte) (t : Str) :
    percentDecode (specEncodeByte b ++ t) = b :: percentDecode t := by
  obtain ⟨h1, h2, h3, h4⟩ := percentDecode_step_facts b
  unfold specEncodeByte
  split
  · next hu =>
    obtain ⟨hp, hq⟩ := h1 hu
    exact percentDecode_plain b t hp hq
  · split
    · next hs =>
      subst hs
      exact percentDecode_plus t
    · show percentDecode (ch '%' :: hexDigit (b.val / 16) :: hexDigit (b.val % 16) :: t) = _
      rw [percentDecode_escape _ _ t _ _ h2 h3, h4]

theorem percentDecode_specEncode (s : Str) : percentDecode (specEncode s) = s := by
  induction s with
  | nil => simp [specEncode, percentDecode]
  | cons c rest ih =>
    rw [specEncode_cons, percentDecode_specEncodeByte, ih]

theorem printable_ne_zero : ∀ b : Byte, printable b → b ≠ 0 := by decide

/-! ## Claims on `click_string_url_encode` -/

/-- C3 (as stated, refuted): on the two-byte string `'A', 0x00` the code returns
`"A"`, while the byte-by-byte concatenation of the claim is `"A%00"`. -/
theorem C3_counterexample :
    click_string_url_encode [ch 'A', 0] = lit "A" ∧
    specEncode [ch 'A', 0] = lit "A%00" ∧
    click_string_url_encode [ch 'A', 0] ≠ specEncode [ch 'A', 0] := by
  decide

/-- C3 (amended): for every string `s`, `click_string_url_encode s` is the
byte-by-byte concatenation (unreserved byte itself, `+` for a space, otherwise
`%` and two hex digits, high nibble first) taken over the bytes of `s` that
precede its first `0x00` byte, which is all of `s` when it has none;
`"Hello World!"` gives `"Hello+World%21"` and the empty string is unchanged. -/
theorem click_string_url_encode_spec :
    (∀ s : Str, click_string_url_encode s = specEncode (s.takeWhile (fun b => b != 0))) ∧
    click_string_url_encode (lit "Hello World!") = lit "Hello+World%21" ∧
    click_string_url_encode [] = [] :=
  ⟨fun s => click_string_url_encode_eq s, by decide, by decide⟩

/-- C4 (as stated, refuted): the 3-byte string `'a', 0x00, 'b'` encodes to `"a"`,
not to `"a%00b"`. -/
theorem C4_counterexample :
    click_string_url_encode [ch 'a', 0, ch 'b'] = lit "a" ∧
    click_string_url_encode [ch 'a', 0, ch 'b'] ≠ lit "a%00b" := by
  decide

/-- C4 (amended): a `0x00` byte ends the encoding, so it and every byte after it
are left out of the output; a control byte `0x01..0x1F` is encoded as its
three-character `%XX` form and the bytes after it are still encoded. -/
theorem click_string_url_encode_control (pre post : Str) (hpre : nulFree pre) :
    click_string_url_encode (pre ++ (0 : Byte) :: post) = click_string_url_encode pre ∧
    ∀ b : Byte, 0 < b.val → b.val < 0x20 →
      click_string_url_encode (pre ++ b :: post) =
        click_string_url_encode pre ++ [ch '%', hexDigit (b.val / 16), hexDigit (b.val % 16)]
          ++ click_string_url_encode post := by
  refine ⟨?_, ?_⟩
  · rw [click_string_url_encode_eq, click_string_url_encode_eq, c_str_append_zero pre post hpre,
      c_str_of_nulFree pre hpre]
  · intro b hb0 hb1
    have hb : b ≠ 0 := by
      intro h; subst h; simp at hb0
    rw [click_string_url_encode_eq, click_string_url_encode_eq, click_string_url_encode_eq,
      c_str_append_of_nulFree pre _ hpre, c_str_cons_ne b post hb, c_str_of_nulFree pre hpre,
      specEncode_append, specEncode_cons, specEncodeByte_control b hb0 hb1]
    simp

/-- Witness of C4 (amended) at `pre = "a"`, `post = "b"` and the control byte
`0x0A`. -/
theorem click_string_url_encode_control_witness :
    click_string_url_encode (lit "a" ++ (0 : Byte) :: lit "b") = click_string_url_encode (lit "a") ∧
    click_string_url_encode (lit "a" ++ (10 : Byte) :: lit "b") =
      click_string_url_encode (lit "a") ++ [ch '%', hexDigit 0, hexDigit 10]
        ++ click_string_url_encode (lit "b") :=
  ⟨(click_string_url_encode_control (lit "a") (lit "b") (by decide)).1,
   (click_string_url_encode_control (lit "a") (lit "b") (by decide)).2 10 (by decide) (by decide)⟩

/-- C5: a string all of whose bytes are in `[A-Za-z0-9-_.~]` is returned
unchanged by `click_string_url_encode`, so encoding it again changes nothing. -/
theorem click_string_url_encode_safe (s : Str) (h : ∀ b ∈ s, b ∈ unreserved) :
    click_string_url_encode s = s ∧
    click_string_url_encode (click_string_url_encode s) = click_string_url_encode s := by
  have key : click_string_url_encode s = s := by
    rw [click_string_url_encode_eq, c_str_of_nulFree s (fun b hb => unreserved_ne_zero b (h b hb))]
    induction s with
    | nil => rfl
    | cons c rest ih =>
      rw [specEncode_cons, ih (fun b hb => h b (List.mem_cons_of_mem c hb))]
      simp [specEncodeByte, h c (List.mem_cons_self c rest)]
  exact ⟨key, by rw [key, key]⟩

/-- Witness of C5 at `"Hello_World-2.0~Test"`. -/
theorem click_string_url_encode_safe_witness :
    click_string_url_encode (lit "Hello_World-2.0~Test") = lit "Hello_World-2.0~Test" ∧
    click_string_url_encode (click_string_url_encode (lit "Hello_World-2.0~Test")) =
      click_string_url_encode (lit "Hello_World-2.0~Test") :=
  click_string_url_encode_safe (lit "Hello_World-2.0~Test") (by decide)

/-- C6: for every string of printable ASCII characters, the standard
percent-decoder applied to the encoded form gives the string back; hence the
encoder is injective on printable-ASCII strings. -/
theorem percentDecode_click_string_url_encode :
    (∀ s : Str, (∀ b ∈ s, printable b) → percentDecode (click_string_url_encode s) = s) ∧
    (∀ s t : Str, (∀ b ∈ s, printable b) → (∀ b ∈ t, printable b) →
      click_string_url_encode s = click_string_url_encode t → s = t) := by
  have rt : ∀ s : Str, (∀ b ∈ s, printable b) →
      percentDecode (click_string_url_encode s) = s := by
    intro s hs
    rw [click_string_url_encode_eq,
      c_str_of_nulFree s (fun b hb => printable_ne_zero b (hs b hb)), percentDecode_specEncode]
  refine ⟨rt, ?_⟩
  intro s t hs ht heq
  rw [← rt s hs, ← rt t ht, heq]

/-- Witness of C6 at `"Hi there, 100%!"` and `"a+b"`. -/
theorem percentDecode_click_string_url_encode_witness :
    percentDecode (click_string_url_encode (lit "Hi there, 100%!")) = lit "Hi there, 100%!" ∧
    (click_string_url_encode (lit "a+b") = click_string_url_encode (lit "a+b") →
      lit "a+b" = lit "a+b") :=
  ⟨percentDecode_click_string_url_encode.1 (lit "Hi there, 100%!") (by decide),
   percentDecode_click_string_url_encode.2 (lit "a+b") (lit "a+b") (by decide) (by decide)⟩

/-! ## The transport step -/

theorem sampleRestClient_constructed :
    ctorApiKey CLICK_DEBUG_ON CLICK_API_REST (lit "KEY") (lit "42") 0 0 true
      { eRequest := 0, curlHttpStatus := 0, curlCode := 0 } = .ok sampleRestClient := by
  rfl

theorem sampleHttpClient_constructed :
    ctorUserPass CLICK_DEBUG_ON CLICK_API_HTTP (lit "bob") (lit "p w") (lit "42") 0 0 true false
      { eRequest := 0, curlHttpStatus := 0, curlCode := 0 } = .ok sampleHttpClient := by
  rfl

theorem LocalCurlResponseCallback_frame (buffer : Str) (n m : Nat) (s : ClickatellSms) :
    (LocalCurlResponseCallback buffer n m s).1 =
      { s with sClickatellResponse := responseAfterWrite buffer n m s.sClickatellResponse } := by
  unfold LocalCurlResponseCallback SetResponse responseAfterWrite
  by_cases h : toInt32 (m * n % 2 ^ 64) > 0
  · simp only [h, if_true]
  · simp only [h, if_false]

theorem deliverWrites_eq (ws : List Str) (s : ClickatellSms) :
    deliverWrites ws s =
      { s with sClickatellResponse := responseAfter ws s.sClickatellResponse } := by
  induction ws generalizing s with
  | nil => rfl
  | cons w rest ih =>
    rw [deliverWrites, ih, LocalCurlResponseCallback_frame]
    rfl

theorem LocalCurlExecute_performed (net : Transport) (s : ClickatellSms) (post : Str) :
    (LocalCurlExecute net s post).performed =
      s.performed ++ [s.curlHandle ++ executeOpts s post] := by
  simp only [LocalCurlExecute, deliverWrites_eq]
  split <;> split <;> rfl

theorem LocalCurlExecute_eRequest (net : Transport) (s : ClickatellSms) (post : Str) :
    (LocalCurlExecute net s post).eRequest = s.eRequest := by
  simp only [LocalCurlExecute, deliverWrites_eq]
  split <;> split <;> rfl

theorem LocalCurlExecute_sFullUrl (net : Transport) (s : ClickatellSms) (post : Str) :
    (LocalCurlExecute net s post).sFullUrl = s.sFullUrl := by
  simp only [LocalCurlExecute, deliverWrites_eq]
  split <;> split <;> rfl

theorem LocalCurlExecute_response (net : Transport) (s : ClickatellSms) (post : Str) :
    (LocalCurlExecute net s post).sClickatellResponse =
      responseAfter (net (s.curlHandle ++ executeOpts s post)).writes s.sClickatellResponse := by
  simp only [LocalCurlExecute, deliverWrites_eq]
  split <;> split <;> rfl

theorem responseAfter_silent (ws : List Str) (old : Str) (h : ∀ w ∈ ws, w = []) :
    responseAfter ws old = old := by
  induction ws with
  | nil => rfl
  | cons w rest ih =>
    have hw : w = [] := h w (List.mem_cons_self w rest)
    subst hw
    have h0 : responseAfterWrite [] 1 ([] : Str).length old = old := by
      simp [responseAfterWrite, toInt32]
    rw [responseAfter, h0]
    exact ih (fun x hx => h x (List.mem_cons_of_mem _ hx))

theorem LocalCurlExecute_response_silent (net : Transport) (s : ClickatellSms) (post : Str)
    (hnet : ∀ h, failsSilently (net h)) :
    (LocalCurlExecute net s post).sClickatellResponse = s.sClickatellResponse := by
  rw [LocalCurlExecute_response]
  exact responseAfter_silent _ _ (hnet _).2

theorem LocalApiCommandExecute_response_silent (net : Transport) (s : ClickatellSms)
    (sPath : Str) (kv : List ClickKeyVal) (ms : List Str)
    (hnet : ∀ h, failsSilently (net h)) :
    (LocalApiCommandExecute net s sPath kv ms).sClickatellResponse = s.sClickatellResponse := by
  unfold LocalApiCommandExecute
  split
  · rfl
  · simp only []
    split
    · split <;> rw [LocalCurlExecute_response_silent _ _ _ hnet]
    · rw [LocalCurlExecute_response_silent _ _ _ hnet]

theorem LocalApiCommandExecute_performed (net : Transport) (s : ClickatellSms)
    (sPath : Str) (kv : List ClickKeyVal) (ms : List Str) (hp : sPath ≠ []) :
    ∃ h, (LocalApiCommandExecute net s sPath kv ms).performed = s.performed ++ [h] := by
  unfold LocalApiCommandExecute
  have hq : CLICK_STR_INVALID sPath = false := by
    cases sPath with
    | nil => exact absurd rfl hp
    | cons c r => rfl
  rw [hq]
  simp only [Bool.false_eq_true, if_false]
  split
  · split <;> exact ⟨_, LocalCurlExecute_performed _ _ _⟩
  · exact ⟨_, LocalCurlExecute_performed _ _ _⟩

theorem lit_append_ne_nil (a : String) (x : Str) (h : lit a ≠ []) : lit a ++ x ≠ [] := by
  intro hx
  exact h (List.append_eq_nil.mp hx).1

theorem CLICK_STR_INVALID_of_ne (x : Str) (h : x ≠ []) : CLICK_STR_INVALID x = false := by
  cases x with
  | nil => exact absurd rfl h
  | cons c r => rfl

/-! ## Claims on the number of transport calls and on failures -/

/-- C7: an operation called with an empty id, msisdn or text, or with an empty
address list, performs no transport call; an operation called with non-empty
arguments performs exactly one, whatever the transport answers (a failure
included): the list of calls grows by one entry. -/
theorem transport_calls (net : Transport) (c : ClickatellSms) :
    (SmsStatusGet net c []).1.performed = c.performed ∧
    (SmsChargeGet net c []).1.performed = c.performed ∧
    (SmsMessageStop net c []).1.performed = c.performed ∧
    (SmsCoverageGet net c []).1.performed = c.performed ∧
    (∀ addrs : List Str, (SmsMessageSend net c [] addrs).1.performed = c.performed) ∧
    (∀ t : Str, (SmsMessageSend net c t []).1.performed = c.performed) ∧
    (∀ x : Str, x ≠ [] → ∃ h, (SmsStatusGet net c x).1.performed = c.performed ++ [h]) ∧
    (∀ x : Str, x ≠ [] → ∃ h, (SmsChargeGet net c x).1.performed = c.performed ++ [h]) ∧
    (∀ x : Str, x ≠ [] → ∃ h, (SmsMessageStop net c x).1.performed = c.performed ++ [h]) ∧
    (∀ x : Str, x ≠ [] → ∃ h, (SmsCoverageGet net c x).1.performed = c.performed ++ [h]) ∧
    (∀ (t : Str) (addrs : List Str), t ≠ [] → addrs ≠ [] →
      ∃ h, (SmsMessageSend net c t addrs).1.performed = c.performed ++ [h]) ∧
    (∃ h, (SmsBalanceGet net c).1.performed = c.performed ++ [h]) := by
  refine ⟨rfl, rfl, rfl, rfl, fun _ => rfl, ?_, ?_, ?_, ?_, ?_, ?_, ?_⟩
  · intro t
    cases t <;> rfl
  · intro x hx
    simp only [SmsStatusGet, CLICK_STR_INVALID_of_ne x hx, Bool.false_eq_true, if_false]
    split
    · exact LocalApiCommandExecute_performed _ _ _ _ _ (by decide)
    · exact LocalApiCommandExecute_performed _ _ _ _ _ (lit_append_ne_nil _ _ (by decide))
  · intro x hx
    simp only [SmsChargeGet, CLICK_STR_INVALID_of_ne x hx, Bool.false_eq_true, if_false]
    split
    · exact LocalApiCommandExecute_performed _ _ _ _ _ (by decide)
    · exact LocalApiCommandExecute_performed _ _ _ _ _ (lit_append_ne_nil _ _ (by decide))
  · intro x hx
    simp only [SmsMessageStop, CLICK_STR_INVALID_of_ne x hx, Bool.false_eq_true, if_false]
    split
    · exact LocalApiCommandExecute_performed _ _ _ _ _ (by decide)
    · exact LocalApiCommandExecute_performed _ _ _ _ _ (lit_append_ne_nil _ _ (by decide))
  · intro x hx
    simp only [SmsCoverageGet, CLICK_STR_INVALID_of_ne x hx, Bool.false_eq_true, if_false]
    split
    · exact LocalApiCommandExecute_performed _ _ _ _ _ (by decide)
    · exact LocalApiCommandExecute_performed _ _ _ _ _ (lit_append_ne_nil _ _ (by decide))
  · intro t addrs ht ha
    have hae : addrs.isEmpty = false := by
      cases addrs with
      | nil => exact absurd rfl ha
      | cons a r => rfl
    simp only [SmsMessageSend, CLICK_STR_INVALID_of_ne t ht, hae, Bool.or_self,
      Bool.false_eq_true, if_false]
    split
    · exact LocalApiCommandExecute_performed _ _ _ _ _ (by decide)
    · exact LocalApiCommandExecute_performed _ _ _ _ _ (by decide)
  · simp only [SmsBalanceGet]
    split
    · exact LocalApiCommandExecute_performed _ _ _ _ _ (by decide)
    · exact LocalApiCommandExecute_performed _ _ _ _ _ (by decide)

/-! ## The request builder -/

theorem nulFree_append (a b : Str) (ha : nulFree a) (hb : nulFree b) : nulFree (a ++ b) := by
  intro x hx
  rcases List.mem_append.mp hx with h | h
  · exact ha x h
  · exact hb x h

theorem append_formatted_of_nulFree (acc f : Str) (hacc : acc ≠ []) (hf : nulFree f) :
    click_string_append_formatted_cstr acc f = acc ++ f := by
  unfold click_string_append_formatted_cstr
  cases acc with
  | nil => exact absurd rfl hacc
  | cons c r => simp [c_str_of_nulFree f hf]

theorem joinWith_cons (sep a : Str) (rest : List Str) :
    joinWith sep (a :: rest) = a ++ rest.flatMap (fun x => sep ++ x) := by
  induction rest generalizing a with
  | nil => simp [joinWith]
  | cons b r ih => simp [joinWith, ih, List.flatMap_cons]

theorem appendMsisdnsRest_succ (i : Nat) (addrs : List Str) (acc : Str) (hacc : acc ≠ [])
    (ha : ∀ a ∈ addrs, nulFree a) :
    appendMsisdnsRest (i + 1) addrs acc =
      acc ++ addrs.flatMap (fun a => lit "," ++ (lit "\"" ++ a ++ lit "\"")) := by
  induction addrs generalizing i acc with
  | nil => simp [appendMsisdnsRest]
  | cons a rest ih =>
    have hna : nulFree a := ha a (List.mem_cons_self a rest)
    have hf : nulFree (lit "," ++ lit "\"" ++ a ++ lit "\"") :=
      nulFree_append _ _ (nulFree_append _ _ (by decide) hna) (by decide)
    rw [appendMsisdnsRest, if_neg (Nat.succ_ne_zero i), c_str_of_nulFree a hna,
      append_formatted_of_nulFree _ _ hacc hf,
      ih (i + 1) _ (by simp [hacc]) (fun x hx => ha x (List.mem_cons_of_mem a hx))]
    simp [List.flatMap_cons, List.append_assoc]

theorem appendMsisdnsRest_zero (addrs : List Str) (acc : Str) (hacc : acc ≠ [])
    (ha : ∀ a ∈ addrs, nulFree a) :
    appendMsisdnsRest 0 addrs acc =
      acc ++ joinWith (lit ",") (addrs.map (fun a => lit "\"" ++ a ++ lit "\"")) := by
  cases addrs with
  | nil => simp [appendMsisdnsRest, joinWith]
  | cons a rest =>
    have hna : nulFree a := ha a (List.mem_cons_self a rest)
    have hf : nulFree (lit "" ++ lit "\"" ++ a ++ lit "\"") :=
      nulFree_append _ _ (nulFree_append _ _ (by decide) hna) (by decide)
    rw [appendMsisdnsRest, if_pos rfl, c_str_of_nulFree a hna,
      append_formatted_of_nulFree _ _ hacc hf,
      appendMsisdnsRest_succ 0 _ _ (by simp [hacc]) (fun x hx => ha x (List.mem_cons_of_mem a hx)),
      List.map_cons, joinWith_cons]
    simp [List.flatMap_map, lit, List.append_assoc]

theorem appendMsisdnsHttp_succ (i : Nat) (addrs : List Str) (acc : Str) (hacc : acc ≠ [])
    (ha : ∀ a ∈ addrs, nulFree a) :
    appendMsisdnsHttp (i + 1) addrs acc = acc ++ addrs.flatMap (fun a => lit "," ++ a) := by
  induction addrs generalizing i acc with
  | nil => simp [appendMsisdnsHttp]
  | cons a rest ih =>
    have hna : nulFree a := ha a (List.mem_cons_self a rest)
    have hf : nulFree (lit "," ++ a) := nulFree_append _ _ (by decide) hna
    rw [appendMsisdnsHttp, if_neg (Nat.succ_ne_zero i), c_str_of_nulFree a hna,
      append_formatted_of_nulFree _ _ hacc hf,
      ih (i + 1) _ (by simp [hacc]) (fun x hx => ha x (List.mem_cons_of_mem a hx))]
    simp [List.flatMap_cons, List.append_assoc]

theorem appendMsisdnsHttp_zero (addrs : List Str) (acc : Str) (hacc : acc ≠ [])
    (ha : ∀ a ∈ addrs, nulFree a) :
    appendMsisdnsHttp 0 addrs acc = acc ++ joinWith (lit ",") addrs := by
  cases addrs with
  | nil => simp [appendMsisdnsHttp, joinWith]
  | cons a rest =>
    have hna : nulFree a := ha a (List.mem_cons_self a rest)
    have hf : nulFree (lit "" ++ a) := nulFree_append _ _ (by decide) hna
    rw [appendMsisdnsHttp, if_pos rfl, c_str_of_nulFree a hna,
      append_formatted_of_nulFree _ _ hacc hf,
      appendMsisdnsHttp_succ 0 _ _ (by simp [hacc]) (fun x hx => ha x (List.mem_cons_of_mem a hx)),
      joinWith_cons]
    simp [lit, List.append_assoc]

theorem joinWith_nulFree (sep : Str) (xs : List Str) (hs : nulFree sep)
    (hx : ∀ a ∈ xs, nulFree a) : nulFree (joinWith sep xs) := by
  cases xs with
  | nil => intro b hb; simp [joinWith] at hb
  | cons a rest =>
    rw [joinWith_cons]
    refine nulFree_append _ _ (hx a (List.mem_cons_self a rest)) ?_
    intro b hb
    simp only [List.mem_flatMap] at hb
    obtain ⟨y, hy, hby⟩ := hb
    exact nulFree_append _ _ hs (hx y (List.mem_cons_of_mem a hy)) b hby

theorem buildApiParams_rest_send (e : Int) (t : Str) (addrs : List Str)
    (he : e ≠ CLICK_API_HTTP) (htn : nulFree t) (ha : addrs ≠ [])
    (han : ∀ a ∈ addrs, nulFree a) :
    buildApiParams e [{ sKey := lit "text", sVal := t }] addrs = jsonSendBody t addrs := by
  have hae : addrs.isEmpty = false := by
    cases addrs with
    | nil => exact absurd rfl ha
    | cons a r => rfl
  have hk : c_str (lit "text") = lit "text" := by decide
  have hf : nulFree (lit "" ++ lit "\"" ++ lit "text" ++ lit "\":\"" ++ t ++ lit "\"") :=
    nulFree_append _ _ (nulFree_append _ _ (by decide) htn) (by decide)
  simp only [buildApiParams, List.isEmpty_cons, Bool.not_false, if_true, if_neg he, hae,
    appendKeyValsRest, c_str_of_nulFree t htn, hk,
    append_formatted_of_nulFree _ _ (show lit "\x7b" ≠ [] by decide) hf]
  rw [appendMsisdnsRest_zero _ _ (fun h => absurd (List.append_eq_nil.mp h).2 (by decide)) han]
  simp [jsonSendBody, lit, List.append_assoc]

theorem nulFree_append_iff (a b : Str) : nulFree (a ++ b) ↔ nulFree a ∧ nulFree b := by
  constructor
  · intro h
    exact ⟨fun x hx => h x (List.mem_append.mpr (Or.inl hx)),
      fun x hx => h x (List.mem_append.mpr (Or.inr hx))⟩
  · intro h
    exact nulFree_append a b h.1 h.2

theorem httpSendTarget_nulFree (u p i t : Str) (addrs : List Str)
    (han : ∀ a ∈ addrs, nulFree a) : nulFree (httpSendTarget u p i t addrs) := by
  simp only [httpSendTarget, nulFree_append_iff]
  repeat' apply And.intro
  all_goals first
    | exact click_string_url_encode_nulFree _
    | exact joinWith_nulFree _ _ (by decide) han
    | decide

theorem buildApiParams_http_send (u p i t : Str) (addrs : List Str)
    (ha : addrs ≠ []) (han : ∀ a ∈ addrs, nulFree a) :
    sLocalBaseUrl ++ lit "http/sendmsg.php" ++
      buildApiParams CLICK_API_HTTP
        (urlEncodeVals
          [ { sKey := lit "user", sVal := u }, { sKey := lit "password", sVal := p },
            { sKey := lit "api_id", sVal := i }, { sKey := lit "text", sVal := t } ]) addrs =
      httpSendTarget u p i t addrs := by
  have hae : addrs.isEmpty = false := by
    cases addrs with
    | nil => exact absurd rfl ha
    | cons a r => rfl
  have k1 : c_str (lit "user") = lit "user" := by decide
  have k2 : c_str (lit "password") = lit "password" := by decide
  have k3 : c_str (lit "api_id") = lit "api_id" := by decide
  have k4 : c_str (lit "text") = lit "text" := by decide
  have eu := c_str_of_nulFree _ (click_string_url_encode_nulFree u)
  have ep := c_str_of_nulFree _ (click_string_url_encode_nulFree p)
  have ei := c_str_of_nulFree _ (click_string_url_encode_nulFree i)
  have et := c_str_of_nulFree _ (click_string_url_encode_nulFree t)
  have f1 : nulFree (lit "" ++ lit "user" ++ lit "=" ++ click_string_url_encode u) :=
    nulFree_append _ _ (by decide) (click_string_url_encode_nulFree u)
  have f2 : nulFree (lit "&" ++ lit "password" ++ lit "=" ++ click_string_url_encode p) :=
    nulFree_append _ _ (by decide) (click_string_url_encode_nulFree p)
  have f3 : nulFree (lit "&" ++ lit "api_id" ++ lit "=" ++ click_string_url_encode i) :=
    nulFree_append _ _ (by decide) (click_string_url_encode_nulFree i)
  have f4 : nulFree (lit "&" ++ lit "text" ++ lit "=" ++ click_string_url_encode t) :=
    nulFree_append _ _ (by decide) (click_string_url_encode_nulFree t)
  have n0 : lit "?" ≠ [] := by decide
  have n1 : ∀ x : Str, lit "?" ++ x ≠ [] := fun x h => n0 (List.append_eq_nil.mp h).1
  simp only [buildApiParams, urlEncodeVals, List.map, List.isEmpty_cons, Bool.not_false, if_true,
    hae, appendKeyValsHttp, k1, k2, k3, k4, eu, ep, ei, et, Nat.zero_add, Nat.reduceAdd,
    OfNat.ofNat_ne_zero, Nat.succ_ne_zero, if_false]
  rw [append_formatted_of_nulFree _ _ n0 f1,
    append_formatted_of_nulFree _ _ (by rw [List.append_assoc]; exact n1 _) f2,
    append_formatted_of_nulFree _ _ (by rw [List.append_assoc, List.append_assoc]; exact n1 _) f3,
    append_formatted_of_nulFree _ _
      (by rw [List.append_assoc, List.append_assoc, List.append_assoc]; exact n1 _) f4,
    appendMsisdnsHttp_zero _ _
      (by rw [List.append_assoc, List.append_assoc, List.append_assoc, List.append_assoc,
            List.append_assoc]; exact n1 _) han]
  simp [httpSendTarget, lit, List.append_assoc]


theorem failingNet_failsSilently (code : Int) (hc : code ≠ CURLE_OK) :
    ∀ h, failsSilently (failingNet code h) := by
  intro h
  exact ⟨hc, fun w hw => by simp [failingNet] at hw⟩


theorem op_response_silent (net : Transport) (c : ClickatellSms)
    (hnet : ∀ h, failsSilently (net h)) :
    (∀ x : Str, (SmsStatusGet net c x).1.sClickatellResponse = c.sClickatellResponse ∧
      (SmsStatusGet net c x).2 = c.sClickatellResponse) ∧
    (∀ x : Str, (SmsChargeGet net c x).1.sClickatellResponse = c.sClickatellResponse ∧
      (SmsChargeGet net c x).2 = c.sClickatellResponse) ∧
    (∀ x : Str, (SmsCoverageGet net c x).1.sClickatellResponse = c.sClickatellResponse ∧
      (SmsCoverageGet net c x).2 = c.sClickatellResponse) ∧
    (∀ x : Str, (SmsMessageStop net c x).1.sClickatellResponse = c.sClickatellResponse ∧
      (SmsMessageStop net c x).2 = c.sClickatellResponse) ∧
    (∀ (t : Str) (addrs : List Str),
      (SmsMessageSend net c t addrs).1.sClickatellResponse = c.sClickatellResponse ∧
      (SmsMessageSend net c t addrs).2 = c.sClickatellResponse) ∧
    ((SmsBalanceGet net c).1.sClickatellResponse = c.sClickatellResponse ∧
      (SmsBalanceGet net c).2 = c.sClickatellResponse) := by
  refine ⟨?_, ?_, ?_, ?_, ?_, ?_⟩
  · intro x
    simp only [SmsStatusGet, rejectInvalid]
    split
    · exact ⟨rfl, rfl⟩
    · split <;> simp only [LocalApiCommandExecute_response_silent _ _ _ _ _ hnet, and_self]
  · intro x
    simp only [SmsChargeGet, rejectInvalid]
    split
    · exact ⟨rfl, rfl⟩
    · split <;> simp only [LocalApiCommandExecute_response_silent _ _ _ _ _ hnet, and_self]
  · intro x
    simp only [SmsCoverageGet, rejectInvalid]
    split
    · exact ⟨rfl, rfl⟩
    · split <;> simp only [LocalApiCommandExecute_response_silent _ _ _ _ _ hnet, and_self]
  · intro x
    simp only [SmsMessageStop, rejectInvalid]
    split
    · exact ⟨rfl, rfl⟩
    · split <;> simp only [LocalApiCommandExecute_response_silent _ _ _ _ _ hnet, and_self]
  · intro t addrs
    simp only [SmsMessageSend, rejectInvalid]
    split
    · exact ⟨rfl, rfl⟩
    · split <;> simp only [LocalApiCommandExecute_response_silent _ _ _ _ _ hnet, and_self]
  · simp only [SmsBalanceGet]
    split <;> simp only [LocalApiCommandExecute_response_silent _ _ _ _ _ hnet, and_self]

/-! ## Claims on the send operation -/

/-- What a send sets under JsonRest: with a non-empty NUL-free text and a
non-empty list of NUL-free addresses `SmsMessageSend` selects the request type
POST, stores exactly the base URL followed by `rest/message`, and appends to
the handle, for its one call, that URL and the POST options with the body
`{"text":"t","to":["a1",...,"an"]}`, text and addresses raw and in input
order.  The options earlier calls left on the handle stay in front. -/
theorem SmsMessageSend_rest (net : Transport) (c : ClickatellSms) (t : Str) (addrs : List Str)
    (hrest : c.eUserApiType = CLICK_API_REST) (ht : t ≠ []) (htn : nulFree t)
    (ha : addrs ≠ []) (han : ∀ a ∈ addrs, nulFree a) :
    (SmsMessageSend net c t addrs).1.eRequest = CLICK_CURL_POST ∧
    (SmsMessageSend net c t addrs).1.sFullUrl = sLocalBaseUrl ++ lit "rest/message" ∧
    (SmsMessageSend net c t addrs).1.performed = c.performed ++
      [c.curlHandle ++
        [ .HTTPHEADER c.curlHeaders, .URL (sLocalBaseUrl ++ lit "rest/message"), .WRITEDATA,
          .POST 1, .POSTFIELDS (jsonSendBody t addrs),
          .POSTFIELDSIZE (jsonSendBody t addrs).length ]] := by
  have hae : addrs.isEmpty = false := by
    cases addrs with
    | nil => exact absurd rfl ha
    | cons a r => rfl
  have he : c.eUserApiType ≠ CLICK_API_HTTP := by rw [hrest]; decide
  have hbody := buildApiParams_rest_send c.eUserApiType t addrs he htn ha han
  have hurl : c_str (sLocalBaseUrl ++ lit "rest/message") = sLocalBaseUrl ++ lit "rest/message" := by
    decide
  have hne : jsonSendBody t addrs ≠ [] := by
    simp [jsonSendBody, lit]
  simp only [SmsMessageSend, CLICK_STR_INVALID_of_ne t ht, hae, Bool.or_self,
    Bool.false_eq_true, if_false, if_neg he, LocalApiCommandExecute,
    CLICK_STR_INVALID_of_ne (lit "rest/message") (by decide), List.isEmpty_cons, Bool.not_false,
    if_true, hbody, LocalCurlExecute_eRequest, LocalCurlExecute_sFullUrl,
    LocalCurlExecute_performed, executeOpts, hurl, CLICK_STR_INVALID_of_ne _ hne]
  have hlen : 0 < (jsonSendBody t addrs).length := List.length_pos.mpr hne
  simp [hlen]

/-- The send of `"Hi"` to `["123","456"]` on the sample REST client: the body
is `{"text":"Hi","to":["123","456"]}`, 32 bytes. -/
theorem SmsMessageSend_rest_witness :
    (SmsMessageSend (failingNet 7) sampleRestClient (lit "Hi") [lit "123", lit "456"]).1.eRequest
      = CLICK_CURL_POST ∧
    (SmsMessageSend (failingNet 7) sampleRestClient (lit "Hi") [lit "123", lit "456"]).1.sFullUrl
      = lit "https://api.clickatell.com/rest/message" ∧
    (SmsMessageSend (failingNet 7) sampleRestClient (lit "Hi") [lit "123", lit "456"]).1.performed
      = sampleRestClient.performed ++
        [sampleRestClient.curlHandle ++
          [ .HTTPHEADER sampleRestClient.curlHeaders,
            .URL (lit "https://api.clickatell.com/rest/message"), .WRITEDATA, .POST 1,
            .POSTFIELDS (lit "\x7b\"text\":\"Hi\",\"to\":[\"123\",\"456\"]\x7d"),
            .POSTFIELDSIZE 32 ]] :=
  SmsMessageSend_rest (failingNet 7) sampleRestClient (lit "Hi") [lit "123", lit "456"]
    rfl (by decide) (by decide) (by decide) (by decide)

/-- C2: on a LegacyQuery client, `SmsMessageSend` with a non-empty text and a
non-empty list of NUL-free addresses selects GET, sets no POST body, and
targets exactly the base URL followed by
`http/sendmsg.php?user=E(u)&password=E(p)&api_id=E(i)&text=E(t)&to=a1,...,an`,
the values percent-encoded by `E` and the addresses comma-joined in input
order and not encoded. -/
theorem SmsMessageSend_http (net : Transport) (c : ClickatellSms) (t : Str) (addrs : List Str)
    (hhttp : c.eUserApiType = CLICK_API_HTTP) (ht : t ≠ [])
    (ha : addrs ≠ []) (han : ∀ a ∈ addrs, nulFree a) :
    (SmsMessageSend net c t addrs).1.eRequest = CLICK_CURL_GET ∧
    (SmsMessageSend net c t addrs).1.sFullUrl =
      httpSendTarget c.oUserCred.sUsername c.oUserCred.sPassword c.sUserApiId t addrs ∧
    (SmsMessageSend net c t addrs).1.performed = c.performed ++
      [c.curlHandle ++
        [ .HTTPHEADER c.curlHeaders,
          .URL (httpSendTarget c.oUserCred.sUsername c.oUserCred.sPassword c.sUserApiId t addrs),
          .WRITEDATA, .HTTPGET 1 ]] := by
  have hae : addrs.isEmpty = false := by
    cases addrs with
    | nil => exact absurd rfl ha
    | cons a r => rfl
  have hb := buildApiParams_http_send c.oUserCred.sUsername c.oUserCred.sPassword c.sUserApiId
    t addrs ha han
  have hurl := c_str_of_nulFree _ (httpSendTarget_nulFree c.oUserCred.sUsername
    c.oUserCred.sPassword c.sUserApiId t addrs han)
  have g1 : ¬ CLICK_CURL_GET = CLICK_CURL_POST := by decide
  have g2 : ¬ CLICK_CURL_GET = CLICK_CURL_DELETE := by decide
  simp only [SmsMessageSend, CLICK_STR_INVALID_of_ne t ht, hae, Bool.or_self,
    Bool.false_eq_true, if_false, hhttp, if_true, LocalApiCommandExecute,
    CLICK_STR_INVALID_of_ne (lit "http/sendmsg.php") (by decide), httpCredKeyVals,
    List.cons_append, List.nil_append, urlEncodeVals, List.map, List.isEmpty_cons,
    Bool.not_false, LocalCurlExecute_eRequest, LocalCurlExecute_sFullUrl,
    LocalCurlExecute_performed, executeOpts, g1, g2]
  simp only [urlEncodeVals, List.map] at hb
  rw [hb, hurl]
  simp

/-- Witness of C2 at text `"Hi"` and addresses `["123","456"]`: the target ends
in `&text=Hi&to=123,456`. -/
theorem SmsMessageSend_http_witness :
    (SmsMessageSend (failingNet 7) sampleHttpClient (lit "Hi") [lit "123", lit "456"]).1.eRequest
      = CLICK_CURL_GET ∧
    (SmsMessageSend (failingNet 7) sampleHttpClient (lit "Hi") [lit "123", lit "456"]).1.sFullUrl
      = lit "https://api.clickatell.com/http/sendmsg.php?user=bob&password=p+w&api_id=42&text=Hi&to=123,456" ∧
    (SmsMessageSend (failingNet 7) sampleHttpClient (lit "Hi") [lit "123", lit "456"]).1.performed
      = sampleHttpClient.performed ++
        [sampleHttpClient.curlHandle ++
          [ .HTTPHEADER sampleHttpClient.curlHeaders,
            .URL (lit "https://api.clickatell.com/http/sendmsg.php?user=bob&password=p+w&api_id=42&text=Hi&to=123,456"),
            .WRITEDATA, .HTTPGET 1 ]] :=
  SmsMessageSend_http (failingNet 7) sampleHttpClient (lit "Hi") [lit "123", lit "456"]
    rfl (by decide) (by decide) (by decide)

/-! ## Claims on rejected calls and failed transfers -/

/-- Witness of C7 on the sample clients, with a transport that always fails. -/
theorem transport_calls_witness :
    (SmsStatusGet (failingNet 7) sampleRestClient []).1.performed = sampleRestClient.performed ∧
    (∃ h, (SmsStatusGet (failingNet 7) sampleRestClient (lit "abc")).1.performed =
      sampleRestClient.performed ++ [h]) ∧
    (∃ h, (SmsMessageSend (failingNet 7) sampleHttpClient (lit "Hi") [lit "123"]).1.performed =
      sampleHttpClient.performed ++ [h]) :=
  ⟨(transport_calls (failingNet 7) sampleRestClient).1,
   (transport_calls (failingNet 7) sampleRestClient).2.2.2.2.2.2.1 (lit "abc") (by decide),
   (transport_calls (failingNet 7) sampleHttpClient).2.2.2.2.2.2.2.2.2.2.1 (lit "Hi") [lit "123"]
     (by decide) (by decide)⟩


/-- C8 (the code at the failing input): after a balance query answered with
`"Credit: 5"`, a send with an empty text, and a status query with an empty id,
both return `"Credit: 5"` instead of the empty string. -/
theorem SmsMessageSend_invalid_returns_stale :
    (SmsBalanceGet (answeringNet (lit "Credit: 5")) sampleRestClient).2 = lit "Credit: 5" ∧
    (SmsMessageSend (failingNet 7)
      (SmsBalanceGet (answeringNet (lit "Credit: 5")) sampleRestClient).1 [] [lit "123"]).2
        = lit "Credit: 5" ∧
    (SmsStatusGet (failingNet 7)
      (SmsBalanceGet (answeringNet (lit "Credit: 5")) sampleRestClient).1 []).2
        = lit "Credit: 5" := by
  decide


/-- C9 (as stated, refuted): after a balance query answered `"OK"`, a second
balance query whose transfer fails without delivering data returns `"OK"`, not
the empty string. -/
theorem C9_counterexample :
    (∀ h, failsSilently (failingNet 7 h)) ∧
    (SmsBalanceGet (failingNet 7)
      (SmsBalanceGet (answeringNet (lit "OK")) sampleRestClient).1).2 = lit "OK" ∧
    lit "OK" ≠ [] :=
  ⟨failingNet_failsSilently 7 (by decide), by decide, by decide⟩


/-- C9 (amended): when the transfer fails without delivering any response data,
an operation called with valid arguments returns the stored last-response text
as it stood before the call; this is the empty string when no response was
stored before. -/
theorem returns_stored_response_on_failure (net : Transport) (c : ClickatellSms)
    (hnet : ∀ h, failsSilently (net h)) :
    (∀ x : Str, x ≠ [] → (SmsStatusGet net c x).2 = c.sClickatellResponse) ∧
    (∀ x : Str, x ≠ [] → (SmsChargeGet net c x).2 = c.sClickatellResponse) ∧
    (∀ x : Str, x ≠ [] → (SmsCoverageGet net c x).2 = c.sClickatellResponse) ∧
    (∀ x : Str, x ≠ [] → (SmsMessageStop net c x).2 = c.sClickatellResponse) ∧
    (∀ (t : Str) (addrs : List Str), t ≠ [] → addrs ≠ [] →
      (SmsMessageSend net c t addrs).2 = c.sClickatellResponse) ∧
    (SmsBalanceGet net c).2 = c.sClickatellResponse ∧
    (c.sClickatellResponse = [] → (SmsBalanceGet net c).2 = []) := by
  obtain ⟨h1, h2, h3, h4, h5, h6⟩ := op_response_silent net c hnet
  exact ⟨fun x _ => (h1 x).2, fun x _ => (h2 x).2, fun x _ => (h3 x).2, fun x _ => (h4 x).2,
    fun t addrs _ _ => (h5 t addrs).2, h6.2, fun h => by rw [h6.2, h]⟩

/-- Witness of C9 (amended) on the sample HTTP client holding the response
`"ID: 1"`, with a transport that always fails with code 7. -/
theorem returns_stored_response_on_failure_witness :
    (SmsStatusGet (failingNet 7)
        { sampleHttpClient with sClickatellResponse := lit "ID: 1" } (lit "abc")).2 = lit "ID: 1" ∧
    (SmsBalanceGet (failingNet 7)
        { sampleHttpClient with sClickatellResponse := lit "ID: 1" }).2 = lit "ID: 1" :=
  ⟨(returns_stored_response_on_failure (failingNet 7)
      { sampleHttpClient with sClickatellResponse := lit "ID: 1" }
      (failingNet_failsSilently 7 (by decide))).1 (lit "abc") (by decide),
   (returns_stored_response_on_failure (failingNet 7)
      { sampleHttpClient with sClickatellResponse := lit "ID: 1" }
      (failingNet_failsSilently 7 (by decide))).2.2.2.2.2.1⟩

/-- C10: when the transfer fails without delivering any response data, the
stored last-response text after an operation equals the one before it, for
every client state, every operation and every argument. -/
theorem response_unchanged_on_failure (net : Transport) (c : ClickatellSms)
    (hnet : ∀ h, failsSilently (net h)) :
    (∀ x : Str, (SmsStatusGet net c x).1.sClickatellResponse = c.sClickatellResponse) ∧
    (∀ x : Str, (SmsChargeGet net c x).1.sClickatellResponse = c.sClickatellResponse) ∧
    (∀ x : Str, (SmsCoverageGet net c x).1.sClickatellResponse = c.sClickatellResponse) ∧
    (∀ x : Str, (SmsMessageStop net c x).1.sClickatellResponse = c.sClickatellResponse) ∧
    (∀ (t : Str) (addrs : List Str),
      (SmsMessageSend net c t addrs).1.sClickatellResponse = c.sClickatellResponse) ∧
    (SmsBalanceGet net c).1.sClickatellResponse = c.sClickatellResponse := by
  obtain ⟨h1, h2, h3, h4, h5, h6⟩ := op_response_silent net c hnet
  exact ⟨fun x => (h1 x).1, fun x => (h2 x).1, fun x => (h3 x).1, fun x => (h4 x).1,
    fun t addrs => (h5 t addrs).1, h6.1⟩

/-- Witness of C10 on the sample REST client holding the response `"OK"`, with
a transport that always fails with code 28. -/
theorem response_unchanged_on_failure_witness :
    (SmsMessageSend (failingNet 28) { sampleRestClient with sClickatellResponse := lit "OK" }
        (lit "Hi") [lit "123"]).1.sClickatellResponse = lit "OK" ∧
    (SmsBalanceGet (failingNet 28)
        { sampleRestClient with sClickatellResponse := lit "OK" }).1.sClickatellResponse
      = lit "OK" :=
  ⟨(response_unchanged_on_failure (failingNet 28)
      { sampleRestClient with sClickatellResponse := lit "OK" }
      (failingNet_failsSilently 28 (by decide))).2.2.2.2.1 (lit "Hi") [lit "123"],
   (response_unchanged_on_failure (failingNet 28)
      { sampleRestClient with sClickatellResponse := lit "OK" }
      (failingNet_failsSilently 28 (by decide))).2.2.2.2.2⟩

/-! ## Responses of successful transfers -/

theorem LocalApiCommandExecute_response (net : Transport) (s : ClickatellSms)
    (sPath : Str) (kv : List ClickKeyVal) (ms : List Str) (ws : List Str)
    (hp : sPath ≠ []) (hnet : ∀ h, (net h).writes = ws) :
    (LocalApiCommandExecute net s sPath kv ms).sClickatellResponse =
      responseAfter ws s.sClickatellResponse := by
  unfold LocalApiCommandExecute
  rw [CLICK_STR_INVALID_of_ne sPath hp]
  simp only [Bool.false_eq_true, if_false]
  split
  · split <;> rw [LocalCurlExecute_response, hnet]
  · rw [LocalCurlExecute_response, hnet]

theorem isEmpty_eq_false_of_not (x : Str) (h : (!x.isEmpty) = true) : CLICK_STR_INVALID x = false := by
  cases x with
  | nil => simp at h
  | cons a r => rfl

theorem Operation.run_response (net : Transport) (c : ClickatellSms) (op : Operation)
    (ws : List Str) (hv : op.valid = true) (hnet : ∀ h, (net h).writes = ws) :
    (op.run net c).1.sClickatellResponse = responseAfter ws c.sClickatellResponse ∧
    (op.run net c).2 = responseAfter ws c.sClickatellResponse := by
  cases op with
  | send t a =>
    simp only [Operation.valid, Bool.and_eq_true] at hv
    have ha : a.isEmpty = false := by
      cases a with
      | nil => simp at hv
      | cons x r => rfl
    simp only [Operation.run, SmsMessageSend, isEmpty_eq_false_of_not t hv.1, ha, Bool.or_self,
      Bool.false_eq_true, if_false]
    split <;> simp only [and_self] <;>
      exact LocalApiCommandExecute_response _ _ _ _ _ ws (by decide) hnet
  | status x =>
    simp only [Operation.valid] at hv
    simp only [Operation.run, SmsStatusGet, isEmpty_eq_false_of_not x hv, Bool.false_eq_true,
      if_false]
    split <;> simp only [and_self]
    · exact LocalApiCommandExecute_response _ _ _ _ _ ws (by decide) hnet
    · exact LocalApiCommandExecute_response _ _ _ _ _ ws (lit_append_ne_nil _ _ (by decide)) hnet
  | balance =>
    simp only [Operation.run, SmsBalanceGet]
    split <;> simp only [and_self] <;>
      exact LocalApiCommandExecute_response _ _ _ _ _ ws (by decide) hnet
  | charge x =>
    simp only [Operation.valid] at hv
    simp only [Operation.run, SmsChargeGet, isEmpty_eq_false_of_not x hv, Bool.false_eq_true,
      if_false]
    split <;> simp only [and_self]
    · exact LocalApiCommandExecute_response _ _ _ _ _ ws (by decide) hnet
    · exact LocalApiCommandExecute_response _ _ _ _ _ ws (lit_append_ne_nil _ _ (by decide)) hnet
  | coverage x =>
    simp only [Operation.valid] at hv
    simp only [Operation.run, SmsCoverageGet, isEmpty_eq_false_of_not x hv, Bool.false_eq_true,
      if_false]
    split <;> simp only [and_self]
    · exact LocalApiCommandExecute_response _ _ _ _ _ ws (by decide) hnet
    · exact LocalApiCommandExecute_response _ _ _ _ _ ws (lit_append_ne_nil _ _ (by decide)) hnet
  | stop x =>
    simp only [Operation.valid] at hv
    simp only [Operation.run, SmsMessageStop, isEmpty_eq_false_of_not x hv, Bool.false_eq_true,
      if_false]
    split <;> simp only [and_self]
    · exact LocalApiCommandExecute_response _ _ _ _ _ ws (by decide) hnet
    · exact LocalApiCommandExecute_response _ _ _ _ _ ws (lit_append_ne_nil _ _ (by decide)) hnet

theorem c_str_append_nul (b : Str) : c_str (b ++ [0]) = c_str b := by
  induction b with
  | nil => simp [c_str]
  | cons x r ih =>
    by_cases hx : x = 0
    · subst hx
      rw [List.cons_append, c_str_cons_zero, c_str_cons_zero]
    · rw [List.cons_append, c_str_cons_ne x _ hx, c_str_cons_ne x _ hx, ih]

theorem toInt32_of_lt (n : Nat) (h : n < 2 ^ 31) : toInt32 (n * 1 % 2 ^ 64) = (n : Int) := by
  have h1 : n * 1 % 2 ^ 64 = n := by
    rw [Nat.mul_one]; exact Nat.mod_eq_of_lt (by omega)
  have h2 : n % 2 ^ 32 = n := Nat.mod_eq_of_lt (by omega)
  rw [h1]
  unfold toInt32
  rw [h2, if_pos h]

theorem responseAfter_single (b old : Str) (hb : b ≠ []) (hlen : b.length < 2 ^ 31) :
    responseAfter [b] old = c_str b := by
  have hpos : 0 < b.length := List.length_pos.mpr hb
  simp only [responseAfter, responseAfterWrite, toInt32_of_lt b.length hlen]
  rw [if_pos (by exact_mod_cast hpos)]
  simp [c_str_append_nul]

/-- C11 (as stated, refuted): with a successful transfer, a body holding a
`0x00` byte is returned cut at that byte, a body delivered in the two pieces
`"ab"`, `"cd"` is returned as `"cd"`, and an empty body returns the response
`"OLD"` of the earlier call. -/
theorem C11_counterexample :
    (SmsBalanceGet (deliveringNet [[ch 'a', 0, ch 'b']]) sampleRestClientWithResponse).2
      = lit "a" ∧
    (SmsBalanceGet (deliveringNet [lit "ab", lit "cd"]) sampleRestClientWithResponse).2
      = lit "cd" ∧
    (SmsBalanceGet (deliveringNet []) sampleRestClientWithResponse).2 = lit "OLD" ∧
    (SmsBalanceGet (deliveringNet [[]]) sampleRestClientWithResponse).2 = lit "OLD" := by
  decide

/-- C11 (amended): when the transfer of an operation called with valid
arguments succeeds and delivers the body `b` to the write callback in one
non-empty piece (of fewer than `2^31` bytes), the operation stores, and
returns, the bytes of `b` that precede its first `0x00` byte; that is `b`
itself, byte for byte, when `b` holds no `0x00` byte. -/
theorem returns_single_piece_body (net : Transport) (c : ClickatellSms) (op : Operation)
    (b : Str) (hv : op.valid = true) (hb : b ≠ []) (hlen : b.length < 2 ^ 31)
    (hnet : ∀ h, succeedsWith (net h) [b]) :
    (op.run net c).1.sClickatellResponse = c_str b ∧
    (op.run net c).2 = c_str b ∧
    (nulFree b → (op.run net c).1.sClickatellResponse = b ∧ (op.run net c).2 = b) := by
  have h := Operation.run_response net c op [b] hv (fun x => (hnet x).2)
  rw [responseAfter_single b _ hb hlen] at h
  refine ⟨h.1, h.2, fun hn => ?_⟩
  rw [h.1, h.2, c_str_of_nulFree b hn]
  exact ⟨rfl, rfl⟩

/-- Witness of C11 (amended): a status query on the sample HTTP client answered
with `"ID: 1"` in one piece stores and returns `"ID: 1"`. -/
theorem returns_single_piece_body_witness :
    (Operation.run (deliveringNet [lit "ID: 1"]) sampleHttpClient
      (.status (lit "abc"))).1.sClickatellResponse = lit "ID: 1" ∧
    (Operation.run (deliveringNet [lit "ID: 1"]) sampleHttpClient (.status (lit "abc"))).2
      = lit "ID: 1" :=
  (returns_single_piece_body (deliveringNet [lit "ID: 1"]) sampleHttpClient
    (.status (lit "abc")) (lit "ID: 1") (by decide) (by decide) (by decide)
    (fun _ => ⟨rfl, rfl⟩)).2.2 (by decide)

/-! ## Construction -/

theorem digitChar_ne_zero (m : Nat) : ch (Nat.digitChar m) ≠ 0 := by
  by_cases h : m < 16
  · interval_cases m <;> decide
  · obtain ⟨k, rfl⟩ : ∃ k, m = k + 16 := ⟨m - 16, by omega⟩
    have hk : Nat.digitChar (k + 16) = '*' := rfl
    rw [hk]
    decide

theorem toDigitsCore_nulFree (fuel n : Nat) (ds : List Char)
    (hds : ∀ c ∈ ds, ch c ≠ 0) : ∀ c ∈ Nat.toDigitsCore 10 fuel n ds, ch c ≠ 0 := by
  induction fuel generalizing n ds with
  | zero => simpa [Nat.toDigitsCore] using hds
  | succ f ih =>
    have hcons : ∀ c ∈ Nat.digitChar (n % 10) :: ds, ch c ≠ 0 := by
      intro c hc
      rcases List.mem_cons.mp hc with h | h
      · subst h; exact digitChar_ne_zero _
      · exact hds c h
    simp only [Nat.toDigitsCore]
    split
    · exact hcons
    · exact ih _ _ hcons

theorem lit_natRepr_nulFree (n : Nat) : nulFree (lit (Nat.repr n)) := by
  intro b hb
  simp only [lit, Nat.repr, Nat.toDigits, List.mem_map] at hb
  obtain ⟨c, hc, rfl⟩ := hb
  have hc2 : c ∈ Nat.toDigitsCore 10 (n + 1) n [] := by simpa [List.asString] using hc
  exact toDigitsCore_nulFree _ _ [] (by simp) c hc2

theorem lit_toString_int_nulFree (n : Int) : nulFree (lit (toString n)) := by
  cases n with
  | ofNat m => exact lit_natRepr_nulFree m
  | negSucc m =>
    intro b hb
    have : toString (Int.negSucc m) = "-" ++ Nat.repr (m + 1) := rfl
    rw [this] at hb
    have happ : lit ("-" ++ Nat.repr (m + 1)) = lit "-" ++ lit (Nat.repr (m + 1)) := by
      simp [lit]
    rw [happ] at hb
    rcases List.mem_append.mp hb with h | h
    · exact (show nulFree (lit "-") by decide) b h
    · exact lit_natRepr_nulFree (m + 1) b h
theorem ValidateParamAPI_ok (e : Int) (h : VALIDATE_API_TYPE e = true) :
    ValidateParamAPI e = .ok e := by
  simp [ValidateParamAPI, h]

theorem ValidateParamAPI_error (e : Int) (h : VALIDATE_API_TYPE e = false) :
    ValidateParamAPI e = .error (apiTypeError e) := by
  have hn : nulFree (lit "eClickApi:" ++ lit (toString e)) :=
    nulFree_append _ _ (by decide) (lit_toString_int_nulFree e)
  simp only [ValidateParamAPI, h, Bool.not_false, if_true,
    append_formatted_of_nulFree _ _ (show lit "Invalid API type for " ≠ [] by decide) hn,
    apiTypeError]
  simp [lit, List.append_assoc]

theorem ValidateApiString_ok (cred : eClickLoginCred) (x : Str) (h : x ≠ []) :
    ValidateApiString cred x = .ok x := by
  simp [ValidateApiString, CLICK_STR_INVALID_of_ne x h]

theorem VALIDATE_API_TYPE_iff (e : Int) :
    VALIDATE_API_TYPE e = true ↔ (e = CLICK_API_HTTP ∨ e = CLICK_API_REST) := by
  simp only [VALIDATE_API_TYPE, CLICK_API_HTTP, CLICK_API_REST, CLICK_API_COUNT,
    Bool.and_eq_true, decide_eq_true_eq]
  omega

theorem ctorUserPass_invalid_api (eDebugOpt eApiType : Int) (sUsername sPassword sApiId : Str)
    (iTimeout iConnectTimeout : Int) (curlInitOk passwordFirst : Bool) (u : Indeterminate)
    (h : VALIDATE_API_TYPE eApiType = false) :
    ctorUserPass eDebugOpt eApiType sUsername sPassword sApiId iTimeout iConnectTimeout
      curlInitOk passwordFirst u = .error (apiTypeError eApiType) := by
  simp only [ctorUserPass, ValidateParamAPI_error eApiType h]
  rfl

theorem ctorApiKey_invalid_api (eDebugOpt eApiType : Int) (sApiKey sApiId : Str)
    (iTimeout iConnectTimeout : Int) (curlInitOk : Bool) (u : Indeterminate)
    (h : VALIDATE_API_TYPE eApiType = false) :
    ctorApiKey eDebugOpt eApiType sApiKey sApiId iTimeout iConnectTimeout curlInitOk u
      = .error (apiTypeError eApiType) := by
  simp only [ctorApiKey, ValidateParamAPI_error eApiType h]
  rfl

/-- The error a credential check raises, by field. -/
theorem ValidateApiString_nil (cred : eClickLoginCred) :
    ValidateApiString cred [] = .error
      (match cred with
       | .CLICK_CRED_USER => lit "Invalid user"
       | .CLICK_CRED_PASS => lit "Invalid password"
       | .CLICK_CRED_APIKEY => lit "Invalid API Key"
       | .CLICK_CRED_APIID => lit "Invalid API ID") := by
  cases cred <;> rfl

theorem ctorUserPass_valid_api (eDebugOpt eApiType : Int) (sUsername sPassword sApiId : Str)
    (iTimeout iConnectTimeout : Int) (curlInitOk passwordFirst : Bool) (u : Indeterminate)
    (h : VALIDATE_API_TYPE eApiType = true) (hempty : sUsername = [] ∨ sPassword = [] ∨ sApiId = []) :
    (ctorUserPass eDebugOpt eApiType sUsername sPassword sApiId iTimeout iConnectTimeout
        curlInitOk passwordFirst u = .error (lit "Invalid user") ∧ sUsername = []) ∨
    (ctorUserPass eDebugOpt eApiType sUsername sPassword sApiId iTimeout iConnectTimeout
        curlInitOk passwordFirst u = .error (lit "Invalid password") ∧ sPassword = []) ∨
    (ctorUserPass eDebugOpt eApiType sUsername sPassword sApiId iTimeout iConnectTimeout
        curlInitOk passwordFirst u = .error (lit "Invalid API ID") ∧ sApiId = []) := by
  by_cases hi : sApiId = []
  · subst hi
    right; right
    refine ⟨?_, rfl⟩
    simp only [ctorUserPass, ValidateParamAPI_ok eApiType h, ValidateApiString_nil]
    rfl
  · by_cases hu : sUsername = []
    · subst hu
      by_cases hp : sPassword = []
      · subst hp
        cases passwordFirst
        · left
          refine ⟨?_, rfl⟩
          simp only [ctorUserPass, ValidateParamAPI_ok eApiType h, ValidateApiString_ok _ _ hi,
            ValidateApiString_nil]
          rfl
        · right; left
          refine ⟨?_, rfl⟩
          simp only [ctorUserPass, ValidateParamAPI_ok eApiType h, ValidateApiString_ok _ _ hi,
            ValidateApiString_nil]
          rfl
      · left
        refine ⟨?_, rfl⟩
        cases passwordFirst <;>
          simp only [ctorUserPass, ValidateParamAPI_ok eApiType h, ValidateApiString_ok _ _ hi,
            ValidateApiString_ok _ _ hp, ValidateApiString_nil] <;>
          rfl
    · have hp : sPassword = [] := by
        rcases hempty with h1 | h1 | h1
        · exact absurd h1 hu
        · exact h1
        · exact absurd h1 hi
      subst hp
      right; left
      refine ⟨?_, rfl⟩
      cases passwordFirst <;>
        simp only [ctorUserPass, ValidateParamAPI_ok eApiType h, ValidateApiString_ok _ _ hi,
          ValidateApiString_ok _ _ hu, ValidateApiString_nil] <;>
        rfl

theorem ctorApiKey_valid_api (eDebugOpt eApiType : Int) (sApiKey sApiId : Str)
    (iTimeout iConnectTimeout : Int) (curlInitOk : Bool) (u : Indeterminate)
    (h : VALIDATE_API_TYPE eApiType = true) (hempty : sApiKey = [] ∨ sApiId = []) :
    (ctorApiKey eDebugOpt eApiType sApiKey sApiId iTimeout iConnectTimeout curlInitOk u
        = .error (lit "Invalid API Key") ∧ sApiKey = []) ∨
    (ctorApiKey eDebugOpt eApiType sApiKey sApiId iTimeout iConnectTimeout curlInitOk u
        = .error (lit "Invalid API ID") ∧ sApiId = []) := by
  by_cases hi : sApiId = []
  · subst hi
    right
    refine ⟨?_, rfl⟩
    simp only [ctorApiKey, ValidateParamAPI_ok eApiType h, ValidateApiString_nil]
    rfl
  · have hk : sApiKey = [] := by
      rcases hempty with h1 | h1
      · exact h1
      · exact absurd h1 hi
    subst hk
    left
    refine ⟨?_, rfl⟩
    simp only [ctorApiKey, ValidateParamAPI_ok eApiType h, ValidateApiString_ok _ _ hi,
      ValidateApiString_nil]
    rfl
theorem Initialize_ok (self : ClickatellSms) (iTimeout iConnectTimeout : Int) :
    Initialize self true iTimeout iConnectTimeout = .ok
      { self with
          curlHeaders := some (defaultHeaders self.eUserApiType self.sUserApiKey)
          curlHandle := LocalCurlConfig iTimeout iConnectTimeout ++
            [ .HTTPHEADER (some (defaultHeaders self.eUserApiType self.sUserApiKey)) ] } := by
  have hc : c_str (lit "Authorization: Bearer " ++ self.sUserApiKey) =
      lit "Authorization: Bearer " ++ c_str self.sUserApiKey :=
    c_str_append_of_nulFree _ _ (by decide)
  unfold Initialize defaultHeaders
  simp only [Bool.not_true, Bool.false_eq_true, if_false, hc]

theorem Initialize_fail (self : ClickatellSms) (iTimeout iConnectTimeout : Int) :
    Initialize self false iTimeout iConnectTimeout = .error (lit "curl_easy_init failed!") := by
  rfl

theorem ctorApiKey_ok (eDebugOpt eApiType : Int) (sApiKey sApiId : Str)
    (iTimeout iConnectTimeout : Int) (u : Indeterminate)
    (hv : VALIDATE_API_TYPE eApiType = true) (hk : sApiKey ≠ []) (hi : sApiId ≠ []) :
    ∃ c, ctorApiKey eDebugOpt eApiType sApiKey sApiId iTimeout iConnectTimeout true u = .ok c ∧
      c.eUserApiType = eApiType ∧ c.sUserApiId = sApiId ∧ c.sUserApiKey = sApiKey ∧
      c.oUserCred = { sUsername := [], sPassword := [] } ∧
      c.curlHeaders = some (defaultHeaders eApiType sApiKey) ∧
      c.curlHandle = LocalCurlConfig iTimeout iConnectTimeout ++
        [ .HTTPHEADER (some (defaultHeaders eApiType sApiKey)) ] ∧
      c.sClickatellResponse = [] ∧ c.performed = [] := by
  simp only [ctorApiKey, ValidateParamAPI_ok eApiType hv, ValidateApiString_ok _ _ hi,
    ValidateApiString_ok _ _ hk, Initialize_ok]
  exact ⟨_, rfl, rfl, rfl, rfl, rfl, rfl, rfl, rfl, rfl⟩

theorem ctorUserPass_ok (eDebugOpt eApiType : Int) (sUsername sPassword sApiId : Str)
    (iTimeout iConnectTimeout : Int) (passwordFirst : Bool) (u : Indeterminate)
    (hv : VALIDATE_API_TYPE eApiType = true) (hu : sUsername ≠ []) (hp : sPassword ≠ [])
    (hi : sApiId ≠ []) :
    ∃ c, ctorUserPass eDebugOpt eApiType sUsername sPassword sApiId iTimeout iConnectTimeout
        true passwordFirst u = .ok c ∧
      c.eUserApiType = eApiType ∧ c.sUserApiId = sApiId ∧ c.sUserApiKey = [] ∧
      c.oUserCred = { sUsername := sUsername, sPassword := sPassword } ∧
      c.curlHeaders = some (defaultHeaders eApiType []) ∧
      c.curlHandle = LocalCurlConfig iTimeout iConnectTimeout ++
        [ .HTTPHEADER (some (defaultHeaders eApiType [])) ] ∧
      c.sClickatellResponse = [] ∧ c.performed = [] := by
  cases passwordFirst <;>
    simp only [ctorUserPass, ValidateParamAPI_ok eApiType hv, ValidateApiString_ok _ _ hi,
      ValidateApiString_ok _ _ hu, ValidateApiString_ok _ _ hp, Initialize_ok] <;>
    exact ⟨_, rfl, rfl, rfl, rfl, rfl, rfl, rfl, rfl, rfl⟩
theorem ctorApiKey_inv (eDebugOpt eApiType : Int) (sApiKey sApiId : Str)
    (iTimeout iConnectTimeout : Int) (curlInitOk : Bool) (u : Indeterminate) (c : ClickatellSms)
    (h : ctorApiKey eDebugOpt eApiType sApiKey sApiId iTimeout iConnectTimeout curlInitOk u
      = .ok c) :
    VALIDATE_API_TYPE eApiType = true ∧ sApiKey ≠ [] ∧ sApiId ≠ [] ∧ curlInitOk = true ∧
    c.eUserApiType = eApiType ∧ c.sUserApiId = sApiId ∧ c.sUserApiKey = sApiKey ∧
    c.oUserCred = { sUsername := [], sPassword := [] } ∧
    c.curlHeaders = some (defaultHeaders eApiType sApiKey) ∧
    c.curlHandle = LocalCurlConfig iTimeout iConnectTimeout ++
      [ .HTTPHEADER (some (defaultHeaders eApiType sApiKey)) ] ∧
    c.sClickatellResponse = [] ∧ c.performed = [] := by
  by_cases hv : VALIDATE_API_TYPE eApiType = true
  · by_cases hk : sApiKey = []
    · rcases ctorApiKey_valid_api eDebugOpt eApiType sApiKey sApiId iTimeout iConnectTimeout
        curlInitOk u hv (Or.inl hk) with h1 | h1 <;>
        · rw [h1.1] at h; cases h
    · by_cases hi : sApiId = []
      · rcases ctorApiKey_valid_api eDebugOpt eApiType sApiKey sApiId iTimeout iConnectTimeout
          curlInitOk u hv (Or.inr hi) with h1 | h1 <;>
          · rw [h1.1] at h; cases h
      · cases curlInitOk with
        | false =>
          simp only [ctorApiKey, ValidateParamAPI_ok eApiType hv, ValidateApiString_ok _ _ hi,
            ValidateApiString_ok _ _ hk, Initialize_fail] at h
          cases h
        | true =>
          obtain ⟨c2, hc2, hrest⟩ := ctorApiKey_ok eDebugOpt eApiType sApiKey sApiId iTimeout
            iConnectTimeout u hv hk hi
          rw [hc2] at h
          cases h
          exact ⟨hv, hk, hi, rfl, hrest⟩
  · rw [ctorApiKey_invalid_api _ _ _ _ _ _ _ _ (by simpa using hv)] at h
    cases h

theorem ctorUserPass_inv (eDebugOpt eApiType : Int) (sUsername sPassword sApiId : Str)
    (iTimeout iConnectTimeout : Int) (curlInitOk passwordFirst : Bool) (u : Indeterminate)
    (c : ClickatellSms)
    (h : ctorUserPass eDebugOpt eApiType sUsername sPassword sApiId iTimeout iConnectTimeout
      curlInitOk passwordFirst u = .ok c) :
    VALIDATE_API_TYPE eApiType = true ∧ sUsername ≠ [] ∧ sPassword ≠ [] ∧ sApiId ≠ [] ∧
    curlInitOk = true ∧
    c.eUserApiType = eApiType ∧ c.sUserApiId = sApiId ∧ c.sUserApiKey = [] ∧
    c.oUserCred = { sUsername := sUsername, sPassword := sPassword } ∧
    c.curlHeaders = some (defaultHeaders eApiType []) ∧
    c.curlHandle = LocalCurlConfig iTimeout iConnectTimeout ++
      [ .HTTPHEADER (some (defaultHeaders eApiType [])) ] ∧
    c.sClickatellResponse = [] ∧ c.performed = [] := by
  by_cases hv : VALIDATE_API_TYPE eApiType = true
  · by_cases he : sUsername = [] ∨ sPassword = [] ∨ sApiId = []
    · rcases ctorUserPass_valid_api eDebugOpt eApiType sUsername sPassword sApiId iTimeout
        iConnectTimeout curlInitOk passwordFirst u hv he with h1 | h1 | h1 <;>
        · rw [h1.1] at h; cases h
    · have hu : sUsername ≠ [] := fun x => he (Or.inl x)
      have hp : sPassword ≠ [] := fun x => he (Or.inr (Or.inl x))
      have hi : sApiId ≠ [] := fun x => he (Or.inr (Or.inr x))
      cases curlInitOk with
      | false =>
        cases passwordFirst <;>
          simp only [ctorUserPass, ValidateParamAPI_ok eApiType hv, ValidateApiString_ok _ _ hi,
            ValidateApiString_ok _ _ hu, ValidateApiString_ok _ _ hp, Initialize_fail] at h <;>
          cases h
      | true =>
        obtain ⟨c2, hc2, hrest⟩ := ctorUserPass_ok eDebugOpt eApiType sUsername sPassword sApiId
          iTimeout iConnectTimeout passwordFirst u hv hu hp hi
        rw [hc2] at h
        cases h
        exact ⟨hv, hu, hp, hi, rfl, hrest⟩
  · rw [ctorUserPass_invalid_api _ _ _ _ _ _ _ _ _ _ (by simpa using hv)] at h
    cases h

theorem appliedTimeout_config (t c : Int) (hdr : Option (List Str)) :
    appliedTimeout (LocalCurlConfig t c ++ [ .HTTPHEADER hdr ]) =
      some (if t ≤ 0 then 5 else t) ∧
    appliedConnectTimeout (LocalCurlConfig t c ++ [ .HTTPHEADER hdr ]) =
      some (if c ≤ 0 then 5 else c) := by
  simp [appliedTimeout, appliedConnectTimeout, LocalCurlConfig, List.findSome?,
    CLICK_SMS_DEFAULT_APICALL_TIMEOUT, CLICK_SMS_DEFAULT_APICALL_CONNECT_TIMEOUT]

/-! ## Claims on construction -/

/-- C12 (as stated, refuted): with the API type value 7 and an empty username
the username/password constructor raises `"Invalid API type for eClickApi:7"`,
which names none of the credential fields. -/
theorem C12_counterexample :
    ctorUserPass CLICK_DEBUG_ON 7 [] (lit "pw") (lit "42") 0 0 true false sampleIndeterminate
      = .error (lit "Invalid API type for eClickApi:7") ∧
    lit "Invalid API type for eClickApi:7" ∉
      [lit "Invalid user", lit "Invalid password", lit "Invalid API Key", lit "Invalid API ID"] :=
  ⟨rfl, by decide⟩

/-- C12 (amended): construction fails whenever a required credential string is
empty, whatever the other arguments are; when the API type is one of the two
known values, the error raised names a field that is in fact empty
(`"Invalid user"`, `"Invalid password"`, `"Invalid API Key"` or
`"Invalid API ID"`). -/
theorem ctor_fails_on_empty_credential (eDebugOpt eApiType : Int)
    (sUsername sPassword sApiKey sApiId : Str) (iTimeout iConnectTimeout : Int)
    (curlInitOk passwordFirst : Bool) (u : Indeterminate) :
    ((sUsername = [] ∨ sPassword = [] ∨ sApiId = []) →
      (∃ e, ctorUserPass eDebugOpt eApiType sUsername sPassword sApiId iTimeout iConnectTimeout
        curlInitOk passwordFirst u = .error e) ∧
      (VALIDATE_API_TYPE eApiType = true →
        (ctorUserPass eDebugOpt eApiType sUsername sPassword sApiId iTimeout iConnectTimeout
            curlInitOk passwordFirst u = .error (lit "Invalid user") ∧ sUsername = []) ∨
        (ctorUserPass eDebugOpt eApiType sUsername sPassword sApiId iTimeout iConnectTimeout
            curlInitOk passwordFirst u = .error (lit "Invalid password") ∧ sPassword = []) ∨
        (ctorUserPass eDebugOpt eApiType sUsername sPassword sApiId iTimeout iConnectTimeout
            curlInitOk passwordFirst u = .error (lit "Invalid API ID") ∧ sApiId = []))) ∧
    ((sApiKey = [] ∨ sApiId = []) →
      (∃ e, ctorApiKey eDebugOpt eApiType sApiKey sApiId iTimeout iConnectTimeout curlInitOk u
        = .error e) ∧
      (VALIDATE_API_TYPE eApiType = true →
        (ctorApiKey eDebugOpt eApiType sApiKey sApiId iTimeout iConnectTimeout curlInitOk u
            = .error (lit "Invalid API Key") ∧ sApiKey = []) ∨
        (ctorApiKey eDebugOpt eApiType sApiKey sApiId iTimeout iConnectTimeout curlInitOk u
            = .error (lit "Invalid API ID") ∧ sApiId = []))) := by
  refine ⟨fun he => ⟨?_, fun hv => ctorUserPass_valid_api _ _ _ _ _ _ _ _ _ _ hv he⟩,
    fun he => ⟨?_, fun hv => ctorApiKey_valid_api _ _ _ _ _ _ _ _ hv he⟩⟩
  · by_cases hv : VALIDATE_API_TYPE eApiType = true
    · rcases ctorUserPass_valid_api eDebugOpt eApiType sUsername sPassword sApiId iTimeout
        iConnectTimeout curlInitOk passwordFirst u hv he with h | h | h <;> exact ⟨_, h.1⟩
    · exact ⟨_, ctorUserPass_invalid_api _ _ _ _ _ _ _ _ _ _ (by simpa using hv)⟩
  · by_cases hv : VALIDATE_API_TYPE eApiType = true
    · rcases ctorApiKey_valid_api eDebugOpt eApiType sApiKey sApiId iTimeout iConnectTimeout
        curlInitOk u hv he with h | h <;> exact ⟨_, h.1⟩
    · exact ⟨_, ctorApiKey_invalid_api _ _ _ _ _ _ _ _ (by simpa using hv)⟩

/-- Witness of C12 (amended): an HTTP construction with an empty password and an
HTTP construction with an empty API key; each fails, and the error names a
field that is empty. -/
theorem ctor_fails_on_empty_credential_witness :
    ((∃ e, ctorUserPass CLICK_DEBUG_ON CLICK_API_HTTP (lit "bob") [] (lit "42") 5 2 true false
        sampleIndeterminate = .error e) ∧
      ((ctorUserPass CLICK_DEBUG_ON CLICK_API_HTTP (lit "bob") [] (lit "42") 5 2 true false
            sampleIndeterminate = .error (lit "Invalid user") ∧ lit "bob" = []) ∨
        (ctorUserPass CLICK_DEBUG_ON CLICK_API_HTTP (lit "bob") [] (lit "42") 5 2 true false
            sampleIndeterminate = .error (lit "Invalid password") ∧ ([] : Str) = []) ∨
        (ctorUserPass CLICK_DEBUG_ON CLICK_API_HTTP (lit "bob") [] (lit "42") 5 2 true false
            sampleIndeterminate = .error (lit "Invalid API ID") ∧ lit "42" = []))) ∧
    ((∃ e, ctorApiKey CLICK_DEBUG_ON CLICK_API_HTTP [] (lit "42") 5 2 true sampleIndeterminate
        = .error e) ∧
      ((ctorApiKey CLICK_DEBUG_ON CLICK_API_HTTP [] (lit "42") 5 2 true sampleIndeterminate
            = .error (lit "Invalid API Key") ∧ ([] : Str) = []) ∨
        (ctorApiKey CLICK_DEBUG_ON CLICK_API_HTTP [] (lit "42") 5 2 true sampleIndeterminate
            = .error (lit "Invalid API ID") ∧ lit "42" = []))) :=
  ⟨⟨((ctor_fails_on_empty_credential CLICK_DEBUG_ON CLICK_API_HTTP (lit "bob") [] [] (lit "42")
        5 2 true false sampleIndeterminate).1 (Or.inr (Or.inl rfl))).1,
    ((ctor_fails_on_empty_credential CLICK_DEBUG_ON CLICK_API_HTTP (lit "bob") [] [] (lit "42")
        5 2 true false sampleIndeterminate).1 (Or.inr (Or.inl rfl))).2 rfl⟩,
   ⟨((ctor_fails_on_empty_credential CLICK_DEBUG_ON CLICK_API_HTTP (lit "bob") [] [] (lit "42")
        5 2 true false sampleIndeterminate).2 (Or.inl rfl)).1,
    ((ctor_fails_on_empty_credential CLICK_DEBUG_ON CLICK_API_HTTP (lit "bob") [] [] (lit "42")
        5 2 true false sampleIndeterminate).2 (Or.inl rfl)).2 rfl⟩⟩

/-- C13: construction with an API type value below `CLICK_API_HTTP` or at or
above `CLICK_API_COUNT` fails with the invalid-API-type error, for both
constructors and for any credentials, empty ones included: the API type is
checked before any credential. -/
theorem ctor_fails_on_invalid_api_type (eDebugOpt eApiType : Int)
    (sUsername sPassword sApiKey sApiId : Str) (iTimeout iConnectTimeout : Int)
    (curlInitOk passwordFirst : Bool) (u : Indeterminate)
    (h : eApiType < CLICK_API_HTTP ∨ eApiType ≥ CLICK_API_COUNT) :
    ctorUserPass eDebugOpt eApiType sUsername sPassword sApiId iTimeout iConnectTimeout
      curlInitOk passwordFirst u = .error (apiTypeError eApiType) ∧
    ctorApiKey eDebugOpt eApiType sApiKey sApiId iTimeout iConnectTimeout curlInitOk u
      = .error (apiTypeError eApiType) := by
  have hv : VALIDATE_API_TYPE eApiType = false := by
    simp only [VALIDATE_API_TYPE, CLICK_API_HTTP, CLICK_API_COUNT] at h ⊢
    rcases h with h | h
    · simp [show ¬ (0 ≤ eApiType) by omega]
    · simp [show ¬ (eApiType < 2) by omega]
  exact ⟨ctorUserPass_invalid_api _ _ _ _ _ _ _ _ _ _ hv, ctorApiKey_invalid_api _ _ _ _ _ _ _ _ hv⟩

/-- Witness of C13 at the API type value 2 (`CLICK_API_COUNT`) with every
credential empty. -/
theorem ctor_fails_on_invalid_api_type_witness :
    ctorUserPass CLICK_DEBUG_ON 2 [] [] [] 5 2 true false sampleIndeterminate
      = .error (lit "Invalid API type for eClickApi:2") ∧
    ctorApiKey CLICK_DEBUG_ON 2 [] [] 5 2 true sampleIndeterminate
      = .error (lit "Invalid API type for eClickApi:2") :=
  ctor_fails_on_invalid_api_type CLICK_DEBUG_ON 2 [] [] [] [] 5 2 true false sampleIndeterminate
    (Or.inr (by decide))

/-- C14 (the code at the failing input): the username/password constructor
called with `CLICK_API_REST` succeeds and yields a REST client whose API key is
empty and whose bearer header carries no token; the API-key constructor called
with `CLICK_API_HTTP` yields an HTTP client with empty username and password. -/
theorem ctor_accepts_mismatched_variant :
    (∃ c, ctorUserPass CLICK_DEBUG_ON CLICK_API_REST (lit "bob") (lit "p w") (lit "42") 5 2
        true false sampleIndeterminate = .ok c ∧
      c.eUserApiType = CLICK_API_REST ∧ c.sUserApiKey = [] ∧
      c.curlHeaders = some [ lit "X-Version: 1", lit "Content-Type: application/json",
        lit "Accept: application/json", lit "Authorization: Bearer " ]) ∧
    (∃ c, ctorApiKey CLICK_DEBUG_ON CLICK_API_HTTP (lit "KEY") (lit "42") 5 2 true
        sampleIndeterminate = .ok c ∧
      c.eUserApiType = CLICK_API_HTTP ∧ c.oUserCred.sUsername = [] ∧
      c.oUserCred.sPassword = []) :=
  ⟨⟨_, rfl, rfl, rfl, rfl⟩, ⟨_, rfl, rfl, rfl, rfl⟩⟩

/-- C15 (as stated, refuted): the header list of a constructed HTTP client is
`"Connection:keep-alive"`, `"Cache-Control:max-age=0"`, `"Origin:null"`, with no
space after the colon, not the list of the claim. -/
theorem C15_counterexample :
    ∃ c, ctorUserPass CLICK_DEBUG_ON CLICK_API_HTTP (lit "bob") (lit "p w") (lit "42") 5 2
        true false sampleIndeterminate = .ok c ∧
      c.curlHeaders = some [ lit "Connection:keep-alive", lit "Cache-Control:max-age=0",
        lit "Origin:null" ] ∧
      c.curlHeaders ≠ some [ lit "Connection: keep-alive", lit "Cache-Control: max-age=0",
        lit "Origin: null" ] :=
  ⟨_, rfl, rfl, by decide⟩

/-- C15 (amended): for a valid API type, non-empty required credentials and an
available transport handle, construction succeeds; the header list of the
client, which is also the last option set on its handle, is for JsonRest
`"X-Version: 1"`, `"Content-Type: application/json"`,
`"Accept: application/json"` and `"Authorization: Bearer "` followed by the
stored API key up to its first `0x00` byte, and for LegacyQuery
`"Connection:keep-alive"`, `"Cache-Control:max-age=0"` and `"Origin:null"`. -/
theorem ctor_default_headers (eDebugOpt eApiType : Int)
    (sUsername sPassword sApiKey sApiId : Str) (iTimeout iConnectTimeout : Int)
    (passwordFirst : Bool) (u : Indeterminate)
    (hv : eApiType = CLICK_API_HTTP ∨ eApiType = CLICK_API_REST) (hi : sApiId ≠ []) :
    (sApiKey ≠ [] →
      ∃ c, ctorApiKey eDebugOpt eApiType sApiKey sApiId iTimeout iConnectTimeout true u = .ok c ∧
        c.curlHeaders = some
          (if eApiType = CLICK_API_REST then
            [ lit "X-Version: 1", lit "Content-Type: application/json",
              lit "Accept: application/json", lit "Authorization: Bearer " ++ c_str sApiKey ]
           else
            [ lit "Connection:keep-alive", lit "Cache-Control:max-age=0", lit "Origin:null" ]) ∧
        c.curlHandle.getLast? = some (.HTTPHEADER c.curlHeaders)) ∧
    (sUsername ≠ [] → sPassword ≠ [] →
      ∃ c, ctorUserPass eDebugOpt eApiType sUsername sPassword sApiId iTimeout iConnectTimeout
          true passwordFirst u = .ok c ∧
        c.curlHeaders = some
          (if eApiType = CLICK_API_REST then
            [ lit "X-Version: 1", lit "Content-Type: application/json",
              lit "Accept: application/json", lit "Authorization: Bearer " ]
           else
            [ lit "Connection:keep-alive", lit "Cache-Control:max-age=0", lit "Origin:null" ]) ∧
        c.curlHandle.getLast? = some (.HTTPHEADER c.curlHeaders)) := by
  have hval : VALIDATE_API_TYPE eApiType = true := (VALIDATE_API_TYPE_iff eApiType).mpr hv
  refine ⟨fun hk => ?_, fun hu hp => ?_⟩
  · obtain ⟨c, hc, _, _, _, _, hh, hd, _⟩ := ctorApiKey_ok eDebugOpt eApiType sApiKey sApiId
      iTimeout iConnectTimeout u hval hk hi
    refine ⟨c, hc, ?_, ?_⟩
    · rw [hh]; rfl
    · rw [hd, hh]; simp
  · obtain ⟨c, hc, _, _, _, _, hh, hd, _⟩ := ctorUserPass_ok eDebugOpt eApiType sUsername
      sPassword sApiId iTimeout iConnectTimeout passwordFirst u hval hu hp hi
    refine ⟨c, hc, ?_, ?_⟩
    · rw [hh]
      simp [defaultHeaders, c_str]
    · rw [hd, hh]; simp

/-- Witness of C15 (amended): the API-key constructor with `CLICK_API_REST` and
the username/password constructor with `CLICK_API_HTTP`. -/
theorem ctor_default_headers_witness :
    (∃ c, ctorApiKey CLICK_DEBUG_ON CLICK_API_REST (lit "KEY") (lit "42") 5 2 true
        sampleIndeterminate = .ok c ∧
      c.curlHeaders = some
        [ lit "X-Version: 1", lit "Content-Type: application/json",
          lit "Accept: application/json", lit "Authorization: Bearer KEY" ] ∧
      c.curlHandle.getLast? = some (.HTTPHEADER c.curlHeaders)) ∧
    (∃ c, ctorUserPass CLICK_DEBUG_ON CLICK_API_HTTP (lit "bob") (lit "p w") (lit "42") 5 2
        true false sampleIndeterminate = .ok c ∧
      c.curlHeaders = some
        [ lit "Connection:keep-alive", lit "Cache-Control:max-age=0", lit "Origin:null" ] ∧
      c.curlHandle.getLast? = some (.HTTPHEADER c.curlHeaders)) :=
  ⟨(ctor_default_headers CLICK_DEBUG_ON CLICK_API_REST (lit "bob") (lit "p w") (lit "KEY")
      (lit "42") 5 2 false sampleIndeterminate (Or.inr rfl) (by decide)).1 (by decide),
   (ctor_default_headers CLICK_DEBUG_ON CLICK_API_HTTP (lit "bob") (lit "p w") (lit "KEY")
      (lit "42") 5 2 false sampleIndeterminate (Or.inl rfl) (by decide)).2 (by decide)
      (by decide)⟩

/-- C16: the request timeout in force on the handle of a constructed client is
5 when the caller's value is not positive and the caller's value otherwise;
likewise the connect timeout; each is set from its own argument only. -/
theorem timeouts_applied (t c : Int) :
    appliedTimeout (LocalCurlConfig t c) = some (if t ≤ 0 then 5 else t) ∧
    appliedConnectTimeout (LocalCurlConfig t c) = some (if c ≤ 0 then 5 else c) ∧
    (∀ c2 : Int, appliedTimeout (LocalCurlConfig t c2) = appliedTimeout (LocalCurlConfig t c)) ∧
    (∀ t2 : Int, appliedConnectTimeout (LocalCurlConfig t2 c) =
      appliedConnectTimeout (LocalCurlConfig t c)) ∧
    (∀ (eDebugOpt eApiType : Int) (sApiKey sApiId : Str) (ok : Bool) (u : Indeterminate)
      (cl : ClickatellSms),
      ctorApiKey eDebugOpt eApiType sApiKey sApiId t c ok u = .ok cl →
        appliedTimeout cl.curlHandle = some (if t ≤ 0 then 5 else t) ∧
        appliedConnectTimeout cl.curlHandle = some (if c ≤ 0 then 5 else c)) ∧
    (∀ (eDebugOpt eApiType : Int) (sUsername sPassword sApiId : Str) (ok pf : Bool)
      (u : Indeterminate) (cl : ClickatellSms),
      ctorUserPass eDebugOpt eApiType sUsername sPassword sApiId t c ok pf u = .ok cl →
        appliedTimeout cl.curlHandle = some (if t ≤ 0 then 5 else t) ∧
        appliedConnectTimeout cl.curlHandle = some (if c ≤ 0 then 5 else c)) := by
  have base : ∀ t c : Int,
      appliedTimeout (LocalCurlConfig t c) = some (if t ≤ 0 then 5 else t) ∧
      appliedConnectTimeout (LocalCurlConfig t c) = some (if c ≤ 0 then 5 else c) := by
    intro t c
    simp [appliedTimeout, appliedConnectTimeout, LocalCurlConfig, List.findSome?,
      CLICK_SMS_DEFAULT_APICALL_TIMEOUT, CLICK_SMS_DEFAULT_APICALL_CONNECT_TIMEOUT]
  refine ⟨(base t c).1, (base t c).2, fun c2 => ?_, fun t2 => ?_, ?_, ?_⟩
  · rw [(base t c2).1, (base t c).1]
  · rw [(base t2 c).2, (base t c).2]
  · intro d e k i ok u cl h
    obtain ⟨_, _, _, _, _, _, _, _, _, hd, _⟩ := ctorApiKey_inv d e k i t c ok u cl h
    rw [hd]
    exact appliedTimeout_config t c _
  · intro d e n p i ok pf u cl h
    obtain ⟨_, _, _, _, _, _, _, _, _, _, hd, _⟩ := ctorUserPass_inv d e n p i t c ok pf u cl h
    rw [hd]
    exact appliedTimeout_config t c _

/-- Witness of C16 at the caller's timeouts `(0, 30)` on the API-key
constructor: the request timeout is 5 and the connect timeout is 30. -/
theorem timeouts_applied_witness :
    ∃ cl, ctorApiKey CLICK_DEBUG_ON CLICK_API_REST (lit "KEY") (lit "42") 0 30 true
        sampleIndeterminate = .ok cl ∧
      appliedTimeout cl.curlHandle = some 5 ∧ appliedConnectTimeout cl.curlHandle = some 30 :=
  ⟨_, rfl, (timeouts_applied 0 30).2.2.2.2.1 CLICK_DEBUG_ON CLICK_API_REST (lit "KEY") (lit "42")
    true sampleIndeterminate _ rfl⟩

/-! ## Requests of the operations other than a send -/

theorem LocalApiCommandExecute_nonpost (net : Transport) (s : ClickatellSms) (sPath : Str)
    (kv : List ClickKeyVal) (ms : List Str) (hp : sPath ≠ [])
    (hreq : s.eRequest ≠ CLICK_CURL_POST) :
    issued s (LocalApiCommandExecute net s sPath kv ms) s.eRequest
      (sLocalBaseUrl ++ sPath ++ buildApiParams s.eUserApiType kv ms)
      (c_str (sLocalBaseUrl ++ sPath ++ buildApiParams s.eUserApiType kv ms))
      (if s.eRequest = CLICK_CURL_DELETE then [ .CUSTOMREQUEST (lit "DELETE") ]
       else [ .HTTPGET 1 ]) := by
  unfold issued LocalApiCommandExecute
  rw [CLICK_STR_INVALID_of_ne sPath hp]
  simp only [Bool.false_eq_true, if_false, if_neg hreq]
  cases kv with
  | nil =>
    simp only [List.isEmpty_nil, Bool.not_true, Bool.false_eq_true, if_false,
      LocalCurlExecute_eRequest, LocalCurlExecute_sFullUrl, LocalCurlExecute_performed,
      executeOpts, if_neg hreq, buildApiParams, List.append_nil, true_and]
  | cons k r =>
    simp only [List.isEmpty_cons, Bool.not_false, if_true,
      LocalCurlExecute_eRequest, LocalCurlExecute_sFullUrl, LocalCurlExecute_performed,
      executeOpts, if_neg hreq, true_and]

theorem http_params3 (u p i : Str) :
    buildApiParams CLICK_API_HTTP
        (urlEncodeVals
          [ { sKey := lit "user", sVal := u }, { sKey := lit "password", sVal := p },
            { sKey := lit "api_id", sVal := i } ]) [] =
      lit "?user=" ++ click_string_url_encode u ++ lit "&password=" ++ click_string_url_encode p ++
        lit "&api_id=" ++ click_string_url_encode i := by
  have k1 : c_str (lit "user") = lit "user" := by decide
  have k2 : c_str (lit "password") = lit "password" := by decide
  have k3 : c_str (lit "api_id") = lit "api_id" := by decide
  have eu := c_str_of_nulFree _ (click_string_url_encode_nulFree u)
  have ep := c_str_of_nulFree _ (click_string_url_encode_nulFree p)
  have ei := c_str_of_nulFree _ (click_string_url_encode_nulFree i)
  have f1 : nulFree (lit "" ++ lit "user" ++ lit "=" ++ click_string_url_encode u) :=
    nulFree_append _ _ (by decide) (click_string_url_encode_nulFree u)
  have f2 : nulFree (lit "&" ++ lit "password" ++ lit "=" ++ click_string_url_encode p) :=
    nulFree_append _ _ (by decide) (click_string_url_encode_nulFree p)
  have f3 : nulFree (lit "&" ++ lit "api_id" ++ lit "=" ++ click_string_url_encode i) :=
    nulFree_append _ _ (by decide) (click_string_url_encode_nulFree i)
  have n0 : lit "?" ≠ [] := by decide
  have n1 : ∀ x : Str, lit "?" ++ x ≠ [] := fun x h => n0 (List.append_eq_nil.mp h).1
  simp only [buildApiParams, urlEncodeVals, List.map, List.isEmpty_cons, List.isEmpty_nil,
    Bool.not_false, Bool.not_true, Bool.false_eq_true, if_true, if_false,
    appendKeyValsHttp, k1, k2, k3, eu, ep, ei, Nat.zero_add, Nat.reduceAdd,
    OfNat.ofNat_ne_zero, Nat.succ_ne_zero]
  rw [append_formatted_of_nulFree _ _ n0 f1,
    append_formatted_of_nulFree _ _ (by rw [List.append_assoc]; exact n1 _) f2,
    append_formatted_of_nulFree _ _ (by rw [List.append_assoc, List.append_assoc]; exact n1 _) f3]
  simp [lit, List.append_assoc]

theorem http_params4 (u p i k x : Str) (hk : nulFree k) :
    buildApiParams CLICK_API_HTTP
        (urlEncodeVals
          [ { sKey := lit "user", sVal := u }, { sKey := lit "password", sVal := p },
            { sKey := lit "api_id", sVal := i }, { sKey := k, sVal := x } ]) [] =
      lit "?user=" ++ click_string_url_encode u ++ lit "&password=" ++ click_string_url_encode p ++
        lit "&api_id=" ++ click_string_url_encode i ++
        (lit "&" ++ k ++ lit "=" ++ click_string_url_encode x) := by
  have k1 : c_str (lit "user") = lit "user" := by decide
  have k2 : c_str (lit "password") = lit "password" := by decide
  have k3 : c_str (lit "api_id") = lit "api_id" := by decide
  have k4 : c_str k = k := c_str_of_nulFree k hk
  have eu := c_str_of_nulFree _ (click_string_url_encode_nulFree u)
  have ep := c_str_of_nulFree _ (click_string_url_encode_nulFree p)
  have ei := c_str_of_nulFree _ (click_string_url_encode_nulFree i)
  have ex := c_str_of_nulFree _ (click_string_url_encode_nulFree x)
  have f1 : nulFree (lit "" ++ lit "user" ++ lit "=" ++ click_string_url_encode u) :=
    nulFree_append _ _ (by decide) (click_string_url_encode_nulFree u)
  have f2 : nulFree (lit "&" ++ lit "password" ++ lit "=" ++ click_string_url_encode p) :=
    nulFree_append _ _ (by decide) (click_string_url_encode_nulFree p)
  have f3 : nulFree (lit "&" ++ lit "api_id" ++ lit "=" ++ click_string_url_encode i) :=
    nulFree_append _ _ (by decide) (click_string_url_encode_nulFree i)
  have f4 : nulFree (lit "&" ++ k ++ lit "=" ++ click_string_url_encode x) :=
    nulFree_append _ _ (nulFree_append _ _ (nulFree_append _ _ (by decide) hk) (by decide))
      (click_string_url_encode_nulFree x)
  have n0 : lit "?" ≠ [] := by decide
  have n1 : ∀ x : Str, lit "?" ++ x ≠ [] := fun x h => n0 (List.append_eq_nil.mp h).1
  simp only [buildApiParams, urlEncodeVals, List.map, List.isEmpty_cons, List.isEmpty_nil,
    Bool.not_false, Bool.not_true, Bool.false_eq_true, if_true, if_false,
    appendKeyValsHttp, k1, k2, k3, k4, eu, ep, ei, ex, Nat.zero_add, Nat.reduceAdd,
    OfNat.ofNat_ne_zero, Nat.succ_ne_zero]
  rw [append_formatted_of_nulFree _ _ n0 f1,
    append_formatted_of_nulFree _ _ (by rw [List.append_assoc]; exact n1 _) f2,
    append_formatted_of_nulFree _ _ (by rw [List.append_assoc, List.append_assoc]; exact n1 _) f3,
    append_formatted_of_nulFree _ _
      (by rw [List.append_assoc, List.append_assoc, List.append_assoc]; exact n1 _) f4]
  simp [lit, List.append_assoc]

theorem httpTarget_nulFree (path u p i tail : Str) (hp : nulFree path) (ht : nulFree tail) :
    nulFree (httpTarget path u p i tail) := by
  simp only [httpTarget, nulFree_append_iff]
  repeat' apply And.intro
  all_goals first
    | exact click_string_url_encode_nulFree _
    | exact hp
    | exact ht
    | decide
theorem http_get4 (net : Transport) (s : ClickatellSms) (path k x : Str)
    (hhttp : s.eUserApiType = CLICK_API_HTTP) (hreq : s.eRequest = CLICK_CURL_GET)
    (hp : path ≠ []) (hpn : nulFree path) (hk : nulFree k) :
    issued s
      (LocalApiCommandExecute net s path
        (urlEncodeVals (httpCredKeyVals s ++ [{ sKey := k, sVal := x }])) [])
      CLICK_CURL_GET
      (httpTarget path s.oUserCred.sUsername s.oUserCred.sPassword s.sUserApiId
        (lit "&" ++ k ++ lit "=" ++ click_string_url_encode x))
      (httpTarget path s.oUserCred.sUsername s.oUserCred.sPassword s.sUserApiId
        (lit "&" ++ k ++ lit "=" ++ click_string_url_encode x))
      [ .HTTPGET 1 ] := by
  have h := LocalApiCommandExecute_nonpost net s path
    (urlEncodeVals (httpCredKeyVals s ++ [{ sKey := k, sVal := x }])) [] hp
    (by rw [hreq]; decide)
  have ht : nulFree (lit "&" ++ k ++ lit "=" ++ click_string_url_encode x) :=
    nulFree_append _ _ (nulFree_append _ _ (nulFree_append _ _ (by decide) hk) (by decide))
      (click_string_url_encode_nulFree x)
  have hn := httpTarget_nulFree path s.oUserCred.sUsername s.oUserCred.sPassword s.sUserApiId
    _ hpn ht
  have hb := http_params4 s.oUserCred.sUsername s.oUserCred.sPassword s.sUserApiId k x hk
  have htarget : sLocalBaseUrl ++ path ++
      buildApiParams CLICK_API_HTTP
        (urlEncodeVals (httpCredKeyVals s ++ [{ sKey := k, sVal := x }])) [] =
      httpTarget path s.oUserCred.sUsername s.oUserCred.sPassword s.sUserApiId
        (lit "&" ++ k ++ lit "=" ++ click_string_url_encode x) := by
    simp only [httpCredKeyVals, List.cons_append, List.nil_append]
    rw [hb]
    simp [httpTarget, List.append_assoc]
  rw [hhttp, htarget, c_str_of_nulFree _ hn, hreq,
    if_neg (show ¬ CLICK_CURL_GET = CLICK_CURL_DELETE by decide)] at h
  exact h

theorem http_get3 (net : Transport) (s : ClickatellSms) (path : Str)
    (hhttp : s.eUserApiType = CLICK_API_HTTP) (hreq : s.eRequest = CLICK_CURL_GET)
    (hp : path ≠ []) (hpn : nulFree path) :
    issued s
      (LocalApiCommandExecute net s path (urlEncodeVals (httpCredKeyVals s)) [])
      CLICK_CURL_GET
      (httpTarget path s.oUserCred.sUsername s.oUserCred.sPassword s.sUserApiId [])
      (httpTarget path s.oUserCred.sUsername s.oUserCred.sPassword s.sUserApiId [])
      [ .HTTPGET 1 ] := by
  have h := LocalApiCommandExecute_nonpost net s path
    (urlEncodeVals (httpCredKeyVals s)) [] hp (by rw [hreq]; decide)
  have hn := httpTarget_nulFree path s.oUserCred.sUsername s.oUserCred.sPassword s.sUserApiId
    [] hpn (by decide)
  have hb := http_params3 s.oUserCred.sUsername s.oUserCred.sPassword s.sUserApiId
  have htarget : sLocalBaseUrl ++ path ++
      buildApiParams CLICK_API_HTTP (urlEncodeVals (httpCredKeyVals s)) [] =
      httpTarget path s.oUserCred.sUsername s.oUserCred.sPassword s.sUserApiId [] := by
    simp only [httpCredKeyVals]
    rw [hb]
    simp [httpTarget, List.append_assoc]
  rw [hhttp, htarget, c_str_of_nulFree _ hn, hreq,
    if_neg (show ¬ CLICK_CURL_GET = CLICK_CURL_DELETE by decide)] at h
  exact h

/-! ## Claims on the operations other than a send -/

/-- C17: on a LegacyQuery client, each operation other than a send, called with
a non-empty argument, selects GET, sets no POST body and targets the base URL
followed by the path of the operation,
`?user=E(u)&password=E(p)&api_id=E(i)` and the tail of the operation, the
credentials first and in this order. -/
theorem http_operations (net : Transport) (c : ClickatellSms) (x : Str)
    (hhttp : c.eUserApiType = CLICK_API_HTTP) (hx : x ≠ []) :
    issued c (SmsStatusGet net c x).1 CLICK_CURL_GET
      (httpTarget (lit "http/querymsg.php") c.oUserCred.sUsername c.oUserCred.sPassword
        c.sUserApiId (lit "&apimsgid=" ++ click_string_url_encode x))
      (httpTarget (lit "http/querymsg.php") c.oUserCred.sUsername c.oUserCred.sPassword
        c.sUserApiId (lit "&apimsgid=" ++ click_string_url_encode x))
      [ .HTTPGET 1 ] ∧
    issued c (SmsBalanceGet net c).1 CLICK_CURL_GET
      (httpTarget (lit "http/getbalance.php") c.oUserCred.sUsername c.oUserCred.sPassword
        c.sUserApiId [])
      (httpTarget (lit "http/getbalance.php") c.oUserCred.sUsername c.oUserCred.sPassword
        c.sUserApiId [])
      [ .HTTPGET 1 ] ∧
    issued c (SmsChargeGet net c x).1 CLICK_CURL_GET
      (httpTarget (lit "http/getmsgcharge.php") c.oUserCred.sUsername c.oUserCred.sPassword
        c.sUserApiId (lit "&apimsgid=" ++ click_string_url_encode x))
      (httpTarget (lit "http/getmsgcharge.php") c.oUserCred.sUsername c.oUserCred.sPassword
        c.sUserApiId (lit "&apimsgid=" ++ click_string_url_encode x))
      [ .HTTPGET 1 ] ∧
    issued c (SmsCoverageGet net c x).1 CLICK_CURL_GET
      (httpTarget (lit "utils/routecoverage.php") c.oUserCred.sUsername c.oUserCred.sPassword
        c.sUserApiId (lit "&msisdn=" ++ click_string_url_encode x))
      (httpTarget (lit "utils/routecoverage.php") c.oUserCred.sUsername c.oUserCred.sPassword
        c.sUserApiId (lit "&msisdn=" ++ click_string_url_encode x))
      [ .HTTPGET 1 ] ∧
    issued c (SmsMessageStop net c x).1 CLICK_CURL_GET
      (httpTarget (lit "http/delmsg.php") c.oUserCred.sUsername c.oUserCred.sPassword
        c.sUserApiId (lit "&apimsgid=" ++ click_string_url_encode x))
      (httpTarget (lit "http/delmsg.php") c.oUserCred.sUsername c.oUserCred.sPassword
        c.sUserApiId (lit "&apimsgid=" ++ click_string_url_encode x))
      [ .HTTPGET 1 ] := by
  have e1 : ∀ y : Str, lit "&" ++ lit "apimsgid" ++ lit "=" ++ y = lit "&apimsgid=" ++ y := by
    intro y; simp [lit]
  have e2 : ∀ y : Str, lit "&" ++ lit "msisdn" ++ lit "=" ++ y = lit "&msisdn=" ++ y := by
    intro y; simp [lit]
  have hxi := CLICK_STR_INVALID_of_ne x hx
  refine ⟨?_, ?_, ?_, ?_, ?_⟩
  · have h := http_get4 net { c with eRequest := CLICK_CURL_GET } (lit "http/querymsg.php")
      (lit "apimsgid") x hhttp rfl (by decide) (by decide) (by decide)
    rw [e1] at h
    simp only [SmsStatusGet, hxi, Bool.false_eq_true, if_false]
    split
    · exact h
    · exact absurd hhttp (by assumption)
  · have h := http_get3 net { c with eRequest := CLICK_CURL_GET } (lit "http/getbalance.php")
      hhttp rfl (by decide) (by decide)
    simp only [SmsBalanceGet]
    split
    · exact h
    · exact absurd hhttp (by assumption)
  · have h := http_get4 net { c with eRequest := CLICK_CURL_GET } (lit "http/getmsgcharge.php")
      (lit "apimsgid") x hhttp rfl (by decide) (by decide) (by decide)
    rw [e1] at h
    simp only [SmsChargeGet, hxi, Bool.false_eq_true, if_false]
    split
    · exact h
    · exact absurd hhttp (by assumption)
  · have h := http_get4 net { c with eRequest := CLICK_CURL_GET } (lit "utils/routecoverage.php")
      (lit "msisdn") x hhttp rfl (by decide) (by decide) (by decide)
    rw [e2] at h
    simp only [SmsCoverageGet, hxi, Bool.false_eq_true, if_false]
    split
    · exact h
    · exact absurd hhttp (by assumption)
  · have h := http_get4 net { c with eRequest := CLICK_CURL_GET } (lit "http/delmsg.php")
      (lit "apimsgid") x hhttp rfl (by decide) (by decide) (by decide)
    rw [e1] at h
    simp only [SmsMessageStop, hxi, Bool.false_eq_true, if_false]
    split
    · exact h
    · exact absurd hhttp (by assumption)
theorem LocalApiCommandExecute_post (net : Transport) (s : ClickatellSms) (sPath : Str)
    (k : ClickKeyVal) (kv : List ClickKeyVal) (ms : List Str) (hp : sPath ≠ [])
    (hreq : s.eRequest = CLICK_CURL_POST) :
    issued s (LocalApiCommandExecute net s sPath (k :: kv) ms) CLICK_CURL_POST
      (sLocalBaseUrl ++ sPath) (c_str (sLocalBaseUrl ++ sPath))
      (if !CLICK_STR_INVALID (buildApiParams s.eUserApiType (k :: kv) ms) &&
          (buildApiParams s.eUserApiType (k :: kv) ms).length > 0 then
        [ .POST 1, .POSTFIELDS (buildApiParams s.eUserApiType (k :: kv) ms),
          .POSTFIELDSIZE (buildApiParams s.eUserApiType (k :: kv) ms).length ]
       else []) := by
  unfold issued LocalApiCommandExecute
  rw [CLICK_STR_INVALID_of_ne sPath hp]
  simp only [Bool.false_eq_true, if_false, List.isEmpty_cons, Bool.not_false, if_true, hreq,
    LocalCurlExecute_eRequest, LocalCurlExecute_sFullUrl, LocalCurlExecute_performed,
    executeOpts, true_and]

theorem buildApiParams_nil (e : Int) (ms : List Str) : buildApiParams e [] ms = [] := by
  simp [buildApiParams]

theorem c_str_base_append (path : String) (x : Str) (h : nulFree (sLocalBaseUrl ++ lit path)) :
    c_str (sLocalBaseUrl ++ (lit path ++ x)) = sLocalBaseUrl ++ (lit path ++ c_str x) := by
  rw [← List.append_assoc, c_str_append_of_nulFree _ _ h, List.append_assoc]

theorem rest_send_issued (net : Transport) (s : ClickatellSms) (t : Str) (a : List Str)
    (hrest : s.eUserApiType = CLICK_API_REST) (hreq : s.eRequest = CLICK_CURL_POST) :
    issued s (LocalApiCommandExecute net s (lit "rest/message")
        [{ sKey := lit "text", sVal := t }] a)
      CLICK_CURL_POST (sLocalBaseUrl ++ lit "rest/message")
      (c_str (sLocalBaseUrl ++ lit "rest/message")) (restVerbOpts (.send t a)) := by
  have h := LocalApiCommandExecute_post net s (lit "rest/message")
    { sKey := lit "text", sVal := t } [] a (by decide) hreq
  rw [hrest] at h
  exact h

theorem rest_issued (net : Transport) (c : ClickatellSms) (op : Operation)
    (hrest : c.eUserApiType = CLICK_API_REST) (hv : op.valid = true) :
    issued c (op.run net c).1 (restRequestType op) (sLocalBaseUrl ++ restPath op)
      (c_str (sLocalBaseUrl ++ restPath op)) (restVerbOpts op) := by
  have hne : ¬ c.eUserApiType = CLICK_API_HTTP := by rw [hrest]; decide
  have g1 : (CLICK_CURL_GET : Int) ≠ CLICK_CURL_POST := by decide
  have g2 : ¬ (CLICK_CURL_GET : Int) = CLICK_CURL_DELETE := by decide
  have d1 : (CLICK_CURL_DELETE : Int) ≠ CLICK_CURL_POST := by decide
  cases op with
  | send t a =>
    simp only [Operation.valid, Bool.and_eq_true] at hv
    have ha : a.isEmpty = false := by
      cases a with
      | nil => simp at hv
      | cons x r => rfl
    have h := rest_send_issued net { c with eRequest := CLICK_CURL_POST } t a hrest rfl
    simp only [Operation.run, SmsMessageSend, isEmpty_eq_false_of_not t hv.1, ha, Bool.or_self,
      Bool.false_eq_true, if_false, if_neg hne, restRequestType, restPath, restVerbOpts]
    exact h
  | status x =>
    simp only [Operation.valid] at hv
    have h := LocalApiCommandExecute_nonpost net { c with eRequest := CLICK_CURL_GET }
      (lit "rest/message/" ++ x) [] [] (lit_append_ne_nil _ _ (by decide)) g1
    rw [buildApiParams_nil, List.append_nil] at h
    simp only [Operation.run, SmsStatusGet, isEmpty_eq_false_of_not x hv, Bool.false_eq_true,
      if_false, if_neg hne, restRequestType, restPath, restVerbOpts]
    simpa only [if_neg g2] using h
  | balance =>
    have h := LocalApiCommandExecute_nonpost net { c with eRequest := CLICK_CURL_GET }
      (lit "rest/account/balance") [] [] (by decide) g1
    rw [buildApiParams_nil, List.append_nil] at h
    simp only [Operation.run, SmsBalanceGet, if_neg hne, restRequestType, restPath, restVerbOpts]
    simpa only [if_neg g2] using h
  | charge x =>
    simp only [Operation.valid] at hv
    have h := LocalApiCommandExecute_nonpost net { c with eRequest := CLICK_CURL_GET }
      (lit "rest/message/" ++ x) [] [] (lit_append_ne_nil _ _ (by decide)) g1
    rw [buildApiParams_nil, List.append_nil] at h
    simp only [Operation.run, SmsChargeGet, isEmpty_eq_false_of_not x hv, Bool.false_eq_true,
      if_false, if_neg hne, restRequestType, restPath, restVerbOpts]
    simpa only [if_neg g2] using h
  | coverage x =>
    simp only [Operation.valid] at hv
    have h := LocalApiCommandExecute_nonpost net { c with eRequest := CLICK_CURL_GET }
      (lit "rest/coverage/" ++ x) [] [] (lit_append_ne_nil _ _ (by decide)) g1
    rw [buildApiParams_nil, List.append_nil] at h
    simp only [Operation.run, SmsCoverageGet, isEmpty_eq_false_of_not x hv, Bool.false_eq_true,
      if_false, if_neg hne, restRequestType, restPath, restVerbOpts]
    simpa only [if_neg g2] using h
  | stop x =>
    simp only [Operation.valid] at hv
    have h := LocalApiCommandExecute_nonpost net { c with eRequest := CLICK_CURL_DELETE }
      (lit "rest/message/" ++ x) [] [] (lit_append_ne_nil _ _ (by decide)) d1
    rw [buildApiParams_nil, List.append_nil] at h
    simp only [Operation.run, SmsMessageStop, isEmpty_eq_false_of_not x hv, Bool.false_eq_true,
      if_false, if_neg hne, restRequestType, restPath, restVerbOpts]
    simpa only [if_true] using h

/-- Witness of C17 on the sample HTTP client with the argument `"a b"`: the
status query and the balance query. -/
theorem http_operations_witness :
    issued sampleHttpClient (SmsStatusGet (failingNet 7) sampleHttpClient (lit "a b")).1
      CLICK_CURL_GET
      (lit "https://api.clickatell.com/http/querymsg.php?user=bob&password=p+w&api_id=42&apimsgid=a+b")
      (lit "https://api.clickatell.com/http/querymsg.php?user=bob&password=p+w&api_id=42&apimsgid=a+b")
      [ .HTTPGET 1 ] ∧
    issued sampleHttpClient (SmsBalanceGet (failingNet 7) sampleHttpClient).1 CLICK_CURL_GET
      (lit "https://api.clickatell.com/http/getbalance.php?user=bob&password=p+w&api_id=42")
      (lit "https://api.clickatell.com/http/getbalance.php?user=bob&password=p+w&api_id=42")
      [ .HTTPGET 1 ] :=
  ⟨(http_operations (failingNet 7) sampleHttpClient (lit "a b") rfl (by decide)).1,
   (http_operations (failingNet 7) sampleHttpClient (lit "a b") rfl (by decide)).2.1⟩

/-- C19: under JsonRest the credentials do not travel as parameters: for any
two JsonRest clients, whatever their API keys and application ids, and for
every operation with valid arguments, the request type, the stored URL, the
URL handed to the transport and the verb options (the POST body included) are
the same; the handles differ only by what each client had before and by its
own header list.  An operation with an invalid argument builds no request on
either client. -/
theorem rest_request_independent_of_credentials (net1 net2 : Transport)
    (c1 c2 : ClickatellSms) (op : Operation)
    (h1 : c1.eUserApiType = CLICK_API_REST) (h2 : c2.eUserApiType = CLICK_API_REST) :
    (op.valid = true →
      ∃ (eRequest : Int) (sFullUrl url : Str) (verbOpts : List CurlOpt),
        issued c1 (op.run net1 c1).1 eRequest sFullUrl url verbOpts ∧
        issued c2 (op.run net2 c2).1 eRequest sFullUrl url verbOpts) ∧
    (op.valid = false →
      (op.run net1 c1).1.performed = c1.performed ∧
      (op.run net2 c2).1.performed = c2.performed ∧
      (op.run net1 c1).1.sFullUrl = c1.sFullUrl ∧
      (op.run net2 c2).1.sFullUrl = c2.sFullUrl) := by
  refine ⟨fun hv => ⟨_, _, _, _, rest_issued net1 c1 op h1 hv, rest_issued net2 c2 op h2 hv⟩,
    fun hv => ?_⟩
  cases op with
  | send t a =>
    have hinv : (CLICK_STR_INVALID t || a.isEmpty) = true := by
      cases t <;> cases a <;> simp_all [Operation.valid, CLICK_STR_INVALID]
    simp only [Operation.run, SmsMessageSend, hinv, if_true, rejectInvalid, and_self]
  | balance => simp [Operation.valid] at hv
  | status x =>
    cases x with
    | nil => exact ⟨rfl, rfl, rfl, rfl⟩
    | cons a r => simp [Operation.valid] at hv
  | charge x =>
    cases x with
    | nil => exact ⟨rfl, rfl, rfl, rfl⟩
    | cons a r => simp [Operation.valid] at hv
  | coverage x =>
    cases x with
    | nil => exact ⟨rfl, rfl, rfl, rfl⟩
    | cons a r => simp [Operation.valid] at hv
  | stop x =>
    cases x with
    | nil => exact ⟨rfl, rfl, rfl, rfl⟩
    | cons a r => simp [Operation.valid] at hv

/-- Witness of C19: a send of `"Hi"` to `["123"]` on the sample REST client and
on the same client with another API key, application id and header list. -/
theorem rest_request_independent_of_credentials_witness :
    ∃ (eRequest : Int) (sFullUrl url : Str) (verbOpts : List CurlOpt),
      issued sampleRestClient
        (Operation.run (failingNet 7) sampleRestClient (.send (lit "Hi") [lit "123"])).1
        eRequest sFullUrl url verbOpts ∧
      issued
        { sampleRestClient with
            sUserApiKey := lit "OTHER", sUserApiId := lit "7",
            curlHeaders := some [lit "Authorization: Bearer OTHER"] }
        (Operation.run (answeringNet (lit "OK"))
          { sampleRestClient with
              sUserApiKey := lit "OTHER", sUserApiId := lit "7",
              curlHeaders := some [lit "Authorization: Bearer OTHER"] }
          (.send (lit "Hi") [lit "123"])).1
        eRequest sFullUrl url verbOpts :=
  (rest_request_independent_of_credentials (failingNet 7) (answeringNet (lit "OK"))
    sampleRestClient
    { sampleRestClient with
        sUserApiKey := lit "OTHER", sUserApiId := lit "7",
        curlHeaders := some [lit "Authorization: Bearer OTHER"] }
    (.send (lit "Hi") [lit "123"]) rfl rfl).1 rfl

/-- C20 (the code at the failing input): on the sample REST client, after a
stop of message `"abc"`, a balance query, a status query and a send select the
request types GET, GET and POST, yet the handle they give to the transport
still carries the custom request `"DELETE"`, which libcurl sends as the
method of each of them. -/
theorem delete_sticks_after_stop :
    (SmsBalanceGet (failingNet 7) sampleRestClientAfterStop).1.eRequest = CLICK_CURL_GET ∧
    (SmsBalanceGet (failingNet 7) sampleRestClientAfterStop).1.performed.getLast?.bind
      customRequest = some (lit "DELETE") ∧
    (SmsBalanceGet (failingNet 7) sampleRestClientAfterStop).1.performed.getLast?.map wireMethod
      = some (lit "DELETE") ∧
    (SmsStatusGet (failingNet 7) sampleRestClientAfterStop (lit "abc")).1.eRequest
      = CLICK_CURL_GET ∧
    (SmsStatusGet (failingNet 7) sampleRestClientAfterStop
      (lit "abc")).1.performed.getLast?.map wireMethod = some (lit "DELETE") ∧
    (SmsMessageSend (failingNet 7) sampleRestClientAfterStop (lit "Hi")
      [lit "123"]).1.eRequest = CLICK_CURL_POST ∧
    (SmsMessageSend (failingNet 7) sampleRestClientAfterStop (lit "Hi")
      [lit "123"]).1.performed.getLast?.map wireMethod = some (lit "DELETE") ∧
    (SmsBalanceGet (failingNet 7) sampleRestClient).1.performed.getLast?.map wireMethod
      = some (lit "GET") := by
  decide

/-! ## Further properties of the percent-encoding -/

theorem specEncodeByte_length (b : Byte) :
    1 ≤ (specEncodeByte b).length ∧ (specEncodeByte b).length ≤ 3 := by
  unfold specEncodeByte
  split
  · simp
  · split <;> simp

theorem specEncode_length (s : Str) :
    s.length ≤ (specEncode s).length ∧ (specEncode s).length ≤ 3 * s.length := by
  induction s with
  | nil => simp [specEncode]
  | cons c rest ih =>
    have h := specEncodeByte_length c
    rw [specEncode_cons, List.length_append, List.length_cons]
    omega

/-- C28: `click_string_url_encode` distributes over the concatenation of strings
that hold no `0x00` byte, and the encoding of such a string is at least as long
as the string and at most three times as long. -/
theorem click_string_url_encode_append :
    (∀ a b : Str, nulFree a → nulFree b →
      click_string_url_encode (a ++ b) = click_string_url_encode a ++ click_string_url_encode b) ∧
    (∀ s : Str, nulFree s →
      s.length ≤ (click_string_url_encode s).length ∧
      (click_string_url_encode s).length ≤ 3 * s.length) := by
  refine ⟨fun a b ha hb => ?_, fun s hs => ?_⟩
  · rw [click_string_url_encode_eq, click_string_url_encode_eq, click_string_url_encode_eq,
      c_str_of_nulFree _ (nulFree_append a b ha hb), c_str_of_nulFree a ha,
      c_str_of_nulFree b hb, specEncode_append]
  · rw [click_string_url_encode_eq, c_str_of_nulFree s hs]
    exact specEncode_length s

/-- Witness of C28 at `"a b"` and `"c/d"`. -/
theorem click_string_url_encode_append_witness :
    click_string_url_encode (lit "a b" ++ lit "c/d") =
      click_string_url_encode (lit "a b") ++ click_string_url_encode (lit "c/d") ∧
    (lit "c/d").length ≤ (click_string_url_encode (lit "c/d")).length ∧
    (click_string_url_encode (lit "c/d")).length ≤ 3 * (lit "c/d").length :=
  ⟨click_string_url_encode_append.1 (lit "a b") (lit "c/d") (by decide) (by decide),
   click_string_url_encode_append.2 (lit "c/d") (by decide)⟩

theorem escapes_cons_plain (x : Byte) (rest : Str) (hx : x ≠ ch '%')
    (ih : ∀ i : Nat, rest[i]? = some (ch '%') →
      ∃ h l, rest[i + 1]? = some h ∧ rest[i + 2]? = some l ∧ h ∈ lowerHex ∧ l ∈ lowerHex) :
    ∀ i : Nat, (x :: rest)[i]? = some (ch '%') →
      ∃ h l, (x :: rest)[i + 1]? = some h ∧ (x :: rest)[i + 2]? = some l ∧
        h ∈ lowerHex ∧ l ∈ lowerHex := by
  intro i hi
  cases i with
  | zero =>
    simp only [List.getElem?_cons_zero, Option.some.injEq] at hi
    exact absurd hi hx
  | succ j =>
    rw [List.getElem?_cons_succ] at hi
    obtain ⟨h, l, h1, h2, h3, h4⟩ := ih j hi
    exact ⟨h, l, by rw [List.getElem?_cons_succ]; exact h1,
      by rw [List.getElem?_cons_succ]; exact h2, h3, h4⟩

theorem lowerHex_ne_percent : ∀ b : Byte, b ∈ lowerHex → b ≠ ch '%' := by decide

theorem hexDigit_mem_lowerHex (v : Nat) : hexDigit v ∈ lowerHex := by
  unfold hexDigit
  split <;> decide

theorem unreserved_ne_percent : ∀ b : Byte, b ∈ unreserved → b ≠ ch '%' := by decide

theorem specEncode_escapes (s : Str) :
    ∀ i : Nat, (specEncode s)[i]? = some (ch '%') →
      ∃ h l, (specEncode s)[i + 1]? = some h ∧ (specEncode s)[i + 2]? = some l ∧
        h ∈ lowerHex ∧ l ∈ lowerHex := by
  induction s with
  | nil => intro i hi; simp [specEncode] at hi
  | cons c rest ih =>
    rw [specEncode_cons]
    unfold specEncodeByte
    split
    · next hu => exact escapes_cons_plain c _ (unreserved_ne_percent c hu) ih
    · split
      · exact escapes_cons_plain _ _ (by decide) ih
      · have hh := hexDigit_mem_lowerHex (c.val / 16)
        have hl := hexDigit_mem_lowerHex (c.val % 16)
        intro i hi
        match i with
        | 0 => exact ⟨hexDigit (c.val / 16), hexDigit (c.val % 16), by simp, by simp, hh, hl⟩
        | 1 =>
          simp only [List.cons_append, List.nil_append, List.getElem?_cons_succ,
            List.getElem?_cons_zero, Option.some.injEq] at hi
          exact absurd hi (lowerHex_ne_percent _ hh)
        | 2 =>
          simp only [List.cons_append, List.nil_append, List.getElem?_cons_succ,
            List.getElem?_cons_zero, Option.some.injEq] at hi
          exact absurd hi (lowerHex_ne_percent _ hl)
        | j + 3 =>
          simp only [List.cons_append, List.nil_append, List.getElem?_cons_succ] at hi
          obtain ⟨h, l, h1, h2, h3, h4⟩ := ih j hi
          exact ⟨h, l, by simpa only [List.cons_append, List.nil_append,
              List.getElem?_cons_succ] using h1,
            by simpa only [List.cons_append, List.nil_append, List.getElem?_cons_succ] using h2,
            h3, h4⟩

theorem specEncode_alphabet (s : Str) :
    ∀ b ∈ specEncode s, b ∈ unreserved ∨ b = ch '+' ∨ b = ch '%' := by
  have hex : ∀ x : Byte, x ∈ lowerHex → x ∈ unreserved := by decide
  intro b hb
  simp only [specEncode, List.mem_flatMap] at hb
  obtain ⟨a, _, hba⟩ := hb
  unfold specEncodeByte at hba
  split at hba
  · next hu =>
    rw [List.mem_singleton] at hba
    subst hba
    exact Or.inl hu
  · split at hba
    · rw [List.mem_singleton] at hba
      exact Or.inr (Or.inl hba)
    · simp only [List.mem_cons, List.mem_singleton, List.not_mem_nil, or_false] at hba
      rcases hba with h | h | h
      · exact Or.inr (Or.inr h)
      · subst h; exact Or.inl (hex _ (hexDigit_mem_lowerHex _))
      · subst h; exact Or.inl (hex _ (hexDigit_mem_lowerHex _))

/-- C29: for every input string, the output of `click_string_url_encode` holds
only bytes from `[A-Za-z0-9-_.~]`, `+` and `%`, and every `%` in it is followed
at once by two digits from `0-9a-f`, never an uppercase digit; this covers the
input bytes `0x80..0xFF`, e.g. `0xE9` gives `%e9`. -/
theorem click_string_url_encode_alphabet (s : Str) :
    (∀ b ∈ click_string_url_encode s, b ∈ unreserved ∨ b = ch '+' ∨ b = ch '%') ∧
    (∀ i : Nat, (click_string_url_encode s)[i]? = some (ch '%') →
      ∃ h l, (click_string_url_encode s)[i + 1]? = some h ∧
        (click_string_url_encode s)[i + 2]? = some l ∧ h ∈ lowerHex ∧ l ∈ lowerHex) ∧
    click_string_url_encode [0xE9, 0x80, 0xFF] = lit "%e9%80%ff" := by
  rw [click_string_url_encode_eq]
  exact ⟨specEncode_alphabet _, specEncode_escapes _, by decide⟩

/-- Witness of C29 at the input `"a%"` followed by the byte `0xE9`: the output
is `"a%25%e9"`, and the `%` at position 1 is followed by `2` and `5`. -/
theorem click_string_url_encode_alphabet_witness :
    click_string_url_encode (lit "a%" ++ [0xE9]) = lit "a%25%e9" ∧
    ∃ h l, (click_string_url_encode (lit "a%" ++ [0xE9]))[1 + 1]? = some h ∧
      (click_string_url_encode (lit "a%" ++ [0xE9]))[1 + 2]? = some l ∧
      h ∈ lowerHex ∧ l ∈ lowerHex :=
  ⟨by decide, (click_string_url_encode_alphabet (lit "a%" ++ [0xE9])).2.1 1 (by decide)⟩
/-! ## Claims on the prefix trimmer -/

/-- C24: `click_string_trim_prefix s n` is `s` without its first `min n |s|`
bytes; it is empty when `n` is at least `|s|`; the empty string stays empty;
trimming 4 bytes from `"ID: 205e85d0578314037a96175249fc6a2b"` leaves
`"205e85d0578314037a96175249fc6a2b"`. -/
theorem click_string_trim_prefix_drop :
    (∀ (s : Str) (n : Nat), click_string_trim_prefix s n = s.drop (min n s.length)) ∧
    (∀ (s : Str) (n : Nat), s.length ≤ n → click_string_trim_prefix s n = []) ∧
    (∀ n : Nat, click_string_trim_prefix [] n = []) ∧
    click_string_trim_prefix (lit "ID: 205e85d0578314037a96175249fc6a2b") 4 =
      lit "205e85d0578314037a96175249fc6a2b" := by
  have key : ∀ (s : Str) (n : Nat), click_string_trim_prefix s n = s.drop n := by
    intro s n
    unfold click_string_trim_prefix
    cases s with
    | nil => simp
    | cons c r => simp
  refine ⟨fun s n => ?_, fun s n h => ?_, fun n => ?_, by decide⟩
  · rw [key]
    by_cases h : n ≤ s.length
    · rw [Nat.min_eq_left h]
    · rw [Nat.min_eq_right (by omega), List.drop_length, List.drop_eq_nil_of_le (by omega)]
  · rw [key, List.drop_eq_nil_of_le h]
  · rw [key, List.drop_nil]

/-- Witness of C24: trimming 9 bytes from `"abc"` leaves the empty string. -/
theorem click_string_trim_prefix_drop_witness :
    click_string_trim_prefix (lit "abc") 9 = [] :=
  click_string_trim_prefix_drop.2.1 (lit "abc") 9 (by decide)

/-! ## Claims on the write callback -/

theorem responseAfter_append (ws : List Str) (w old : Str) :
    responseAfter (ws ++ [w]) old = responseAfterWrite w 1 w.length (responseAfter ws old) := by
  induction ws generalizing old with
  | nil => rfl
  | cons x r ih =>
    show responseAfter (r ++ [w]) (responseAfterWrite x 1 x.length old) = _
    rw [ih]
    rfl

theorem responseAfterWrite_nonempty (b old : Str) (hb : b ≠ []) (hlen : b.length < 2 ^ 31) :
    responseAfterWrite b 1 b.length old = c_str b := by
  have h := responseAfter_single b old hb hlen
  simpa only [responseAfter] using h

theorem join_length_ge_last (ps : List Str) (last : Str) :
    last.length ≤ (ps ++ [last]).flatten.length := by
  induction ps with
  | nil => simp
  | cons p r ih =>
    simp only [List.cons_append, List.flatten_cons, List.length_append]
    omega

theorem c_str_length_le (s : Str) : (c_str s).length ≤ s.length := by
  unfold c_str
  exact (List.takeWhile_sublist _).length_le

theorem callback_zero_bytes (buffer : Str) (iSize iMemLen : Nat) (s : ClickatellSms)
    (h : iMemLen * iSize = 0) : (LocalCurlResponseCallback buffer iSize iMemLen s).1 = s := by
  unfold LocalCurlResponseCallback
  rw [h]
  simp [toInt32]

/-- C25: when the write callback receives one response in the non-empty pieces
`c1..cn`, `n >= 2` (each of fewer than `2^31` bytes), the stored response after
an operation called with valid arguments, and the value the operation returns,
is `cn` up to its first `0x00` byte, not the concatenation of the pieces; and a
callback call with zero bytes leaves the client as it was. -/
theorem last_piece_is_stored (net : Transport) (c : ClickatellSms) (op : Operation)
    (pieces : List Str) (last : Str) (hv : op.valid = true) (hn : pieces ≠ [])
    (hne : ∀ p ∈ pieces ++ [last], p ≠ [] ∧ p.length < 2 ^ 31)
    (hnet : ∀ h, (net h).writes = pieces ++ [last]) :
    (op.run net c).1.sClickatellResponse = c_str last ∧
    (op.run net c).2 = c_str last ∧
    (op.run net c).2 ≠ (pieces ++ [last]).flatten ∧
    (∀ (buffer : Str) (iSize iMemLen : Nat) (s : ClickatellSms), iMemLen * iSize = 0 →
      (LocalCurlResponseCallback buffer iSize iMemLen s).1 = s) := by
  have hl := hne last (List.mem_append.mpr (Or.inr (List.mem_singleton.mpr rfl)))
  have h := Operation.run_response net c op (pieces ++ [last]) hv hnet
  rw [responseAfter_append, responseAfterWrite_nonempty last _ hl.1 hl.2] at h
  refine ⟨h.1, h.2, ?_, callback_zero_bytes⟩
  rw [h.2]
  intro heq
  have h1 := c_str_length_le last
  cases pieces with
  | nil => exact hn rfl
  | cons p r =>
    have hp := (hne p (by simp)).1
    have hpl : 0 < p.length := List.length_pos.mpr hp
    have h2 := join_length_ge_last r last
    have h3 : (c_str last).length = ((p :: r) ++ [last]).flatten.length := by rw [← heq]
    simp only [List.cons_append, List.flatten_cons, List.length_append] at h3
    omega

/-- Witness of C25: a balance query on the sample REST client whose response
arrives in the pieces `"ab"` and `"cd"` stores and returns `"cd"`. -/
theorem last_piece_is_stored_witness :
    (Operation.run (deliveringNet [lit "ab", lit "cd"]) sampleRestClient
      .balance).1.sClickatellResponse = c_str (lit "cd") ∧
    (Operation.run (deliveringNet [lit "ab", lit "cd"]) sampleRestClient .balance).2
      = c_str (lit "cd") ∧
    (Operation.run (deliveringNet [lit "ab", lit "cd"]) sampleRestClient .balance).2
      ≠ ([lit "ab"] ++ [lit "cd"]).flatten :=
  ⟨(last_piece_is_stored (deliveringNet [lit "ab", lit "cd"]) sampleRestClient .balance
      [lit "ab"] (lit "cd") rfl (by decide) (by decide) (fun _ => rfl)).1,
   (last_piece_is_stored (deliveringNet [lit "ab", lit "cd"]) sampleRestClient .balance
      [lit "ab"] (lit "cd") rfl (by decide) (by decide) (fun _ => rfl)).2.1,
   (last_piece_is_stored (deliveringNet [lit "ab", lit "cd"]) sampleRestClient .balance
      [lit "ab"] (lit "cd") rfl (by decide) (by decide) (fun _ => rfl)).2.2.1⟩

/-! ## Claims on failed constructions -/

theorem InitializeTraced_fst (self : ClickatellSms) (curlInitOk : Bool)
    (iTimeout iConnectTimeout : Int) :
    (InitializeTraced self curlInitOk iTimeout iConnectTimeout).1 =
      Initialize self curlInitOk iTimeout iConnectTimeout := by
  unfold InitializeTraced Initialize
  split <;> rfl

theorem ctorApiKey_eq_initList (eDebugOpt eApiType : Int) (sApiKey sApiId : Str)
    (iTimeout iConnectTimeout : Int) (curlInitOk : Bool) (u : Indeterminate) :
    ctorApiKey eDebugOpt eApiType sApiKey sApiId iTimeout iConnectTimeout curlInitOk u =
      (match initListApiKey eDebugOpt eApiType sApiKey sApiId u with
       | .error e => .error e
       | .ok self => Initialize self curlInitOk iTimeout iConnectTimeout) := by
  unfold ctorApiKey initListApiKey
  rcases ValidateParamAPI eApiType with e | v
  · rfl
  · rcases ValidateApiString .CLICK_CRED_APIID sApiId with e | v2
    · rfl
    · rcases ValidateApiString .CLICK_CRED_APIKEY sApiKey with e | v3
      · rfl
      · rfl

theorem ctorUserPass_eq_initList (eDebugOpt eApiType : Int) (sUsername sPassword sApiId : Str)
    (iTimeout iConnectTimeout : Int) (curlInitOk passwordFirst : Bool) (u : Indeterminate) :
    ctorUserPass eDebugOpt eApiType sUsername sPassword sApiId iTimeout iConnectTimeout
        curlInitOk passwordFirst u =
      (match initListUserPass eDebugOpt eApiType sUsername sPassword sApiId passwordFirst u with
       | .error e => .error e
       | .ok self => Initialize self curlInitOk iTimeout iConnectTimeout) := by
  unfold ctorUserPass initListUserPass
  rcases ValidateParamAPI eApiType with e | v
  · rfl
  · rcases ValidateApiString .CLICK_CRED_APIID sApiId with e | v2
    · rfl
    · rcases ValidateApiString .CLICK_CRED_USER sUsername with e | v3 <;>
        rcases ValidateApiString .CLICK_CRED_PASS sPassword with e2 | v4 <;>
        cases passwordFirst <;> rfl
theorem InitializeTraced_error (self : ClickatellSms) (curlInitOk : Bool)
    (iTimeout iConnectTimeout : Int) (e : Str)
    (h : (InitializeTraced self curlInitOk iTimeout iConnectTimeout).1 = .error e) :
    InitializeTraced self curlInitOk iTimeout iConnectTimeout =
      (.error (lit "curl_easy_init failed!"), [ .curl_easy_init false ]) := by
  cases curlInitOk with
  | false => rfl
  | true =>
    unfold InitializeTraced at h
    simp at h

theorem traced_error (r : Except Str ClickatellSms) (curlInitOk : Bool)
    (iTimeout iConnectTimeout : Int) (e : Str)
    (h : (match r with
          | .error e => ((.error e : Except Str ClickatellSms), ([] : List CurlCall))
          | .ok self => InitializeTraced self curlInitOk iTimeout iConnectTimeout).1 = .error e) :
    handleAcquired (match r with
          | .error e => ((.error e : Except Str ClickatellSms), ([] : List CurlCall))
          | .ok self => InitializeTraced self curlInitOk iTimeout iConnectTimeout).2 = false ∧
    headersAcquired (match r with
          | .error e => ((.error e : Except Str ClickatellSms), ([] : List CurlCall))
          | .ok self => InitializeTraced self curlInitOk iTimeout iConnectTimeout).2 = false := by
  cases r with
  | error e2 => exact ⟨rfl, rfl⟩
  | ok self =>
    simp only at h ⊢
    rw [InitializeTraced_error self curlInitOk iTimeout iConnectTimeout e h]
    exact ⟨rfl, rfl⟩

theorem traced_requested (r : Except Str ClickatellSms) (curlInitOk : Bool)
    (iTimeout iConnectTimeout : Int)
    (h : handleRequested (match r with
          | .error e => ((.error e : Except Str ClickatellSms), ([] : List CurlCall))
          | .ok self => InitializeTraced self curlInitOk iTimeout iConnectTimeout).2 = true) :
    ∃ self, r = .ok self := by
  cases r with
  | error e2 =>
    simp [handleRequested] at h
  | ok self => exact ⟨self, rfl⟩

/-- C23: a construction that fails has acquired neither a transport handle nor
a header list; when a member initializer (the API-type check or a credential
check) throws, no call for a resource was made at all, so the handle is
requested only after every check has passed; and a construction that fails
because `curl_easy_init` returns no handle has called `curl_slist_append` not
once.  The traced constructors return what the constructors return. -/
theorem failed_construction_acquires_nothing
    (eDebugOpt eApiType : Int) (sApiKey sUsername sPassword sApiId : Str)
    (iTimeout iConnectTimeout : Int) (curlInitOk passwordFirst : Bool) (u : Indeterminate) :
    (ctorApiKeyTraced eDebugOpt eApiType sApiKey sApiId iTimeout iConnectTimeout curlInitOk u).1 =
      ctorApiKey eDebugOpt eApiType sApiKey sApiId iTimeout iConnectTimeout curlInitOk u ∧
    (ctorUserPassTraced eDebugOpt eApiType sUsername sPassword sApiId iTimeout iConnectTimeout
        curlInitOk passwordFirst u).1 =
      ctorUserPass eDebugOpt eApiType sUsername sPassword sApiId iTimeout iConnectTimeout
        curlInitOk passwordFirst u ∧
    (∀ e, ctorApiKey eDebugOpt eApiType sApiKey sApiId iTimeout iConnectTimeout curlInitOk u
        = .error e →
      handleAcquired (ctorApiKeyTraced eDebugOpt eApiType sApiKey sApiId iTimeout
        iConnectTimeout curlInitOk u).2 = false ∧
      headersAcquired (ctorApiKeyTraced eDebugOpt eApiType sApiKey sApiId iTimeout
        iConnectTimeout curlInitOk u).2 = false) ∧
    (∀ e, ctorUserPass eDebugOpt eApiType sUsername sPassword sApiId iTimeout iConnectTimeout
        curlInitOk passwordFirst u = .error e →
      handleAcquired (ctorUserPassTraced eDebugOpt eApiType sUsername sPassword sApiId iTimeout
        iConnectTimeout curlInitOk passwordFirst u).2 = false ∧
      headersAcquired (ctorUserPassTraced eDebugOpt eApiType sUsername sPassword sApiId iTimeout
        iConnectTimeout curlInitOk passwordFirst u).2 = false) ∧
    (∀ e, initListApiKey eDebugOpt eApiType sApiKey sApiId u = .error e →
      ctorApiKeyTraced eDebugOpt eApiType sApiKey sApiId iTimeout iConnectTimeout curlInitOk u
        = (.error e, [])) ∧
    (∀ e, initListUserPass eDebugOpt eApiType sUsername sPassword sApiId passwordFirst u
        = .error e →
      ctorUserPassTraced eDebugOpt eApiType sUsername sPassword sApiId iTimeout iConnectTimeout
        curlInitOk passwordFirst u = (.error e, [])) ∧
    (handleRequested (ctorApiKeyTraced eDebugOpt eApiType sApiKey sApiId iTimeout
        iConnectTimeout curlInitOk u).2 = true →
      ∃ self, initListApiKey eDebugOpt eApiType sApiKey sApiId u = .ok self) ∧
    (handleRequested (ctorUserPassTraced eDebugOpt eApiType sUsername sPassword sApiId iTimeout
        iConnectTimeout curlInitOk passwordFirst u).2 = true →
      ∃ self, initListUserPass eDebugOpt eApiType sUsername sPassword sApiId passwordFirst u
        = .ok self) := by
  have hA : (ctorApiKeyTraced eDebugOpt eApiType sApiKey sApiId iTimeout iConnectTimeout
      curlInitOk u).1 =
      ctorApiKey eDebugOpt eApiType sApiKey sApiId iTimeout iConnectTimeout curlInitOk u := by
    rw [ctorApiKey_eq_initList]
    unfold ctorApiKeyTraced
    cases initListApiKey eDebugOpt eApiType sApiKey sApiId u with
    | error e => rfl
    | ok self => exact InitializeTraced_fst _ _ _ _
  have hU : (ctorUserPassTraced eDebugOpt eApiType sUsername sPassword sApiId iTimeout
      iConnectTimeout curlInitOk passwordFirst u).1 =
      ctorUserPass eDebugOpt eApiType sUsername sPassword sApiId iTimeout iConnectTimeout
        curlInitOk passwordFirst u := by
    rw [ctorUserPass_eq_initList]
    unfold ctorUserPassTraced
    cases initListUserPass eDebugOpt eApiType sUsername sPassword sApiId passwordFirst u with
    | error e => rfl
    | ok self => exact InitializeTraced_fst _ _ _ _
  refine ⟨hA, hU, ?_, ?_, ?_, ?_, ?_, ?_⟩
  · intro e he
    rw [← hA] at he
    exact traced_error _ _ _ _ e he
  · intro e he
    rw [← hU] at he
    exact traced_error _ _ _ _ e he
  · intro e he
    unfold ctorApiKeyTraced
    rw [he]
  · intro e he
    unfold ctorUserPassTraced
    rw [he]
  · exact traced_requested _ _ _ _
  · exact traced_requested _ _ _ _

/-- Witness of C23: the API-key constructor called with an empty key fails with
no resource call made, and called with valid arguments while `curl_easy_init`
returns no handle it fails with that one call made. -/
theorem failed_construction_acquires_nothing_witness :
    ctorApiKey CLICK_DEBUG_ON CLICK_API_REST [] (lit "42") 0 0 true sampleIndeterminate
      = .error (lit "Invalid API Key") ∧
    handleAcquired (ctorApiKeyTraced CLICK_DEBUG_ON CLICK_API_REST [] (lit "42") 0 0 true
      sampleIndeterminate).2 = false ∧
    headersAcquired (ctorApiKeyTraced CLICK_DEBUG_ON CLICK_API_REST [] (lit "42") 0 0 true
      sampleIndeterminate).2 = false ∧
    ctorApiKeyTraced CLICK_DEBUG_ON CLICK_API_REST [] (lit "42") 0 0 true sampleIndeterminate
      = (.error (lit "Invalid API Key"), []) ∧
    ctorApiKeyTraced CLICK_DEBUG_ON CLICK_API_REST (lit "KEY") (lit "42") 0 0 false
      sampleIndeterminate = (.error (lit "curl_easy_init failed!"), [ .curl_easy_init false ]) :=
  ⟨rfl,
   ((failed_construction_acquires_nothing CLICK_DEBUG_ON CLICK_API_REST [] (lit "bob")
      (lit "pw") (lit "42") 0 0 true false sampleIndeterminate).2.2.1
      (lit "Invalid API Key") rfl).1,
   ((failed_construction_acquires_nothing CLICK_DEBUG_ON CLICK_API_REST [] (lit "bob")
      (lit "pw") (lit "42") 0 0 true false sampleIndeterminate).2.2.1
      (lit "Invalid API Key") rfl).2,
   (failed_construction_acquires_nothing CLICK_DEBUG_ON CLICK_API_REST [] (lit "bob")
      (lit "pw") (lit "42") 0 0 true false sampleIndeterminate).2.2.2.2.1
      (lit "Invalid API Key") rfl,
   rfl⟩
/-! ## Claims on the introspection snapshot -/

theorem requestedUrl_executeOpts (s : ClickatellSms) (post : Str) :
    requestedUrl (s.curlHandle ++ executeOpts s post) = some (c_str s.sFullUrl) := by
  unfold requestedUrl executeOpts
  split_ifs <;> simp [List.findSome?_append]

theorem LocalCurlExecute_lastPerformed (net : Transport) (s : ClickatellSms) (post : Str) :
    lastPerformed (LocalCurlExecute net s post) = s.curlHandle ++ executeOpts s post := by
  simp [lastPerformed, LocalCurlExecute_performed]

theorem LocalCurlExecute_curlHttpStatus (net : Transport) (s : ClickatellSms) (post : Str) :
    (LocalCurlExecute net s post).curlHttpStatus =
      (if (net (s.curlHandle ++ executeOpts s post)).code = CURLE_OK ∧
          (net (s.curlHandle ++ executeOpts s post)).infoCode = CURLE_OK
       then (net (s.curlHandle ++ executeOpts s post)).responseCode else s.curlHttpStatus) := by
  simp only [LocalCurlExecute, deliverWrites_eq]
  split <;> split <;> rename_i h1 h2 <;> simp only [] at h2 <;> simp only [h2, true_and, false_and, if_false]

theorem LocalCurlExecute_eUserApiType (net : Transport) (s : ClickatellSms) (post : Str) :
    (LocalCurlExecute net s post).eUserApiType = s.eUserApiType := by
  simp only [LocalCurlExecute, deliverWrites_eq]
  split <;> split <;> rfl

theorem LocalCurlExecute_reflects (net : Transport) (s : ClickatellSms) (post : Str) :
    reflectsCall net s (LocalCurlExecute net s post) := by
  unfold reflectsCall
  rw [LocalCurlExecute_lastPerformed]
  exact ⟨LocalCurlExecute_eRequest net s post, LocalCurlExecute_eUserApiType net s post,
    LocalCurlExecute_performed net s post,
    by rw [LocalCurlExecute_sFullUrl]; exact requestedUrl_executeOpts s post,
    LocalCurlExecute_curlHttpStatus net s post, LocalCurlExecute_response net s post⟩

theorem reflectsCall_of_sFullUrl (net : Transport) (s c2 : ClickatellSms) (url : Str)
    (h : reflectsCall net { s with sFullUrl := url } c2) : reflectsCall net s c2 := h

theorem LocalApiCommandExecute_reflects (net : Transport) (s : ClickatellSms)
    (sPath : Str) (kv : List ClickKeyVal) (ms : List Str) (hp : sPath ≠ []) :
    reflectsCall net s (LocalApiCommandExecute net s sPath kv ms) := by
  unfold LocalApiCommandExecute
  rw [CLICK_STR_INVALID_of_ne sPath hp]
  simp only [Bool.false_eq_true, if_false]
  split
  · split
    · exact reflectsCall_of_sFullUrl net s _ _ (LocalCurlExecute_reflects net _ _)
    · exact reflectsCall_of_sFullUrl net s _ _ (LocalCurlExecute_reflects net _ _)
  · exact reflectsCall_of_sFullUrl net s _ _ (LocalCurlExecute_reflects net _ _)

theorem reflectsCall_of_eRequest (net : Transport) (c c2 : ClickatellSms) (r1 r2 : Int)
    (hr : r1 = r2) (h : reflectsCall net { c with eRequest := r1 } c2) :
    reflectsCall net { c with eRequest := r2 } c2 := by
  subst hr
  exact h

theorem requestType_http (t : Int) (op : Operation) (h : t = CLICK_API_HTTP) :
    requestType t op = CLICK_CURL_GET := by
  unfold requestType
  rw [if_pos h]

theorem requestType_rest (t : Int) (op : Operation) (h : ¬ t = CLICK_API_HTTP) :
    requestType t op = restRequestType op := by
  unfold requestType
  rw [if_neg h]

theorem Operation.run_snd (net : Transport) (c : ClickatellSms) (op : Operation) :
    (op.run net c).2 = (op.run net c).1.sClickatellResponse := by
  cases op <;>
    simp only [Operation.run, SmsMessageSend, SmsStatusGet, SmsBalanceGet, SmsChargeGet,
      SmsCoverageGet, SmsMessageStop, rejectInvalid] <;>
    split <;> rfl

theorem Operation.run_reflects (net : Transport) (c : ClickatellSms) (op : Operation)
    (hv : op.valid = true) :
    reflectsCall net { c with eRequest := requestType c.eUserApiType op } (op.run net c).1 := by
  have hne : ∀ x : Str, lit "rest/message/" ++ x ≠ [] := fun x => lit_append_ne_nil _ _ (by decide)
  have hne2 : ∀ x : Str, lit "rest/coverage/" ++ x ≠ [] :=
    fun x => lit_append_ne_nil _ _ (by decide)
  cases op with
  | send t a =>
    simp only [Operation.valid, Bool.and_eq_true] at hv
    have ha : a.isEmpty = false := by
      cases a with
      | nil => simp at hv
      | cons x r => rfl
    simp only [Operation.run, SmsMessageSend, isEmpty_eq_false_of_not t hv.1, ha, Bool.or_self,
      Bool.false_eq_true, if_false]
    split <;> rename_i hh
    · exact reflectsCall_of_eRequest net c _ _ _ (requestType_http _ _ hh).symm
        (LocalApiCommandExecute_reflects net _ _ _ _ (by decide))
    · exact reflectsCall_of_eRequest net c _ _ _ (requestType_rest _ _ hh).symm
        (LocalApiCommandExecute_reflects net _ _ _ _ (by decide))
  | status x =>
    simp only [Operation.valid] at hv
    simp only [Operation.run, SmsStatusGet, isEmpty_eq_false_of_not x hv, Bool.false_eq_true,
      if_false]
    split <;> rename_i hh
    · exact reflectsCall_of_eRequest net c _ _ _ (requestType_http _ _ hh).symm
        (LocalApiCommandExecute_reflects net _ _ _ _ (by decide))
    · exact reflectsCall_of_eRequest net c _ _ _ (requestType_rest _ _ hh).symm
        (LocalApiCommandExecute_reflects net _ _ _ _ (hne x))
  | balance =>
    simp only [Operation.run, SmsBalanceGet]
    split <;> rename_i hh
    · exact reflectsCall_of_eRequest net c _ _ _ (requestType_http _ _ hh).symm
        (LocalApiCommandExecute_reflects net _ _ _ _ (by decide))
    · exact reflectsCall_of_eRequest net c _ _ _ (requestType_rest _ _ hh).symm
        (LocalApiCommandExecute_reflects net _ _ _ _ (by decide))
  | charge x =>
    simp only [Operation.valid] at hv
    simp only [Operation.run, SmsChargeGet, isEmpty_eq_false_of_not x hv, Bool.false_eq_true,
      if_false]
    split <;> rename_i hh
    · exact reflectsCall_of_eRequest net c _ _ _ (requestType_http _ _ hh).symm
        (LocalApiCommandExecute_reflects net _ _ _ _ (by decide))
    · exact reflectsCall_of_eRequest net c _ _ _ (requestType_rest _ _ hh).symm
        (LocalApiCommandExecute_reflects net _ _ _ _ (hne x))
  | coverage x =>
    simp only [Operation.valid] at hv
    simp only [Operation.run, SmsCoverageGet, isEmpty_eq_false_of_not x hv, Bool.false_eq_true,
      if_false]
    split <;> rename_i hh
    · exact reflectsCall_of_eRequest net c _ _ _ (requestType_http _ _ hh).symm
        (LocalApiCommandExecute_reflects net _ _ _ _ (by decide))
    · exact reflectsCall_of_eRequest net c _ _ _ (requestType_rest _ _ hh).symm
        (LocalApiCommandExecute_reflects net _ _ _ _ (hne2 x))
  | stop x =>
    simp only [Operation.valid] at hv
    simp only [Operation.run, SmsMessageStop, isEmpty_eq_false_of_not x hv, Bool.false_eq_true,
      if_false]
    split <;> rename_i hh
    · exact reflectsCall_of_eRequest net c _ _ _ (requestType_http _ _ hh).symm
        (LocalApiCommandExecute_reflects net _ _ _ _ (by decide))
    · exact reflectsCall_of_eRequest net c _ _ _ (requestType_rest _ _ hh).symm
        (LocalApiCommandExecute_reflects net _ _ _ _ (hne x))
theorem c_str_requestName (r : Int) : c_str (requestName r) = requestName r := by
  unfold requestName
  split
  · decide
  · split <;> decide

theorem Operation.run_invalid (net : Transport) (c : ClickatellSms) (op : Operation)
    (hv : op.valid = false) :
    ∃ func, op.run net c =
      rejectInvalid { c with eRequest := requestType c.eUserApiType op } func := by
  have hget : ∀ o : Operation, restRequestType o = CLICK_CURL_GET →
      requestType c.eUserApiType o = CLICK_CURL_GET := by
    intro o ho
    unfold requestType
    rw [ho]
    split <;> rfl
  have hx : ∀ x : Str, (!x.isEmpty) = false → CLICK_STR_INVALID x = true := by
    intro x h
    unfold CLICK_STR_INVALID
    cases hxe : x.isEmpty with
    | true => rfl
    | false => rw [hxe] at h; exact absurd h (by decide)
  cases op with
  | send t a =>
    have hcond : (CLICK_STR_INVALID t || a.isEmpty) = true := by
      unfold CLICK_STR_INVALID
      simp only [Operation.valid] at hv
      cases ht : t.isEmpty <;> cases ha : a.isEmpty <;> rw [ht, ha] at hv <;>
        first | rfl | exact absurd hv (by decide)
    refine ⟨lit "SmsMessageSend", ?_⟩
    simp only [Operation.run, SmsMessageSend, hcond, if_true]
    rfl
  | status x =>
    refine ⟨lit "SmsStatusGet", ?_⟩
    rw [hget (.status x) rfl]
    simp only [Operation.run, SmsStatusGet, hx x hv, if_true]
  | balance => exact absurd hv (by decide)
  | charge x =>
    refine ⟨lit "SmsChargeGet", ?_⟩
    rw [hget (.charge x) rfl]
    simp only [Operation.run, SmsChargeGet, hx x hv, if_true]
  | coverage x =>
    refine ⟨lit "SmsCoverageGet", ?_⟩
    rw [hget (.coverage x) rfl]
    simp only [Operation.run, SmsCoverageGet, hx x hv, if_true]
  | stop x =>
    refine ⟨lit "SmsMessageStop", ?_⟩
    simp only [Operation.run, SmsMessageStop, hx x hv, if_true]
    rfl

theorem Operation.run_eUserApiType (net : Transport) (c : ClickatellSms) (op : Operation) :
    (op.run net c).1.eUserApiType = c.eUserApiType := by
  cases hv : op.valid with
  | true => exact (Operation.run_reflects net c op hv).2.1
  | false =>
    obtain ⟨func, h⟩ := Operation.run_invalid net c op hv
    rw [h]
    rfl

/-! ## Claims on rejected calls -/

/-- C26: an operation rejected for an empty argument stores the request type of
the rejected operation and leaves the stored URL, status, response, header
list, credentials, variant, handle and the calls performed as they were, so the
snapshot changes in its method only; after a REST send answered `"ACCEPTED"`
with status 200, `SmsStatusGet("")` leaves the snapshot GET with the URL,
status and response of the send. -/
theorem rejected_operation_frame :
    (∀ (net : Transport) (c : ClickatellSms) (op : Operation), op.valid = false →
      (op.run net c).1.eRequest = requestType c.eUserApiType op ∧
      (op.run net c).1.sFullUrl = c.sFullUrl ∧
      (op.run net c).1.curlHttpStatus = c.curlHttpStatus ∧
      (op.run net c).1.sClickatellResponse = c.sClickatellResponse ∧
      (op.run net c).1.curlHeaders = c.curlHeaders ∧
      (op.run net c).1.oUserCred = c.oUserCred ∧
      (op.run net c).1.sUserApiKey = c.sUserApiKey ∧
      (op.run net c).1.sUserApiId = c.sUserApiId ∧
      (op.run net c).1.eUserApiType = c.eUserApiType ∧
      (op.run net c).1.curlHandle = c.curlHandle ∧
      (op.run net c).1.performed = c.performed ∧
      snapshot (op.run net c).1 =
        { snapshot c with method := requestName (requestType c.eUserApiType op) }) ∧
    snapshot (SmsMessageSend (answeringNet (lit "ACCEPTED")) sampleRestClient (lit "hi")
      [lit "2799"]).1 =
      { method := lit "POST", url := lit "https://api.clickatell.com/rest/message",
        status := 200, response := lit "ACCEPTED" } ∧
    snapshot (SmsStatusGet (answeringNet (lit "OTHER"))
      (SmsMessageSend (answeringNet (lit "ACCEPTED")) sampleRestClient (lit "hi")
        [lit "2799"]).1 []).1 =
      { method := lit "GET", url := lit "https://api.clickatell.com/rest/message",
        status := 200, response := lit "ACCEPTED" } := by
  refine ⟨?_, by decide, by decide⟩
  intro net c op hv
  obtain ⟨func, h⟩ := Operation.run_invalid net c op hv
  rw [h]
  refine ⟨rfl, rfl, rfl, rfl, rfl, rfl, rfl, rfl, rfl, rfl, rfl, ?_⟩
  unfold snapshot rejectInvalid
  simp only [c_str_requestName]

/-- Witness of C26: `SmsMessageStop("")` on the sample REST client stores the
request type DELETE and leaves the handle as it was. -/
theorem rejected_operation_frame_witness :
    (Operation.run (answeringNet (lit "OTHER")) sampleRestClient (.stop [])).1.eRequest =
      CLICK_CURL_DELETE ∧
    (Operation.run (answeringNet (lit "OTHER")) sampleRestClient (.stop [])).1.curlHandle =
      sampleRestClient.curlHandle :=
  ⟨(rejected_operation_frame.1 (answeringNet (lit "OTHER")) sampleRestClient (.stop [])
      rfl).1,
   (rejected_operation_frame.1 (answeringNet (lit "OTHER")) sampleRestClient (.stop [])
      rfl).2.2.2.2.2.2.2.2.2.1⟩

/-! ## Claims on the debug option -/

/-- C22 (code bug): the constructor of `ClickDebug` stores `CLICK_DEBUG_ON`
whatever option it is given, so a `ClickDebug` built with `CLICK_DEBUG_OFF`
prints; the API-key constructor called with `CLICK_DEBUG_OFF` yields the same
client as with `CLICK_DEBUG_ON`, and the rejected `SmsStatusGet("")` on it
prints the diagnostic. -/
theorem debug_off_still_prints :
    (∀ (eDebugOption : Int) (text : Str) (out : List Str),
      ClickDebug.Print (ClickDebug.ctor eDebugOption) text out = out ++ [text]) ∧
    ClickDebug.Print (ClickDebug.ctor CLICK_DEBUG_OFF) (lit "x") [] = [lit "x"] ∧
    ctorApiKey CLICK_DEBUG_OFF CLICK_API_REST (lit "KEY") (lit "42") 0 0 true
      sampleIndeterminate = .ok sampleRestClient ∧
    (SmsStatusGet (failingNet 7) sampleRestClient []).1.printed =
      [lit "SmsStatusGet ERROR: invalid parameter!\n"] := by
  refine ⟨fun _ _ _ => rfl, rfl, rfl, by decide⟩

/-! ## The request on the wire -/

theorem wireRequest_get (A : List CurlOpt) (hd : Option (List Str)) (u : Str)
    (hA : customRequest A = none) :
    wireRequest (A ++ ([ .HTTPHEADER hd, .URL u, .WRITEDATA ] ++ [ .HTTPGET 1 ])) =
      { method := lit "GET", url := u, headers := hd.getD [], body := none } := by
  unfold customRequest at hA
  simp [wireRequest, wireMethod, customRequest, requestedUrl, headersInForce, wireBody,
    List.findSome?_append, hA]

theorem wireRequest_delete (A : List CurlOpt) (hd : Option (List Str)) (u : Str) :
    wireRequest (A ++ ([ .HTTPHEADER hd, .URL u, .WRITEDATA ] ++
        [ .CUSTOMREQUEST (lit "DELETE") ])) =
      { method := lit "DELETE", url := u, headers := hd.getD [], body := wireBody A } := by
  simp [wireRequest, wireMethod, customRequest, requestedUrl, headersInForce, wireBody,
    List.findSome?_append]

theorem wireRequest_post (A : List CurlOpt) (hd : Option (List Str)) (u d : Str) (n : Nat)
    (hA : customRequest A = none) :
    wireRequest (A ++ ([ .HTTPHEADER hd, .URL u, .WRITEDATA ] ++
        [ .POST 1, .POSTFIELDS d, .POSTFIELDSIZE n ])) =
      { method := lit "POST", url := u, headers := hd.getD [], body := some (d.take n) } := by
  unfold customRequest at hA
  simp [wireRequest, wireMethod, customRequest, requestedUrl, headersInForce, wireBody,
    List.findSome?_append, hA]

theorem lastPerformed_of_issued (c c2 : ClickatellSms) (r : Int) (f u : Str)
    (v : List CurlOpt) (h : issued c c2 r f u v) :
    lastPerformed c2 = c.curlHandle ++ ([ .HTTPHEADER c.curlHeaders, .URL u, .WRITEDATA ] ++ v) := by
  unfold lastPerformed
  rw [h.2.2]
  simp
theorem SmsMessageSend_rest_wire (net : Transport) (c : ClickatellSms) (t : Str)
    (addrs : List Str) (hrest : c.eUserApiType = CLICK_API_REST) (ht : t ≠ [])
    (htn : nulFree t) (ha : addrs ≠ []) (han : ∀ a ∈ addrs, nulFree a)
    (hA : customRequest c.curlHandle = none) :
    wireRequest (lastPerformed (SmsMessageSend net c t addrs).1) =
      { method := lit "POST", url := sLocalBaseUrl ++ lit "rest/message",
        headers := c.curlHeaders.getD [], body := some (jsonSendBody t addrs) } := by
  have h := (SmsMessageSend_rest net c t addrs hrest ht htn ha han).2.2
  have hl : lastPerformed (SmsMessageSend net c t addrs).1 =
      c.curlHandle ++ ([ .HTTPHEADER c.curlHeaders, .URL (sLocalBaseUrl ++ lit "rest/message"),
        .WRITEDATA ] ++ [ .POST 1, .POSTFIELDS (jsonSendBody t addrs),
          .POSTFIELDSIZE (jsonSendBody t addrs).length ]) := by
    unfold lastPerformed
    rw [h]
    simp
  rw [hl, wireRequest_post _ _ _ _ _ hA, List.take_length]

/-- C1 (the code at the failing input): on the sample REST client, after a stop
of message `"abc"`, the send of `"Hi"` to `["123","456"]` selects the request
type POST and sets the URL and the body of the claim, yet libcurl sends it with
the method DELETE, the custom request the stop left on the handle; on the
client as constructed the same send goes out as POST. -/
theorem send_after_stop_goes_out_as_delete :
    (SmsMessageSend (failingNet 7) sampleRestClientAfterStop (lit "Hi")
      [lit "123", lit "456"]).1.eRequest = CLICK_CURL_POST ∧
    wireRequest (lastPerformed (SmsMessageSend (failingNet 7) sampleRestClientAfterStop
      (lit "Hi") [lit "123", lit "456"]).1) =
      { method := lit "DELETE", url := lit "https://api.clickatell.com/rest/message",
        headers := [ lit "X-Version: 1", lit "Content-Type: application/json",
          lit "Accept: application/json", lit "Authorization: Bearer KEY" ],
        body := some (jsonSendBody (lit "Hi") [lit "123", lit "456"]) } ∧
    wireRequest (lastPerformed (SmsMessageSend (failingNet 7) sampleRestClient
      (lit "Hi") [lit "123", lit "456"]).1) =
      { method := lit "POST", url := lit "https://api.clickatell.com/rest/message",
        headers := [ lit "X-Version: 1", lit "Content-Type: application/json",
          lit "Accept: application/json", lit "Authorization: Bearer KEY" ],
        body := some (jsonSendBody (lit "Hi") [lit "123", lit "456"]) } := by
  decide

/-! ## Claims on the REST operations other than a send -/

/-- C18 (as stated, refuted): for the message id `'a', 0x00, 'b'` the URL handed
to the transport by a REST status query ends in `rest/message/a`; it is not the
base URL followed by `rest/message/` and the id.  On the sample REST client
after a stop a status query goes out as DELETE, and a stop made after a send
goes out with the body of the send. -/
theorem C18_counterexample :
    (SmsStatusGet (failingNet 7) sampleRestClient [ch 'a', 0, ch 'b']).1.performed =
      [sampleRestClient.curlHandle ++
        [ .HTTPHEADER sampleRestClient.curlHeaders,
          .URL (lit "https://api.clickatell.com/rest/message/a"), .WRITEDATA, .HTTPGET 1 ]] ∧
    lit "https://api.clickatell.com/rest/message/a" ≠
      sLocalBaseUrl ++ lit "rest/message/" ++ [ch 'a', 0, ch 'b'] ∧
    (wireRequest (lastPerformed (SmsStatusGet (failingNet 7) sampleRestClientAfterStop
      (lit "abc")).1)).method = lit "DELETE" ∧
    (wireRequest (lastPerformed (SmsMessageStop (failingNet 7)
      (SmsMessageSend (failingNet 7) sampleRestClient (lit "Hi") [lit "123"]).1
      (lit "abc")).1)).body = some (jsonSendBody (lit "Hi") [lit "123"]) := by
  decide

/-- C18 (amended): on a JsonRest client, each operation other than a send,
called with a non-empty argument `x`, makes one request and stores as its URL
exactly the base URL followed by its path (`rest/message/x`, `rest/coverage/x`,
`rest/account/balance`), nothing appended; the URL of the request is that URL
up to the first `0x00` byte of `x`, all of it when `x` holds none.  On a handle
with no custom request in force the status, charge, coverage and balance
queries go out as GET with the header list of the client and no body; on a
handle with no POST body in force the stop goes out as DELETE with the header
list of the client and no body. -/
theorem rest_operations (net : Transport) (c : ClickatellSms) (x : Str)
    (hrest : c.eUserApiType = CLICK_API_REST) (hx : x ≠ []) :
    issued c (SmsStatusGet net c x).1 CLICK_CURL_GET
      (sLocalBaseUrl ++ (lit "rest/message/" ++ x))
      (sLocalBaseUrl ++ (lit "rest/message/" ++ c_str x)) [ .HTTPGET 1 ] ∧
    issued c (SmsChargeGet net c x).1 CLICK_CURL_GET
      (sLocalBaseUrl ++ (lit "rest/message/" ++ x))
      (sLocalBaseUrl ++ (lit "rest/message/" ++ c_str x)) [ .HTTPGET 1 ] ∧
    issued c (SmsCoverageGet net c x).1 CLICK_CURL_GET
      (sLocalBaseUrl ++ (lit "rest/coverage/" ++ x))
      (sLocalBaseUrl ++ (lit "rest/coverage/" ++ c_str x)) [ .HTTPGET 1 ] ∧
    issued c (SmsBalanceGet net c).1 CLICK_CURL_GET
      (sLocalBaseUrl ++ lit "rest/account/balance")
      (sLocalBaseUrl ++ lit "rest/account/balance") [ .HTTPGET 1 ] ∧
    issued c (SmsMessageStop net c x).1 CLICK_CURL_DELETE
      (sLocalBaseUrl ++ (lit "rest/message/" ++ x))
      (sLocalBaseUrl ++ (lit "rest/message/" ++ c_str x)) [ .CUSTOMREQUEST (lit "DELETE") ] ∧
    (customRequest c.curlHandle = none →
      wireRequest (lastPerformed (SmsStatusGet net c x).1) =
        { method := lit "GET", url := sLocalBaseUrl ++ (lit "rest/message/" ++ c_str x),
          headers := c.curlHeaders.getD [], body := none } ∧
      wireRequest (lastPerformed (SmsChargeGet net c x).1) =
        { method := lit "GET", url := sLocalBaseUrl ++ (lit "rest/message/" ++ c_str x),
          headers := c.curlHeaders.getD [], body := none } ∧
      wireRequest (lastPerformed (SmsCoverageGet net c x).1) =
        { method := lit "GET", url := sLocalBaseUrl ++ (lit "rest/coverage/" ++ c_str x),
          headers := c.curlHeaders.getD [], body := none } ∧
      wireRequest (lastPerformed (SmsBalanceGet net c).1) =
        { method := lit "GET", url := sLocalBaseUrl ++ lit "rest/account/balance",
          headers := c.curlHeaders.getD [], body := none }) ∧
    (wireBody c.curlHandle = none →
      wireRequest (lastPerformed (SmsMessageStop net c x).1) =
        { method := lit "DELETE", url := sLocalBaseUrl ++ (lit "rest/message/" ++ c_str x),
          headers := c.curlHeaders.getD [], body := none }) := by
  have hv : (!x.isEmpty) = true := by
    cases x with
    | nil => exact absurd rfl hx
    | cons a r => rfl
  have h1 := rest_issued net c (.status x) hrest hv
  have h2 := rest_issued net c (.charge x) hrest hv
  have h3 := rest_issued net c (.coverage x) hrest hv
  have h4 := rest_issued net c .balance hrest rfl
  have h5 := rest_issued net c (.stop x) hrest hv
  simp only [restPath, c_str_base_append "rest/message/" x (by decide)] at h1 h2 h5
  simp only [restPath, c_str_base_append "rest/coverage/" x (by decide)] at h3
  simp only [restPath, show c_str (sLocalBaseUrl ++ lit "rest/account/balance")
    = sLocalBaseUrl ++ lit "rest/account/balance" by decide] at h4
  refine ⟨h1, h2, h3, h4, h5, fun hA => ⟨?_, ?_, ?_, ?_⟩, fun hB => ?_⟩
  · show wireRequest (lastPerformed (Operation.run net c (.status x)).1) = _
    rw [lastPerformed_of_issued _ _ _ _ _ _ h1]
    exact wireRequest_get _ _ _ hA
  · show wireRequest (lastPerformed (Operation.run net c (.charge x)).1) = _
    rw [lastPerformed_of_issued _ _ _ _ _ _ h2]
    exact wireRequest_get _ _ _ hA
  · show wireRequest (lastPerformed (Operation.run net c (.coverage x)).1) = _
    rw [lastPerformed_of_issued _ _ _ _ _ _ h3]
    exact wireRequest_get _ _ _ hA
  · show wireRequest (lastPerformed (Operation.run net c .balance).1) = _
    rw [lastPerformed_of_issued _ _ _ _ _ _ h4]
    exact wireRequest_get _ _ _ hA
  · show wireRequest (lastPerformed (Operation.run net c (.stop x)).1) = _
    rw [lastPerformed_of_issued _ _ _ _ _ _ h5]
    show wireRequest (c.curlHandle ++ ([ .HTTPHEADER c.curlHeaders,
      .URL (sLocalBaseUrl ++ (lit "rest/message/" ++ c_str x)), .WRITEDATA ] ++
      [ .CUSTOMREQUEST (lit "DELETE") ])) = _
    rw [wireRequest_delete, hB]

/-- Witness of C18 (amended) on the sample REST client: a status query and a
stop for the id `"abc"`. -/
theorem rest_operations_witness :
    wireRequest (lastPerformed (SmsStatusGet (failingNet 7) sampleRestClient (lit "abc")).1) =
      { method := lit "GET", url := sLocalBaseUrl ++ (lit "rest/message/" ++ c_str (lit "abc")),
        headers := sampleRestClient.curlHeaders.getD [], body := none } ∧
    wireRequest (lastPerformed (SmsMessageStop (failingNet 7) sampleRestClient (lit "abc")).1) =
      { method := lit "DELETE",
        url := sLocalBaseUrl ++ (lit "rest/message/" ++ c_str (lit "abc")),
        headers := sampleRestClient.curlHeaders.getD [], body := none } :=
  ⟨((rest_operations (failingNet 7) sampleRestClient (lit "abc") rfl (by decide)).2.2.2.2.2.1
      (by decide)).1,
   (rest_operations (failingNet 7) sampleRestClient (lit "abc") rfl (by decide)).2.2.2.2.2.2
      (by decide)⟩
/-! ## Claims on status and charge under REST -/

/-- C27 (as stated, refuted): for the message id `'a', 0x00, 'b'` the URL of the
request of a REST charge query is the base URL followed by `rest/message/a`,
not by `rest/message/` and the id; and on the sample REST client after a stop
a charge query goes out as DELETE. -/
theorem C27_counterexample :
    (wireRequest (lastPerformed (SmsChargeGet (failingNet 7) sampleRestClient
      [ch 'a', 0, ch 'b']).1)).url = lit "https://api.clickatell.com/rest/message/a" ∧
    (wireRequest (lastPerformed (SmsChargeGet (failingNet 7) sampleRestClient
      [ch 'a', 0, ch 'b']).1)).url ≠ sLocalBaseUrl ++ lit "rest/message/" ++ [ch 'a', 0, ch 'b'] ∧
    (wireRequest (lastPerformed (SmsChargeGet (failingNet 7) sampleRestClientAfterStop
      (lit "abc")).1)).method = lit "DELETE" := by
  decide

/-- C27 (amended): under JsonRest, `SmsStatusGet` and `SmsChargeGet` called with
the same non-empty id give the same client and the same returned string,
whatever the transport answers: both make one call, store the base URL
followed by `rest/message/` and the id, and set on the handle the header list
of the client, that URL up to the first `0x00` byte of the id, and a plain GET.
On a handle with no custom request in force both requests go out as GET for
that URL with the header list of the client and no body. -/
theorem status_charge_same_request (net : Transport) (c : ClickatellSms) (sMsgId : Str)
    (hrest : c.eUserApiType = CLICK_API_REST) (hid : sMsgId ≠ []) :
    SmsStatusGet net c sMsgId = SmsChargeGet net c sMsgId ∧
    issued c (SmsStatusGet net c sMsgId).1 CLICK_CURL_GET
      (sLocalBaseUrl ++ (lit "rest/message/" ++ sMsgId))
      (sLocalBaseUrl ++ (lit "rest/message/" ++ c_str sMsgId)) [ .HTTPGET 1 ] ∧
    issued c (SmsChargeGet net c sMsgId).1 CLICK_CURL_GET
      (sLocalBaseUrl ++ (lit "rest/message/" ++ sMsgId))
      (sLocalBaseUrl ++ (lit "rest/message/" ++ c_str sMsgId)) [ .HTTPGET 1 ] ∧
    (customRequest c.curlHandle = none →
      wireRequest (lastPerformed (SmsStatusGet net c sMsgId).1) =
        { method := lit "GET", url := sLocalBaseUrl ++ (lit "rest/message/" ++ c_str sMsgId),
          headers := c.curlHeaders.getD [], body := none } ∧
      wireRequest (lastPerformed (SmsChargeGet net c sMsgId).1) =
        { method := lit "GET", url := sLocalBaseUrl ++ (lit "rest/message/" ++ c_str sMsgId),
          headers := c.curlHeaders.getD [], body := none }) := by
  have hne : ¬ c.eUserApiType = CLICK_API_HTTP := by rw [hrest]; decide
  have hx := CLICK_STR_INVALID_of_ne sMsgId hid
  have heq : SmsStatusGet net c sMsgId = SmsChargeGet net c sMsgId := by
    simp only [SmsStatusGet, SmsChargeGet, hx, Bool.false_eq_true, if_false, if_neg hne]
  have hv : (!sMsgId.isEmpty) = true := by
    cases sMsgId with
    | nil => exact absurd rfl hid
    | cons a r => rfl
  have h1 := rest_issued net c (.status sMsgId) hrest hv
  simp only [restPath, c_str_base_append "rest/message/" sMsgId (by decide)] at h1
  have hw : customRequest c.curlHandle = none →
      wireRequest (lastPerformed (SmsStatusGet net c sMsgId).1) =
        { method := lit "GET", url := sLocalBaseUrl ++ (lit "rest/message/" ++ c_str sMsgId),
          headers := c.curlHeaders.getD [], body := none } := by
    intro hA
    show wireRequest (lastPerformed (Operation.run net c (.status sMsgId)).1) = _
    rw [lastPerformed_of_issued _ _ _ _ _ _ h1]
    exact wireRequest_get _ _ _ hA
  refine ⟨heq, h1, ?_, fun hA => ⟨hw hA, ?_⟩⟩
  · rw [← heq]
    exact h1
  · rw [← heq]
    exact hw hA

/-- Witness of C27 (amended) on the sample REST client with the id `"abc"`. -/
theorem status_charge_same_request_witness :
    SmsStatusGet (answeringNet (lit "OK")) sampleRestClient (lit "abc") =
      SmsChargeGet (answeringNet (lit "OK")) sampleRestClient (lit "abc") ∧
    wireRequest (lastPerformed (SmsChargeGet (answeringNet (lit "OK")) sampleRestClient
      (lit "abc")).1) =
      { method := lit "GET",
        url := sLocalBaseUrl ++ (lit "rest/message/" ++ c_str (lit "abc")),
        headers := sampleRestClient.curlHeaders.getD [], body := none } :=
  ⟨(status_charge_same_request (answeringNet (lit "OK")) sampleRestClient (lit "abc") rfl
      (by decide)).1,
   ((status_charge_same_request (answeringNet (lit "OK")) sampleRestClient (lit "abc") rfl
      (by decide)).2.2.2 (by decide)).2⟩

/-! ## Claims on the introspection snapshot: what it shows after a call -/

theorem wireMethod_executeOpts (s : ClickatellSms) (post : Str)
    (hA : customRequest s.curlHandle = none)
    (hr : s.eRequest = CLICK_CURL_POST ∨ s.eRequest = CLICK_CURL_GET ∨
      s.eRequest = CLICK_CURL_DELETE)
    (hp : s.eRequest = CLICK_CURL_POST → post ≠ []) :
    wireMethod (s.curlHandle ++ executeOpts s post) = requestName s.eRequest := by
  unfold customRequest at hA
  unfold executeOpts requestName
  by_cases h1 : s.eRequest = CLICK_CURL_POST
  · have hne := hp h1
    have hq : CLICK_STR_INVALID post = false := CLICK_STR_INVALID_of_ne post hne
    have hl : 0 < post.length := List.length_pos.mpr hne
    simp only [if_pos h1]
    simp [hq, hl, wireMethod, customRequest, List.findSome?_append, hA]
  · by_cases h2 : s.eRequest = CLICK_CURL_DELETE
    · have h3 : ¬ s.eRequest = CLICK_CURL_GET := by rw [h2]; decide
      simp only [if_neg h1, if_pos h2, if_neg h3]
      simp [wireMethod, customRequest, List.findSome?_append]
    · by_cases h3 : s.eRequest = CLICK_CURL_GET
      · simp only [if_neg h1, if_neg h2, if_pos h3]
        simp [wireMethod, customRequest, List.findSome?_append, hA]
      · rcases hr with h | h | h
        · exact absurd h h1
        · exact absurd h h3
        · exact absurd h h2

theorem buildApiParams_ne_nil (t : Int) (k : ClickKeyVal) (kv : List ClickKeyVal)
    (ms : List Str) (h : ¬ t = CLICK_API_HTTP) : buildApiParams t (k :: kv) ms ≠ [] := by
  unfold buildApiParams
  simp [h, lit]

theorem LocalApiCommandExecute_wireMethod (net : Transport) (s : ClickatellSms)
    (sPath : Str) (kv : List ClickKeyVal) (ms : List Str) (hp : sPath ≠ [])
    (hA : customRequest s.curlHandle = none)
    (hr : s.eRequest = CLICK_CURL_POST ∨ s.eRequest = CLICK_CURL_GET ∨
      s.eRequest = CLICK_CURL_DELETE)
    (hpost : s.eRequest = CLICK_CURL_POST →
      kv.isEmpty = false ∧ buildApiParams s.eUserApiType kv ms ≠ []) :
    wireMethod (lastPerformed (LocalApiCommandExecute net s sPath kv ms)) =
      requestName s.eRequest := by
  unfold LocalApiCommandExecute
  rw [CLICK_STR_INVALID_of_ne sPath hp]
  simp only [Bool.false_eq_true, if_false]
  split
  · split
    · rename_i h1 h2
      rw [LocalCurlExecute_lastPerformed]
      exact wireMethod_executeOpts _ _ hA hr (fun h => (hpost h).2)
    · rename_i h1 h2
      rw [LocalCurlExecute_lastPerformed]
      exact wireMethod_executeOpts _ _ hA hr (fun h => absurd h h2)
  · rename_i h1
    rw [LocalCurlExecute_lastPerformed]
    refine wireMethod_executeOpts _ _ hA hr (fun h => ?_)
    have := (hpost h).1
    simp [this] at h1
theorem Operation.run_wireMethod (net : Transport) (c : ClickatellSms) (op : Operation)
    (hv : op.valid = true) (hA : customRequest c.curlHandle = none) :
    wireMethod (lastPerformed (op.run net c).1) =
      requestName (requestType c.eUserApiType op) := by
  have hne : ∀ x : Str, lit "rest/message/" ++ x ≠ [] := fun x => lit_append_ne_nil _ _ (by decide)
  have hne2 : ∀ x : Str, lit "rest/coverage/" ++ x ≠ [] :=
    fun x => lit_append_ne_nil _ _ (by decide)
  have gp : (CLICK_CURL_GET : Int) ≠ CLICK_CURL_POST := by decide
  have dp : (CLICK_CURL_DELETE : Int) ≠ CLICK_CURL_POST := by decide
  cases op with
  | send t a =>
    simp only [Operation.valid, Bool.and_eq_true] at hv
    have ha : a.isEmpty = false := by
      cases a with
      | nil => simp at hv
      | cons x r => rfl
    simp only [Operation.run, SmsMessageSend, isEmpty_eq_false_of_not t hv.1, ha, Bool.or_self,
      Bool.false_eq_true, if_false]
    split <;> rename_i hh
    · rw [requestType_http _ _ hh]
      exact LocalApiCommandExecute_wireMethod net _ _ _ _ (by decide) hA (Or.inr (Or.inl rfl))
        (fun h => absurd h gp)
    · rw [requestType_rest _ _ hh]
      exact LocalApiCommandExecute_wireMethod net _ _ _ _ (by decide) hA (Or.inl rfl)
        (fun _ => ⟨rfl, buildApiParams_ne_nil _ _ _ _ hh⟩)
  | status x =>
    simp only [Operation.valid] at hv
    simp only [Operation.run, SmsStatusGet, isEmpty_eq_false_of_not x hv, Bool.false_eq_true,
      if_false]
    split <;> rename_i hh
    · rw [requestType_http _ _ hh]
      exact LocalApiCommandExecute_wireMethod net _ _ _ _ (by decide) hA (Or.inr (Or.inl rfl))
        (fun h => absurd h gp)
    · rw [requestType_rest _ _ hh]
      exact LocalApiCommandExecute_wireMethod net _ _ _ _ (hne x) hA (Or.inr (Or.inl rfl))
        (fun h => absurd h gp)
  | balance =>
    simp only [Operation.run, SmsBalanceGet]
    split <;> rename_i hh
    · rw [requestType_http _ _ hh]
      exact LocalApiCommandExecute_wireMethod net _ _ _ _ (by decide) hA (Or.inr (Or.inl rfl))
        (fun h => absurd h gp)
    · rw [requestType_rest _ _ hh]
      exact LocalApiCommandExecute_wireMethod net _ _ _ _ (by decide) hA (Or.inr (Or.inl rfl))
        (fun h => absurd h gp)
  | charge x =>
    simp only [Operation.valid] at hv
    simp only [Operation.run, SmsChargeGet, isEmpty_eq_false_of_not x hv, Bool.false_eq_true,
      if_false]
    split <;> rename_i hh
    · rw [requestType_http _ _ hh]
      exact LocalApiCommandExecute_wireMethod net _ _ _ _ (by decide) hA (Or.inr (Or.inl rfl))
        (fun h => absurd h gp)
    · rw [requestType_rest _ _ hh]
      exact LocalApiCommandExecute_wireMethod net _ _ _ _ (hne x) hA (Or.inr (Or.inl rfl))
        (fun h => absurd h gp)
  | coverage x =>
    simp only [Operation.valid] at hv
    simp only [Operation.run, SmsCoverageGet, isEmpty_eq_false_of_not x hv, Bool.false_eq_true,
      if_false]
    split <;> rename_i hh
    · rw [requestType_http _ _ hh]
      exact LocalApiCommandExecute_wireMethod net _ _ _ _ (by decide) hA (Or.inr (Or.inl rfl))
        (fun h => absurd h gp)
    · rw [requestType_rest _ _ hh]
      exact LocalApiCommandExecute_wireMethod net _ _ _ _ (hne2 x) hA (Or.inr (Or.inl rfl))
        (fun h => absurd h gp)
  | stop x =>
    simp only [Operation.valid] at hv
    simp only [Operation.run, SmsMessageStop, isEmpty_eq_false_of_not x hv, Bool.false_eq_true,
      if_false]
    split <;> rename_i hh
    · rw [requestType_http _ _ hh]
      exact LocalApiCommandExecute_wireMethod net _ _ _ _ (by decide) hA (Or.inr (Or.inl rfl))
        (fun h => absurd h gp)
    · rw [requestType_rest _ _ hh]
      exact LocalApiCommandExecute_wireMethod net _ _ _ _ (hne x) hA (Or.inr (Or.inr rfl))
        (fun h => absurd h dp)

theorem snapshot_of_reflects (net : Transport) (s c2 : ClickatellSms) (b : Str)
    (h : reflectsCall net s c2) (hne : b ≠ []) (hlen : b.length < 2 ^ 31)
    (hok : succeedsWith (net (lastPerformed c2)) [b])
    (hinfo : (net (lastPerformed c2)).infoCode = CURLE_OK) :
    snapshot c2 =
      { method := requestName s.eRequest, url := (requestedUrl (lastPerformed c2)).getD [],
        status := (net (lastPerformed c2)).responseCode, response := c_str b } ∧
    c2.performed = s.performed ++ [lastPerformed c2] ∧
    requestedUrl (lastPerformed c2) = some (snapshot c2).url := by
  obtain ⟨h1, _, h3, h4, h5, h6⟩ := h
  refine ⟨?_, h3, h4⟩
  unfold snapshot
  rw [h4, h5, h6, hok.2, responseAfter_single b _ hne hlen,
    if_pos ⟨hok.1, hinfo⟩, h1, c_str_requestName, c_str_idem]
  rfl

/-- C21 (as stated, refuted): a balance query whose transfer succeeds with an
empty body, made after a balance query answered `"FIRST"`, leaves `"FIRST"` in
the snapshot; a body holding a `0x00` byte is shown cut at that byte; a body
delivered in the pieces `"ab"`, `"cd"` is shown as `"cd"`; and after a stop a
balance query is shown as GET while it goes out as DELETE. -/
theorem C21_counterexample :
    succeedsWith (deliveringNet [] []) [] ∧
    snapshot (SmsBalanceGet (deliveringNet [])
      (SmsBalanceGet (answeringNet (lit "FIRST")) sampleRestClient).1).1 =
      { method := lit "GET", url := lit "https://api.clickatell.com/rest/account/balance",
        status := 200, response := lit "FIRST" } ∧
    (snapshot (SmsBalanceGet (answeringNet [ch 'a', 0, ch 'b']) sampleRestClient).1).response =
      lit "a" ∧
    (snapshot (SmsBalanceGet (deliveringNet [lit "ab", lit "cd"]) sampleRestClient).1).response =
      lit "cd" ∧
    (snapshot (SmsBalanceGet (answeringNet (lit "5")) sampleRestClientAfterStop).1).method =
      lit "GET" ∧
    wireMethod (lastPerformed (SmsBalanceGet (answeringNet (lit "5"))
      sampleRestClientAfterStop).1) = lit "DELETE" := by
  refine ⟨⟨rfl, rfl⟩, ?_, ?_, ?_, ?_, ?_⟩ <;> decide

/-- C21 (amended): the text `operator<<` writes is made of the four values of
the snapshot.  After an operation called with valid arguments on a handle with
no custom request in force, whose transfer and status query succeed and whose
body arrives in one non-empty piece (shorter than `2^31` bytes), these are the
method the request went out with, which is the verb of the operation, the URL
set on the handle for that call, the status answered and the body up to its
first `0x00` byte; and this holds after any earlier operation that leaves no
custom request in force, of which nothing is left in the snapshot. -/
theorem snapshot_of_last_call :
    (∀ (os : Str) (c : ClickatellSms), operator_lshift os c =
      os ++ lit "Curl " ++ (snapshot c).method ++ lit "-Request URL:\n" ++ (snapshot c).url ++
        lit "\n" ++ lit "Curl HTTP response code:\n" ++ lit (toString (snapshot c).status) ++
        lit "\n" ++ lit "Curl response:\n" ++ (snapshot c).response ++ lit "\n") ∧
    (∀ (net : Transport) (c : ClickatellSms) (op : Operation) (b : Str),
      op.valid = true → customRequest c.curlHandle = none →
      b ≠ [] → b.length < 2 ^ 31 →
      succeedsWith (net (lastPerformed (op.run net c).1)) [b] →
      (net (lastPerformed (op.run net c).1)).infoCode = CURLE_OK →
      snapshot (op.run net c).1 =
        snapshotOfCall (lastPerformed (op.run net c).1)
          (net (lastPerformed (op.run net c).1)) b ∧
      (snapshot (op.run net c).1).method = requestName (requestType c.eUserApiType op) ∧
      (op.run net c).1.performed = c.performed ++ [lastPerformed (op.run net c).1] ∧
      requestedUrl (lastPerformed (op.run net c).1) = some (snapshot (op.run net c).1).url) ∧
    (∀ (net1 net : Transport) (c : ClickatellSms) (op1 op : Operation) (b : Str),
      op.valid = true → customRequest (op1.run net1 c).1.curlHandle = none →
      b ≠ [] → b.length < 2 ^ 31 →
      succeedsWith (net (lastPerformed (op.run net (op1.run net1 c).1).1)) [b] →
      (net (lastPerformed (op.run net (op1.run net1 c).1).1)).infoCode = CURLE_OK →
      snapshot (op.run net (op1.run net1 c).1).1 =
        snapshotOfCall (lastPerformed (op.run net (op1.run net1 c).1).1)
          (net (lastPerformed (op.run net (op1.run net1 c).1).1)) b ∧
      (snapshot (op.run net (op1.run net1 c).1).1).method =
        requestName (requestType c.eUserApiType op)) := by
  have key : ∀ (net : Transport) (c : ClickatellSms) (op : Operation) (b : Str),
      op.valid = true → customRequest c.curlHandle = none →
      b ≠ [] → b.length < 2 ^ 31 →
      succeedsWith (net (lastPerformed (op.run net c).1)) [b] →
      (net (lastPerformed (op.run net c).1)).infoCode = CURLE_OK →
      snapshot (op.run net c).1 =
        snapshotOfCall (lastPerformed (op.run net c).1)
          (net (lastPerformed (op.run net c).1)) b ∧
      (snapshot (op.run net c).1).method = requestName (requestType c.eUserApiType op) ∧
      (op.run net c).1.performed = c.performed ++ [lastPerformed (op.run net c).1] ∧
      requestedUrl (lastPerformed (op.run net c).1) = some (snapshot (op.run net c).1).url := by
    intro net c op b hv hA hne hlen hok hinfo
    have h := snapshot_of_reflects net _ _ b (Operation.run_reflects net c op hv)
      hne hlen hok hinfo
    have hw := Operation.run_wireMethod net c op hv hA
    refine ⟨?_, ?_, h.2.1, h.2.2⟩
    · rw [h.1]
      unfold snapshotOfCall
      rw [hw]
    · rw [h.1]
  refine ⟨fun os c => rfl, key, ?_⟩
  intro net1 net c op1 op b hv hA hne hlen hok hinfo
  have h := key net (op1.run net1 c).1 op b hv hA hne hlen hok hinfo
  rw [Operation.run_eUserApiType] at h
  exact ⟨h.1, h.2.1⟩

/-- Witness of C21 (amended): on the sample REST client a balance query answered
`"SECOND"` with status 200, made after a send answered `"FIRST"`, leaves the
snapshot GET, the balance URL, 200 and `"SECOND"`. -/
theorem snapshot_of_last_call_witness :
    snapshot (Operation.run (answeringNet (lit "SECOND"))
      (Operation.run (answeringNet (lit "FIRST")) sampleRestClient
        (.send (lit "hi") [lit "2799"])).1 .balance).1 =
      { method := lit "GET", url := lit "https://api.clickatell.com/rest/account/balance",
        status := 200, response := lit "SECOND" } :=
  ((snapshot_of_last_call.2.2 (answeringNet (lit "FIRST")) (answeringNet (lit "SECOND"))
    sampleRestClient (.send (lit "hi") [lit "2799"]) .balance (lit "SECOND") rfl (by decide)
    (by decide) (by decide) ⟨rfl, rfl⟩ rfl).1).trans (by decide)

end Clickatell
